import Mathlib

/-!
# Command queue of the Vulkan-backed OpenCL front end

A shallow embedding of `src/libANGLE/renderer/vulkan/CLCommandQueueVk.cpp`.
The queue object becomes a record of its member variables; every member
function becomes a pure function from the record (and the call's arguments)
to the result discriminant and the new record.  Pointers are natural numbers
(addresses); the recording scope `mComputePassCommands` is an optional record
holding the ordered command list.  Outcomes of collaborators that live outside
the file (descriptor pool, pipeline cache, renderer) are inputs of the call.
The capacity `kMaxDependencyTrackerSize` of the Hazard Set is declared in the
header of the class; every function that reads it takes it as a parameter.
-/

namespace CLCommandQueueVk

/-! ## Data model -/

/-- The result discriminant `angle::Result`; a `Stop` carries the CL error code
that `ANGLE_CL_RETURN_ERROR` / `ANGLE_CL_IMPL_TRY_ERROR` set before returning. -/
inductive Result where
  | Continue
  | Stop (err : Int)
deriving DecidableEq, Repr

/-- OpenCL error code `CL_OUT_OF_RESOURCES`. -/
def CL_OUT_OF_RESOURCES : Int := -5

/-- OpenCL error code `CL_OUT_OF_HOST_MEMORY`. -/
def CL_OUT_OF_HOST_MEMORY : Int := -6

/-- Modelled from the spec: the `Serial` class, whose declaration is in another
file.  A serial is a monotonically increasing counter value. -/
abbrev Serial := Nat

/-- Modelled from the spec: the default-constructed `Serial()`, the seed that
"already appears complete"; it is the least counter value. -/
def Serial.initial : Serial := 0

/-- A `QueueSerial`: the pair of queue identity (serial index) and serial. -/
structure QueueSerial where
  index : Nat
  serial : Serial
deriving DecidableEq, Repr

/-- Modelled from the spec: the invalid sentinel `kInvalidQueueSerialIndex` of
the serial index, whose declaration is in another file; the all-ones value of
the 32-bit index type. -/
def kInvalidQueueSerialIndex : Nat := 4294967295

/-- Modelled from the spec: the completion query of the Serial Tracker, which
belongs to the renderer: "internal events resolve purely by serial comparison"
against the serial the device has confirmed for that queue. -/
def hasQueueSerialFinished (lastCompleted : Serial) (qs : QueueSerial) : Bool :=
  decide (qs.serial ≤ lastCompleted)

/-- A front-end event as `processWaitlist` sees it. -/
structure Event where
  ptr : Nat
  /-- The value of `getImpl<CLEventVk>().isUserEvent()`. -/
  isUserEvent : Bool
  /-- The value of `getCommandQueue()`: the address of the producing queue. -/
  commandQueue : Nat
  /-- The queue serial stamped by `setQueueSerial`. -/
  queueSerial : QueueSerial
deriving DecidableEq, Repr

/-- A memory object (`cl::Memory` together with its `CLBufferVk`). -/
structure Memory where
  /-- The address of the `cl::Memory` object: its identity. -/
  ptr : Nat
  size : Nat
  offset : Nat
  isSubBuffer : Bool
  /-- The value of `vkMem.getBuffer().getBuffer().getHandle()`. -/
  bufferHandle : Nat
  /-- The value of `vkMem.getParent()->getBuffer().getBuffer().getHandle()`. -/
  parentBufferHandle : Nat
deriving DecidableEq, Repr

/-- The argument kinds the `switch (arg.type)` of `processKernelResources`
names, and `other` for every remaining tag (the `default:` label). -/
inductive ArgType where
  | Uniform
  | StorageBuffer
  | PodPushConstant
  | Sampler
  | PodUniform
  | StorageImage
  | SampledImage
  | PointerUniform
  | PodStorageBuffer
  | UniformTexelBuffer
  | StorageTexelBuffer
  | PointerPushConstant
  | other (tag : Nat)
deriving DecidableEq, Repr

/-- One kernel argument (`CLKernelArgument`).  `handle` is the raw data behind
`arg.handle` for a POD argument; `clMem` is the memory object that
`cl::Buffer::Cast(*static_cast<const cl_mem *>(arg.handle))` yields for a
buffer argument. -/
structure KernelArg where
  type : ArgType
  handle : List Nat
  clMem : Memory
  descriptorBinding : Nat
  pushConstOffset : Nat
  pushConstantSize : Nat
deriving DecidableEq, Repr

/-- A `VkPushConstantRange` (offset and size). -/
structure PushConstantRange where
  offset : Nat
  size : Nat
deriving DecidableEq, Repr

/-- The dispatch shape `cl::NDRange`. -/
structure NDRange where
  workDimensions : Nat
  globalWorkOffset : List Nat
  globalWorkSize : List Nat
  localWorkSize : List Nat
deriving DecidableEq, Repr

/-- The commands this file records into the command buffer. -/
inductive Command where
  /-- The call `pipelineBarrier(COMPUTE, COMPUTE, 0, 1, &memoryBarrier, ...)`. -/
  | pipelineBarrier
  | pushConstants (offset size : Nat) (data : List Nat)
  | bindDescriptorSets (descriptorSet : Nat)
  | bindComputePipeline (pipeline : Nat)
  | dispatch (x y z : Nat)
deriving DecidableEq, Repr

/-- The recording scope behind `mComputePassCommands`. -/
structure CommandBufferHelper where
  /-- The command buffer, in record order. -/
  commands : List Command
  /-- Resources retained by `retainResource`. -/
  retained : List Nat
  /-- The serial set by `setQueueSerial`. -/
  queueSerial : QueueSerial
deriving DecidableEq, Repr

/-- A `VkWriteDescriptorSet` with the `VkDescriptorBufferInfo` it points to. -/
structure WriteDescriptorSet where
  descriptorCount : Nat
  /-- True for `VK_DESCRIPTOR_TYPE_UNIFORM_BUFFER`, false for
  `VK_DESCRIPTOR_TYPE_STORAGE_BUFFER`. -/
  isUniformBuffer : Bool
  dstSet : Nat
  dstBinding : Nat
  range : Nat
  offset : Nat
  buffer : Nat
deriving DecidableEq, Repr

/-- The member variables of `CLCommandQueueVk`. -/
structure Queue where
  /-- The address of the front-end queue `mCommandQueue`. -/
  mCommandQueue : Nat
  /-- The recording scope; `none` is the null pointer the constructor sets. -/
  mComputePassCommands : Option CommandBufferHelper
  mCurrentQueueSerialIndex : Nat
  mLastFlushedQueueSerial : QueueSerial
  mLastSubmittedQueueSerial : QueueSerial
  mMemoryCaptures : List Memory
  mAssociatedEvents : List Event
  mDependantEvents : List Event
  /-- The Hazard Set: addresses of the memory objects being tracked. -/
  mDependencyTracker : Finset Nat
  /-- The descriptor writes that `flushDescriptorSetUpdates` has handed to the
  device, in order (the device side of the queue, not a member variable). -/
  descriptorUpdates : List WriteDescriptorSet

/-- The constructor `CLCommandQueueVk::CLCommandQueueVk`. -/
def construct (commandQueue : Nat) : Queue where
  mCommandQueue := commandQueue
  mComputePassCommands := none
  mCurrentQueueSerialIndex := kInvalidQueueSerialIndex
  mLastFlushedQueueSerial := ⟨kInvalidQueueSerialIndex, Serial.initial⟩
  mLastSubmittedQueueSerial := ⟨kInvalidQueueSerialIndex, Serial.initial⟩
  mMemoryCaptures := []
  mAssociatedEvents := []
  mDependantEvents := []
  mDependencyTracker := ∅
  descriptorUpdates := []

/-- The commands recorded so far in the queue's recording scope. -/
def recorded (q : Queue) : List Command :=
  match q.mComputePassCommands with
  | some h => h.commands
  | none => []

/-- A call `mComputePassCommands->getCommandBuffer().<command>(...)`: the
command is appended to the command buffer of the recording scope. -/
def record (c : Command) (q : Queue) : Queue :=
  { q with mComputePassCommands :=
      q.mComputePassCommands.map fun h => { h with commands := h.commands ++ [c] } }

/-- A call `mComputePassCommands->retainResource(resource)`. -/
def retainResource (resource : Nat) (q : Queue) : Queue :=
  { q with mComputePassCommands :=
      q.mComputePassCommands.map fun h => { h with retained := h.retained ++ [resource] } }

/-- A call `mComputePassCommands->setQueueSerial(index, serial)`. -/
def setQueueSerial (index : Nat) (serial : Serial) (q : Queue) : Queue :=
  { q with mComputePassCommands :=
      q.mComputePassCommands.map fun h => { h with queueSerial := ⟨index, serial⟩ } }

/-- The number of memory barriers in a command list. -/
def barrierCount (cs : List Command) : Nat :=
  cs.count Command.pipelineBarrier

/-! ## Waitlist processing -/

/-- The test of the first branch of the loop in `processWaitlist`:
`isUserEvent() || getCommandQueue() != &mCommandQueue`. -/
def isDeferred (q : Queue) (event : Event) : Bool :=
  event.isUserEvent || event.commandQueue != q.mCommandQueue

/-- Whether a wait-list entry is resolved in the recording scope: it is not a
user event and its producing queue is this queue. -/
def isSameQueue (q : Queue) (event : Event) : Bool :=
  !event.isUserEvent && event.commandQueue == q.mCommandQueue

/-- One iteration of the loop in `processWaitlist`, on the pair of the local
`insertedBarrier` and the queue. -/
def processWaitEvent (st : Bool × Queue) (event : Event) : Bool × Queue :=
  if isDeferred st.2 event then
    (st.1, { st.2 with mDependantEvents := st.2.mDependantEvents ++ [event] })
  else if event.commandQueue == st.2.mCommandQueue && !st.1 then
    (true, record Command.pipelineBarrier st.2)
  else
    st

/-- The function `CLCommandQueueVk::processWaitlist`. -/
def processWaitlist (waitEvents : List Event) (q : Queue) : Result × Queue :=
  if !waitEvents.isEmpty then
    (Result.Continue, (waitEvents.foldl processWaitEvent (false, q)).2)
  else
    (Result.Continue, q)

/-! ## Kernel resources and hazard tracking -/

/-- A kernel (`CLKernelVk`) with what this file reads of its program data. -/
structure Kernel where
  /-- The argument list `getArgs()`, in declaration order. -/
  args : List KernelArg
  /-- The value of `getGlobalOffsetRange()`; `none` is the null pointer. -/
  globalOffsetRange : Option PushConstantRange
  /-- The value of `getGlobalSizeRange()`; `none` is the null pointer. -/
  globalSizeRange : Option PushConstantRange
deriving DecidableEq, Repr

/-- The outcomes, for one enqueue, of the collaborators outside this file. -/
structure DispatchEnv where
  /-- The outcome of `allocateDescriptorSet`: the descriptor set, or `none`
  with the error code the callee set. -/
  allocateDescriptorSet : Option Nat
  allocateDescriptorSetError : Int
  /-- Whether `getRenderer()->getPipelineCache` succeeded. -/
  getPipelineCache : Bool
  /-- The outcome of `getOrCreateComputePipeline`: the pipeline helper, its
  pipeline and the workgroup count, or `none` with the error code. -/
  getOrCreateComputePipeline : Option (Nat × Nat × Nat × Nat × Nat)
  getOrCreateComputePipelineError : Int
deriving DecidableEq, Repr

/-- The locals of `processKernelResources` that its argument loop updates,
together with the queue. -/
structure ArgLoop where
  needsBarrier : Bool
  /-- The writes allocated from `updateDescriptorSetsBuilder`. -/
  writes : List WriteDescriptorSet
  q : Queue

/-- The block "Handle possible resource RAW hazard" for a non-uniform buffer:
on the pair of `needsBarrier` and `mDependencyTracker`. -/
def observeHazard (kMaxDependencyTrackerSize : Nat) (clMem : Nat)
    (st : Bool × Finset Nat) : Bool × Finset Nat :=
  let st1 : Bool × Finset Nat :=
    if clMem ∈ st.2 ∨ st.2.card = kMaxDependencyTrackerSize then (true, ∅) else st
  (st1.1, insert clMem st1.2)

/-- The block "Update buffer/descriptor info": the descriptor write allocated
for a buffer argument. -/
def writeDescriptorSetFor (descriptorSet : Nat) (arg : KernelArg) : WriteDescriptorSet :=
  { descriptorCount := 1
    isUniformBuffer := decide (arg.type = ArgType.Uniform)
    dstSet := descriptorSet
    dstBinding := arg.descriptorBinding
    range := arg.clMem.size
    offset := arg.clMem.offset
    buffer := if arg.clMem.isSubBuffer then arg.clMem.parentBufferHandle
              else arg.clMem.bufferHandle }

/-- One iteration of the loop over `kernelVk.getArgs()`. -/
def processKernelArg (kMaxDependencyTrackerSize descriptorSet : Nat)
    (st : ArgLoop) (arg : KernelArg) : ArgLoop :=
  match arg.type with
  | ArgType.Uniform | ArgType.StorageBuffer =>
    let clMem := arg.clMem
    let q1 : Queue := { st.q with mMemoryCaptures := st.q.mMemoryCaptures ++ [clMem] }
    let hz : Bool × Finset Nat :=
      if arg.type ≠ ArgType.Uniform then
        observeHazard kMaxDependencyTrackerSize clMem.ptr
          (st.needsBarrier, q1.mDependencyTracker)
      else (st.needsBarrier, q1.mDependencyTracker)
    let writeDescriptorSet := writeDescriptorSetFor descriptorSet arg
    { needsBarrier := hz.1
      writes := st.writes ++ [writeDescriptorSet]
      q := { q1 with mDependencyTracker := hz.2 } }
  | ArgType.PodPushConstant =>
    let c := Command.pushConstants arg.pushConstOffset arg.pushConstantSize arg.handle
    { st with q := record c st.q }
  | _ =>
    -- UNIMPLEMENTED() logs a warning; the loop goes on with the next argument
    st

/-- The blocks "Push global offset data" and "Push global size data" of
`processKernelResources`. -/
def pushGlobals (kernelVk : Kernel) (ndrange : NDRange) (q : Queue) : Queue :=
  let q1 := match kernelVk.globalOffsetRange with
    | some r => record (Command.pushConstants r.offset r.size ndrange.globalWorkOffset) q
    | none => q
  match kernelVk.globalSizeRange with
    | some r => record (Command.pushConstants r.offset r.size ndrange.globalWorkSize) q1
    | none => q1

/-- The state in which the argument loop of `processKernelResources` starts:
`needsBarrier` is false and the descriptor builder is empty. -/
def argLoopStart (kernelVk : Kernel) (ndrange : NDRange) (q : Queue) : ArgLoop :=
  ⟨false, [], pushGlobals kernelVk ndrange q⟩

/-- The function `CLCommandQueueVk::processKernelResources`. -/
def processKernelResources (kMaxDependencyTrackerSize : Nat) (env : DispatchEnv)
    (kernelVk : Kernel) (ndrange : NDRange) (q : Queue) : Result × Queue :=
  match env.allocateDescriptorSet with
  | none => (Result.Stop env.allocateDescriptorSetError, q)
  | some descriptorSet =>
    let st := kernelVk.args.foldl
      (processKernelArg kMaxDependencyTrackerSize descriptorSet)
      (argLoopStart kernelVk ndrange q)
    let q3 := if st.needsBarrier then record Command.pipelineBarrier st.q else st.q
    let q4 : Queue := { q3 with descriptorUpdates := q3.descriptorUpdates ++ st.writes }
    (Result.Continue, record (Command.bindDescriptorSets descriptorSet) q4)

/-! ## Events -/

/-- The function `CLCommandQueueVk::createEvent`.  The flag `createFunc` says
whether the pointer is non-null; the Boolean returned says whether the
caller's `*createFunc` has been assigned the factory of this queue. -/
def createEvent (createFunc : Bool) (q : Queue) : Result × Queue × Bool :=
  if createFunc then (Result.Continue, q, true) else (Result.Continue, q, false)

/-- The body of the factory that `createEvent` installs.  `allocated` is the
object `new (std::nothrow) CLEventVk(event)` returned, `none` for a null
pointer; the result is the returned event, the error code set (if any) and the
queue. -/
def eventFactory (allocated : Option Event) (q : Queue) : Option Event × Option Int × Queue :=
  match allocated with
  | none => (none, some CL_OUT_OF_HOST_MEMORY, q)
  | some eventVk =>
    let stamped : Event :=
      match q.mComputePassCommands with
      | some h => { eventVk with queueSerial := h.queueSerial }
      | none => eventVk
    (some stamped, none, { q with mAssociatedEvents := q.mAssociatedEvents ++ [stamped] })

/-! ## Enqueue operations -/

/-- The function `CLCommandQueueVk::enqueueNDRangeKernel`.  The third component
says whether the caller's event factory has been assigned. -/
def enqueueNDRangeKernel (kMaxDependencyTrackerSize : Nat) (env : DispatchEnv)
    (kernel : Kernel) (ndrange : NDRange) (waitEvents : List Event)
    (eventCreateFunc : Bool) (q : Queue) : Result × Queue × Bool :=
  match processWaitlist waitEvents q with
  | (Result.Stop e, q1) => (Result.Stop e, q1, false)
  | (Result.Continue, q1) =>
    match processKernelResources kMaxDependencyTrackerSize env kernel ndrange q1 with
    | (Result.Stop e, q2) => (Result.Stop e, q2, false)
    | (Result.Continue, q2) =>
      if !env.getPipelineCache then (Result.Stop CL_OUT_OF_RESOURCES, q2, false)
      else
        match env.getOrCreateComputePipeline with
        | none => (Result.Stop env.getOrCreateComputePipelineError, q2, false)
        | some (pipelineHelper, pipeline, x, y, z) =>
          let q3 := retainResource pipelineHelper q2
          let q4 := record (Command.bindComputePipeline pipeline) q3
          let q5 := record (Command.dispatch x y z) q4
          createEvent eventCreateFunc q5

/-- The function `CLCommandQueueVk::flush`: after `UNIMPLEMENTED()` it returns
the error `CL_OUT_OF_RESOURCES`. -/
def flush (q : Queue) : Result × Queue :=
  (Result.Stop CL_OUT_OF_RESOURCES, q)

/-- The function `CLCommandQueueVk::finish`: after `UNIMPLEMENTED()` it returns
the error `CL_OUT_OF_RESOURCES`. -/
def finish (q : Queue) : Result × Queue :=
  (Result.Stop CL_OUT_OF_RESOURCES, q)

/-! ## Initialization -/

/-- The outcomes of the renderer calls that `init` makes. -/
structure Renderer where
  /-- Whether `InitializeCommandPool` succeeded. -/
  initializeCommandPool : Bool
  /-- Whether `getOutsideRenderPassCommandBufferHelper` succeeded. -/
  getOutsideRenderPassCommandBufferHelper : Bool
  /-- The index `allocateQueueSerialIndex` stored, `none` when it failed. -/
  allocateQueueSerialIndex : Option Nat
  /-- The serial of the `QueueSerial` that `generateQueueSerial(index)` returns. -/
  generateQueueSerial : Nat → Serial

/-- The function `CLCommandQueueVk::init`. -/
def init (r : Renderer) (q : Queue) : Result × Queue :=
  if !r.initializeCommandPool then (Result.Stop CL_OUT_OF_RESOURCES, q)
  else if !r.getOutsideRenderPassCommandBufferHelper then (Result.Stop CL_OUT_OF_RESOURCES, q)
  else
    let helper : CommandBufferHelper := ⟨[], [], ⟨kInvalidQueueSerialIndex, Serial.initial⟩⟩
    let q1 : Queue := { q with mComputePassCommands := some helper }
    match r.allocateQueueSerialIndex with
    | none => (Result.Stop CL_OUT_OF_RESOURCES, q1)
    | some index =>
      let q2 : Queue := { q1 with mCurrentQueueSerialIndex := index }
      let q3 := setQueueSerial q2.mCurrentQueueSerialIndex
        (r.generateQueueSerial q2.mCurrentQueueSerialIndex) q2
      let q4 : Queue := { q3 with mLastFlushedQueueSerial :=
        ⟨q3.mCurrentQueueSerialIndex, Serial.initial⟩ }
      (Result.Continue, { q4 with mLastSubmittedQueueSerial := q4.mLastFlushedQueueSerial })

/-! ## Sequences of operations -/

/-- The arguments of one `enqueueNDRangeKernel` call, with the outcomes of the
collaborators during that call. -/
structure Dispatch where
  env : DispatchEnv
  kernel : Kernel
  ndrange : NDRange
  waitEvents : List Event
  /-- Whether the `eventCreateFunc` pointer is non-null. -/
  eventCreateFunc : Bool
deriving DecidableEq, Repr

/-- The call `enqueueNDRangeKernel` on the arguments of a `Dispatch`. -/
def Dispatch.enqueue (kMaxDependencyTrackerSize : Nat) (d : Dispatch) (q : Queue) :
    Result × Queue × Bool :=
  enqueueNDRangeKernel kMaxDependencyTrackerSize d.env d.kernel d.ndrange d.waitEvents
    d.eventCreateFunc q

/-- Whether every collaborator of the call succeeds, so that the dispatch does. -/
def Dispatch.succeeds (d : Dispatch) : Bool :=
  d.env.allocateDescriptorSet.isSome && d.env.getPipelineCache &&
    d.env.getOrCreateComputePipeline.isSome

/-- The queue after a sequence of `enqueueNDRangeKernel` calls. -/
def runDispatches (kMaxDependencyTrackerSize : Nat) (ds : List Dispatch) (q : Queue) : Queue :=
  ds.foldl (fun q d => (d.enqueue kMaxDependencyTrackerSize q).2.1) q

/-- The queue after a sequence of `processKernelResources` calls. -/
def runKernelResources (kMaxDependencyTrackerSize : Nat)
    (calls : List (DispatchEnv × Kernel × NDRange)) (q : Queue) : Queue :=
  calls.foldl
    (fun q c => (processKernelResources kMaxDependencyTrackerSize c.1 c.2.1 c.2.2 q).2) q

/-- A queue operation of a caller: a dispatch or a flush. -/
inductive Op where
  | dispatch (d : Dispatch)
  | flush
deriving DecidableEq, Repr

/-- The queue after one operation. -/
def Op.apply (kMaxDependencyTrackerSize : Nat) (q : Queue) : Op → Queue
  | Op.dispatch d => (d.enqueue kMaxDependencyTrackerSize q).2.1
  | Op.flush => (CLCommandQueueVk.flush q).2

/-- The queue after a sequence of operations. -/
def runOps (kMaxDependencyTrackerSize : Nat) (ops : List Op) (q : Queue) : Queue :=
  ops.foldl (Op.apply kMaxDependencyTrackerSize) q

/-! ## Closed forms used in the statements -/

/-- Appending a list of commands to the command buffer of the recording scope. -/
def recordAll (cs : List Command) (q : Queue) : Queue :=
  { q with mComputePassCommands :=
      q.mComputePassCommands.map fun h => { h with commands := h.commands ++ cs } }

/-- Whether the argument takes the buffer case of the `switch`. -/
def isBufferArg (arg : KernelArg) : Bool :=
  decide (arg.type = ArgType.Uniform) || decide (arg.type = ArgType.StorageBuffer)

/-- Whether the argument is a storage buffer: the write-class kind. -/
def isStorageArg (arg : KernelArg) : Bool :=
  decide (arg.type = ArgType.StorageBuffer)

/-- Whether the argument is a POD push constant. -/
def isPodArg (arg : KernelArg) : Bool :=
  decide (arg.type = ArgType.PodPushConstant)

/-- The addresses of the memory objects behind the storage-buffer arguments, in
declaration order. -/
def storagePtrs (args : List KernelArg) : List Nat :=
  (args.filter isStorageArg).map fun a => a.clMem.ptr

/-- The hazard observations of a list of addresses, one after the other. -/
def observeAll (kMaxDependencyTrackerSize : Nat) (st : Bool × Finset Nat)
    (ptrs : List Nat) : Bool × Finset Nat :=
  ptrs.foldl (fun s p => observeHazard kMaxDependencyTrackerSize p s) st

/-- The push-constant commands of the POD arguments, in declaration order. -/
def podCommands (args : List KernelArg) : List Command :=
  (args.filter isPodArg).map fun a =>
    Command.pushConstants a.pushConstOffset a.pushConstantSize a.handle

/-- The commands of `pushGlobals`. -/
def globalCommands (kernelVk : Kernel) (ndrange : NDRange) : List Command :=
  (match kernelVk.globalOffsetRange with
    | some r => [Command.pushConstants r.offset r.size ndrange.globalWorkOffset]
    | none => []) ++
  (match kernelVk.globalSizeRange with
    | some r => [Command.pushConstants r.offset r.size ndrange.globalWorkSize]
    | none => [])

/-- The commands one `processKernelResources` call records when its descriptor
set `ds` has been allocated. -/
def kernelResourceCommands (K : Nat) (k : Kernel) (nd : NDRange) (ds : Nat) (q : Queue) :
    List Command :=
  globalCommands k nd ++ podCommands k.args ++
    (if (observeAll K (false, q.mDependencyTracker) (storagePtrs k.args)).1
      then [Command.pipelineBarrier] else []) ++
    [Command.bindDescriptorSets ds]

/-- The commands one `enqueueNDRangeKernel` call records, whatever its outcome. -/
def enqueueCommands (K : Nat) (d : Dispatch) (q : Queue) : List Command :=
  (if d.waitEvents.any (isSameQueue q) then [Command.pipelineBarrier] else []) ++
    (match d.env.allocateDescriptorSet with
      | none => []
      | some ds =>
        kernelResourceCommands K d.kernel d.ndrange ds q ++
          (if d.env.getPipelineCache then
            (match d.env.getOrCreateComputePipeline with
              | none => []
              | some (_, pipeline, x, y, z) =>
                [Command.bindComputePipeline pipeline, Command.dispatch x y z])
          else []))

/-- A dispatch with no wait-list, every collaborator succeeding, whose kernel
has a single argument, of storage-buffer kind. -/
def Dispatch.IsSingleWrite (d : Dispatch) : Prop :=
  d.succeeds = true ∧ d.waitEvents = [] ∧
    ∃ a : KernelArg, d.kernel.args = [a] ∧ a.type = ArgType.StorageBuffer

/-- The addresses of the memory objects a dispatch writes: those behind the
storage-buffer arguments of its kernel. -/
def Dispatch.writes (d : Dispatch) : List Nat :=
  storagePtrs d.kernel.args

/-- The serial of the recording scope (`mComputePassCommands->getQueueSerial()`);
`none` when there is no recording scope. -/
def scopeQueueSerial (q : Queue) : Option QueueSerial :=
  q.mComputePassCommands.map fun h => h.queueSerial

/-- The initialized queue used in the concrete instances: queue object 7,
serial index 0, first serial 1. -/
def sampleQueue : Queue :=
  (init ⟨true, true, some 0, fun _ => 1⟩ (construct 7)).2

/-- A buffer at the given address. -/
def sampleMemory (ptr : Nat) : Memory := ⟨ptr, 16, 0, false, ptr + 100, 0⟩

/-- A kernel argument of the given kind on the buffer at the given address. -/
def sampleArg (type : ArgType) (ptr : Nat) : KernelArg :=
  ⟨type, [], sampleMemory ptr, 0, 0, 0⟩

/-- A dispatch, with no wait-list and every collaborator succeeding, of a
kernel with the given arguments. -/
def sampleDispatch (args : List KernelArg) : Dispatch :=
  { env := ⟨some 1, 0, true, some (2, 3, 1, 1, 1), 0⟩
    kernel := ⟨args, none, none⟩
    ndrange := ⟨1, [0, 0, 0], [1, 1, 1], [1, 1, 1]⟩
    waitEvents := []
    eventCreateFunc := false }

/-- An event of the given producing queue. -/
def sampleEvent (ptr : Nat) (isUserEvent : Bool) (commandQueue : Nat) : Event :=
  ⟨ptr, isUserEvent, commandQueue, ⟨0, 0⟩⟩

/-! ## Operations left unimplemented

Every function of this section has the body `UNIMPLEMENTED();` followed by
`ANGLE_CL_RETURN_ERROR(CL_OUT_OF_RESOURCES);`.  `UNIMPLEMENTED()` logs a
warning and goes on to the next statement; the second statement sets the error
code and returns `angle::Result::Stop`.  No member variable and no output
parameter is written. -/

set_option linter.unusedVariables false

/-- A triple of offsets (`cl::MemOffsets`). -/
abbrev MemOffsets := Nat × Nat × Nat

/-- A triple of extents (`cl::Coordinate`). -/
abbrev Coordinate := Nat × Nat × Nat

/-- The function `CLCommandQueueVk::enqueueReadBuffer`. -/
def enqueueReadBuffer (buffer : Memory) (blocking : Bool) (offset size ptr : Nat)
    (waitEvents : List Event) (eventCreateFunc : Bool) (q : Queue) : Result × Queue :=
  (Result.Stop CL_OUT_OF_RESOURCES, q)

/-- The function `CLCommandQueueVk::enqueueWriteBuffer`. -/
def enqueueWriteBuffer (buffer : Memory) (blocking : Bool) (offset size ptr : Nat)
    (waitEvents : List Event) (eventCreateFunc : Bool) (q : Queue) : Result × Queue :=
  (Result.Stop CL_OUT_OF_RESOURCES, q)

/-- The function `CLCommandQueueVk::enqueueReadBufferRect`. -/
def enqueueReadBufferRect (buffer : Memory) (blocking : Bool)
    (bufferOrigin hostOrigin : MemOffsets) (region : Coordinate)
    (bufferRowPitch bufferSlicePitch hostRowPitch hostSlicePitch ptr : Nat)
    (waitEvents : List Event) (eventCreateFunc : Bool) (q : Queue) : Result × Queue :=
  (Result.Stop CL_OUT_OF_RESOURCES, q)

/-- The function `CLCommandQueueVk::enqueueWriteBufferRect`. -/
def enqueueWriteBufferRect (buffer : Memory) (blocking : Bool)
    (bufferOrigin hostOrigin : MemOffsets) (region : Coordinate)
    (bufferRowPitch bufferSlicePitch hostRowPitch hostSlicePitch ptr : Nat)
    (waitEvents : List Event) (eventCreateFunc : Bool) (q : Queue) : Result × Queue :=
  (Result.Stop CL_OUT_OF_RESOURCES, q)

/-- The function `CLCommandQueueVk::enqueueCopyBuffer`. -/
def enqueueCopyBuffer (srcBuffer dstBuffer : Memory) (srcOffset dstOffset size : Nat)
    (waitEvents : List Event) (eventCreateFunc : Bool) (q : Queue) : Result × Queue :=
  (Result.Stop CL_OUT_OF_RESOURCES, q)

/-- The function `CLCommandQueueVk::enqueueCopyBufferRect`. -/
def enqueueCopyBufferRect (srcBuffer dstBuffer : Memory) (srcOrigin dstOrigin : MemOffsets)
    (region : Coordinate) (srcRowPitch srcSlicePitch dstRowPitch dstSlicePitch : Nat)
    (waitEvents : List Event) (eventCreateFunc : Bool) (q : Queue) : Result × Queue :=
  (Result.Stop CL_OUT_OF_RESOURCES, q)

/-- The function `CLCommandQueueVk::enqueueFillBuffer`. -/
def enqueueFillBuffer (buffer : Memory) (pattern patternSize offset size : Nat)
    (waitEvents : List Event) (eventCreateFunc : Bool) (q : Queue) : Result × Queue :=
  (Result.Stop CL_OUT_OF_RESOURCES, q)

/-- The function `CLCommandQueueVk::enqueueMapBuffer`. -/
def enqueueMapBuffer (buffer : Memory) (blocking : Bool) (mapFlags offset size : Nat)
    (waitEvents : List Event) (eventCreateFunc : Bool) (mapPtr : Nat) (q : Queue) :
    Result × Queue :=
  (Result.Stop CL_OUT_OF_RESOURCES, q)

/-- The function `CLCommandQueueVk::enqueueReadImage`. -/
def enqueueReadImage (image : Memory) (blocking : Bool) (origin : MemOffsets)
    (region : Coordinate) (rowPitch slicePitch ptr : Nat)
    (waitEvents : List Event) (eventCreateFunc : Bool) (q : Queue) : Result × Queue :=
  (Result.Stop CL_OUT_OF_RESOURCES, q)

/-- The function `CLCommandQueueVk::enqueueWriteImage`. -/
def enqueueWriteImage (image : Memory) (blocking : Bool) (origin : MemOffsets)
    (region : Coordinate) (inputRowPitch inputSlicePitch ptr : Nat)
    (waitEvents : List Event) (eventCreateFunc : Bool) (q : Queue) : Result × Queue :=
  (Result.Stop CL_OUT_OF_RESOURCES, q)

/-- The function `CLCommandQueueVk::enqueueCopyImage`. -/
def enqueueCopyImage (srcImage dstImage : Memory) (srcOrigin dstOrigin : MemOffsets)
    (region : Coordinate) (waitEvents : List Event) (eventCreateFunc : Bool) (q : Queue) :
    Result × Queue :=
  (Result.Stop CL_OUT_OF_RESOURCES, q)

/-- The function `CLCommandQueueVk::enqueueFillImage`. -/
def enqueueFillImage (image : Memory) (fillColor : Nat) (origin : MemOffsets)
    (region : Coordinate) (waitEvents : List Event) (eventCreateFunc : Bool) (q : Queue) :
    Result × Queue :=
  (Result.Stop CL_OUT_OF_RESOURCES, q)

/-- The function `CLCommandQueueVk::enqueueCopyImageToBuffer`. -/
def enqueueCopyImageToBuffer (srcImage dstBuffer : Memory) (srcOrigin : MemOffsets)
    (region : Coordinate) (dstOffset : Nat) (waitEvents : List Event) (eventCreateFunc : Bool)
    (q : Queue) : Result × Queue :=
  (Result.Stop CL_OUT_OF_RESOURCES, q)

/-- The function `CLCommandQueueVk::enqueueCopyBufferToImage`. -/
def enqueueCopyBufferToImage (srcBuffer dstImage : Memory) (srcOffset : Nat)
    (dstOrigin : MemOffsets) (region : Coordinate) (waitEvents : List Event)
    (eventCreateFunc : Bool) (q : Queue) : Result × Queue :=
  (Result.Stop CL_OUT_OF_RESOURCES, q)

/-- The function `CLCommandQueueVk::enqueueMapImage`. -/
def enqueueMapImage (image : Memory) (blocking : Bool) (mapFlags : Nat) (origin : MemOffsets)
    (region : Coordinate) (imageRowPitch imageSlicePitch : Nat) (waitEvents : List Event)
    (eventCreateFunc : Bool) (mapPtr : Nat) (q : Queue) : Result × Queue :=
  (Result.Stop CL_OUT_OF_RESOURCES, q)

/-- The function `CLCommandQueueVk::enqueueUnmapMemObject`. -/
def enqueueUnmapMemObject (memory : Memory) (mappedPtr : Nat) (waitEvents : List Event)
    (eventCreateFunc : Bool) (q : Queue) : Result × Queue :=
  (Result.Stop CL_OUT_OF_RESOURCES, q)

/-- The function `CLCommandQueueVk::enqueueMigrateMemObjects`. -/
def enqueueMigrateMemObjects (memObjects : List Memory) (flags : Nat) (waitEvents : List Event)
    (eventCreateFunc : Bool) (q : Queue) : Result × Queue :=
  (Result.Stop CL_OUT_OF_RESOURCES, q)

/-- The function `CLCommandQueueVk::enqueueNativeKernel`. -/
def enqueueNativeKernel (userFunc args cbArgs : Nat) (buffers : List Memory)
    (bufferPtrOffsets : List Nat) (waitEvents : List Event) (eventCreateFunc : Bool)
    (q : Queue) : Result × Queue :=
  (Result.Stop CL_OUT_OF_RESOURCES, q)

/-- The function `CLCommandQueueVk::enqueueMarkerWithWaitList`. -/
def enqueueMarkerWithWaitList (waitEvents : List Event) (eventCreateFunc : Bool) (q : Queue) :
    Result × Queue :=
  (Result.Stop CL_OUT_OF_RESOURCES, q)

/-- The function `CLCommandQueueVk::enqueueMarker`. -/
def enqueueMarker (q : Queue) : Result × Queue :=
  (Result.Stop CL_OUT_OF_RESOURCES, q)

/-- The function `CLCommandQueueVk::enqueueWaitForEvents`. -/
def enqueueWaitForEvents (events : List Event) (q : Queue) : Result × Queue :=
  (Result.Stop CL_OUT_OF_RESOURCES, q)

/-- The function `CLCommandQueueVk::enqueueBarrierWithWaitList`. -/
def enqueueBarrierWithWaitList (waitEvents : List Event) (eventCreateFunc : Bool) (q : Queue) :
    Result × Queue :=
  (Result.Stop CL_OUT_OF_RESOURCES, q)

/-- The function `CLCommandQueueVk::enqueueBarrier`. -/
def enqueueBarrier (q : Queue) : Result × Queue :=
  (Result.Stop CL_OUT_OF_RESOURCES, q)

/-- The function `CLCommandQueueVk::flushComputePassCommands`. -/
def flushComputePassCommands (q : Queue) : Result × Queue :=
  (Result.Stop CL_OUT_OF_RESOURCES, q)

/-- The function `CLCommandQueueVk::submitCommands`. -/
def submitCommands (q : Queue) : Result × Queue :=
  (Result.Stop CL_OUT_OF_RESOURCES, q)

/-- The function `CLCommandQueueVk::finishInternal`. -/
def finishInternal (q : Queue) : Result × Queue :=
  (Result.Stop CL_OUT_OF_RESOURCES, q)

/-- A call of one of the unimplemented operations of the queue, with its
arguments. -/
inductive StubCall where
  | readBuffer (buffer : Memory) (blocking : Bool) (offset size ptr : Nat)
      (waitEvents : List Event) (eventCreateFunc : Bool)
  | writeBuffer (buffer : Memory) (blocking : Bool) (offset size ptr : Nat)
      (waitEvents : List Event) (eventCreateFunc : Bool)
  | readBufferRect (buffer : Memory) (blocking : Bool) (bufferOrigin hostOrigin : MemOffsets)
      (region : Coordinate)
      (bufferRowPitch bufferSlicePitch hostRowPitch hostSlicePitch ptr : Nat)
      (waitEvents : List Event) (eventCreateFunc : Bool)
  | writeBufferRect (buffer : Memory) (blocking : Bool) (bufferOrigin hostOrigin : MemOffsets)
      (region : Coordinate)
      (bufferRowPitch bufferSlicePitch hostRowPitch hostSlicePitch ptr : Nat)
      (waitEvents : List Event) (eventCreateFunc : Bool)
  | copyBuffer (srcBuffer dstBuffer : Memory) (srcOffset dstOffset size : Nat)
      (waitEvents : List Event) (eventCreateFunc : Bool)
  | copyBufferRect (srcBuffer dstBuffer : Memory) (srcOrigin dstOrigin : MemOffsets)
      (region : Coordinate) (srcRowPitch srcSlicePitch dstRowPitch dstSlicePitch : Nat)
      (waitEvents : List Event) (eventCreateFunc : Bool)
  | fillBuffer (buffer : Memory) (pattern patternSize offset size : Nat)
      (waitEvents : List Event) (eventCreateFunc : Bool)
  | mapBuffer (buffer : Memory) (blocking : Bool) (mapFlags offset size : Nat)
      (waitEvents : List Event) (eventCreateFunc : Bool) (mapPtr : Nat)
  | readImage (image : Memory) (blocking : Bool) (origin : MemOffsets) (region : Coordinate)
      (rowPitch slicePitch ptr : Nat) (waitEvents : List Event) (eventCreateFunc : Bool)
  | writeImage (image : Memory) (blocking : Bool) (origin : MemOffsets) (region : Coordinate)
      (inputRowPitch inputSlicePitch ptr : Nat) (waitEvents : List Event)
      (eventCreateFunc : Bool)
  | copyImage (srcImage dstImage : Memory) (srcOrigin dstOrigin : MemOffsets)
      (region : Coordinate) (waitEvents : List Event) (eventCreateFunc : Bool)
  | fillImage (image : Memory) (fillColor : Nat) (origin : MemOffsets) (region : Coordinate)
      (waitEvents : List Event) (eventCreateFunc : Bool)
  | copyImageToBuffer (srcImage dstBuffer : Memory) (srcOrigin : MemOffsets)
      (region : Coordinate) (dstOffset : Nat) (waitEvents : List Event)
      (eventCreateFunc : Bool)
  | copyBufferToImage (srcBuffer dstImage : Memory) (srcOffset : Nat) (dstOrigin : MemOffsets)
      (region : Coordinate) (waitEvents : List Event) (eventCreateFunc : Bool)
  | mapImage (image : Memory) (blocking : Bool) (mapFlags : Nat) (origin : MemOffsets)
      (region : Coordinate) (imageRowPitch imageSlicePitch : Nat) (waitEvents : List Event)
      (eventCreateFunc : Bool) (mapPtr : Nat)
  | unmapMemObject (memory : Memory) (mappedPtr : Nat) (waitEvents : List Event)
      (eventCreateFunc : Bool)
  | migrateMemObjects (memObjects : List Memory) (flags : Nat) (waitEvents : List Event)
      (eventCreateFunc : Bool)
  | nativeKernel (userFunc args cbArgs : Nat) (buffers : List Memory)
      (bufferPtrOffsets : List Nat) (waitEvents : List Event) (eventCreateFunc : Bool)
  | markerWithWaitList (waitEvents : List Event) (eventCreateFunc : Bool)
  | marker
  | waitForEvents (events : List Event)
  | barrierWithWaitList (waitEvents : List Event) (eventCreateFunc : Bool)
  | barrier
  | flush
  | finish

/-- The result and the queue after a call of an unimplemented operation. -/
def StubCall.run (q : Queue) : StubCall → Result × Queue
  | StubCall.readBuffer b bl o sz p w e => enqueueReadBuffer b bl o sz p w e q
  | StubCall.writeBuffer b bl o sz p w e => enqueueWriteBuffer b bl o sz p w e q
  | StubCall.readBufferRect b bl bo ho r brp bsp hrp hsp p w e =>
    enqueueReadBufferRect b bl bo ho r brp bsp hrp hsp p w e q
  | StubCall.writeBufferRect b bl bo ho r brp bsp hrp hsp p w e =>
    enqueueWriteBufferRect b bl bo ho r brp bsp hrp hsp p w e q
  | StubCall.copyBuffer sb db so d sz w e => enqueueCopyBuffer sb db so d sz w e q
  | StubCall.copyBufferRect sb db so d r srp ssp drp dsp w e =>
    enqueueCopyBufferRect sb db so d r srp ssp drp dsp w e q
  | StubCall.fillBuffer b pt ps o sz w e => enqueueFillBuffer b pt ps o sz w e q
  | StubCall.mapBuffer b bl mf o sz w e mp => enqueueMapBuffer b bl mf o sz w e mp q
  | StubCall.readImage i bl o r rp sp p w e => enqueueReadImage i bl o r rp sp p w e q
  | StubCall.writeImage i bl o r rp sp p w e => enqueueWriteImage i bl o r rp sp p w e q
  | StubCall.copyImage si di so d r w e => enqueueCopyImage si di so d r w e q
  | StubCall.fillImage i fc o r w e => enqueueFillImage i fc o r w e q
  | StubCall.copyImageToBuffer si db so r d w e => enqueueCopyImageToBuffer si db so r d w e q
  | StubCall.copyBufferToImage sb di so d r w e => enqueueCopyBufferToImage sb di so d r w e q
  | StubCall.mapImage i bl mf o r irp isp w e mp =>
    enqueueMapImage i bl mf o r irp isp w e mp q
  | StubCall.unmapMemObject m mp w e => enqueueUnmapMemObject m mp w e q
  | StubCall.migrateMemObjects ms f w e => enqueueMigrateMemObjects ms f w e q
  | StubCall.nativeKernel uf a cb bs bo w e => enqueueNativeKernel uf a cb bs bo w e q
  | StubCall.markerWithWaitList w e => enqueueMarkerWithWaitList w e q
  | StubCall.marker => enqueueMarker q
  | StubCall.waitForEvents evs => enqueueWaitForEvents evs q
  | StubCall.barrierWithWaitList w e => enqueueBarrierWithWaitList w e q
  | StubCall.barrier => enqueueBarrier q
  | StubCall.flush => CLCommandQueueVk.flush q
  | StubCall.finish => CLCommandQueueVk.finish q

/-! ## Task dispatch -/

/-- The function `CLCommandQueueVk::enqueueTask`.  The constructor of
`cl::NDRange` is declared in another file; `ndrangeCtor` stands for it: it
takes the work dimension, the global offset (`none` for the null pointer), the
global size and the local size. -/
def enqueueTask (kMaxDependencyTrackerSize : Nat)
    (ndrangeCtor : Nat → Option (List Nat) → List Nat → List Nat → NDRange)
    (env : DispatchEnv) (kernel : Kernel) (waitEvents : List Event) (eventCreateFunc : Bool)
    (q : Queue) : Result × Queue × Bool :=
  let globalWorkSize : List Nat := [1, 0, 0]
  let localWorkSize : List Nat := [1, 0, 0]
  let ndrange := ndrangeCtor 1 none globalWorkSize localWorkSize
  enqueueNDRangeKernel kMaxDependencyTrackerSize env kernel ndrange waitEvents eventCreateFunc q

/-! ## Sequences of operations of every kind -/

/-- An operation on a live queue: a dispatch, a task, a call of one of the
unimplemented operations, or an invocation of the event factory that
`createEvent` installed. -/
inductive QueueOp where
  | ndrangeKernel (d : Dispatch)
  | task (env : DispatchEnv) (kernel : Kernel) (waitEvents : List Event)
      (eventCreateFunc : Bool)
  | stub (c : StubCall)
  | invokeFactory (allocated : Option Event)

/-- The queue after one operation. -/
def QueueOp.apply (kMaxDependencyTrackerSize : Nat)
    (ndrangeCtor : Nat → Option (List Nat) → List Nat → List Nat → NDRange) (q : Queue) :
    QueueOp → Queue
  | QueueOp.ndrangeKernel d => (d.enqueue kMaxDependencyTrackerSize q).2.1
  | QueueOp.task env kernel waitEvents eventCreateFunc =>
    (enqueueTask kMaxDependencyTrackerSize ndrangeCtor env kernel waitEvents
      eventCreateFunc q).2.1
  | QueueOp.stub c => (c.run q).2
  | QueueOp.invokeFactory allocated => (eventFactory allocated q).2.2

/-- The queue after a sequence of operations. -/
def runQueueOps (kMaxDependencyTrackerSize : Nat)
    (ndrangeCtor : Nat → Option (List Nat) → List Nat → List Nat → NDRange)
    (ops : List QueueOp) (q : Queue) : Queue :=
  ops.foldl (QueueOp.apply kMaxDependencyTrackerSize ndrangeCtor) q

/-- A constructor of dispatch shapes used in the concrete instances: missing
offsets are zero and the sizes are taken as given. -/
def sampleNDRange (workDimensions : Nat) (globalWorkOffset : Option (List Nat))
    (globalWorkSize localWorkSize : List Nat) : NDRange :=
  ⟨workDimensions, globalWorkOffset.getD [0, 0, 0], globalWorkSize, localWorkSize⟩

/-! ## Destruction -/

/-- The destructor `CLCommandQueueVk::~CLCommandQueueVk`.  The second component
lists the indices passed to `releaseQueueSerialIndex`, in call order; the
recycled recording scope is handed back to the renderer, which leaves the
pointer null. -/
def destructor (q : Queue) : Queue × List Nat :=
  let st : Queue × List Nat :=
    if q.mCurrentQueueSerialIndex ≠ kInvalidQueueSerialIndex then
      ({ q with mCurrentQueueSerialIndex := kInvalidQueueSerialIndex },
        [q.mCurrentQueueSerialIndex])
    else (q, [])
  ({ st.1 with mComputePassCommands := none }, st.2)

/-- Whether a command is a compute-pipeline bind or a dispatch. -/
def Command.isPipelineBindOrDispatch : Command → Bool
  | Command.bindComputePipeline _ => true
  | Command.dispatch _ _ _ => true
  | _ => false

end CLCommandQueueVk

/-!
# Pass-through command queue

A shallow embedding of `src/libANGLE/renderer/cl/CLCommandQueueCL.cpp`.  The
native driver is a function from the call it receives (entry point and
arguments) to what it returns; every operation returns the list of native
calls it made together with its own results.
-/

namespace CLCommandQueueCL

set_option linter.unusedVariables false

/-- OpenCL error code `CL_SUCCESS`. -/
def CL_SUCCESS : Int := 0

/-- The `cl_bool` value `CL_TRUE`. -/
def CL_TRUE : Nat := 1

/-- The `cl_bool` value `CL_FALSE`. -/
def CL_FALSE : Nat := 0

/-- A front-end buffer or image; `native` is the value of
`getImpl<CLMemoryCL>().getNative()`. -/
structure Memory where
  ptr : Nat
  native : Nat
deriving DecidableEq, Repr

/-- A front-end event of a wait-list. -/
structure Event where
  ptr : Nat
deriving DecidableEq, Repr

/-- The entry points of the native dispatch table that this file calls. -/
inductive EntryPoint where
  | clEnqueueReadBuffer
  | clEnqueueWriteBuffer
  | clEnqueueReadBufferRect
  | clEnqueueWriteBufferRect
  | clEnqueueCopyBuffer
  | clEnqueueCopyBufferRect
  | clEnqueueFillBuffer
  | clEnqueueMapBuffer
  | clEnqueueReadImage
  | clEnqueueWriteImage
  | clEnqueueCopyImage
  | clEnqueueFillImage
  | clEnqueueCopyImageToBuffer
  | clEnqueueCopyBufferToImage
  | clEnqueueMapImage
deriving DecidableEq, Repr

/-- One argument of a native call, before the event arguments: a `cl_mem`, a
`cl_bool`, map flags, a three-element array, or a size or pointer. -/
inductive Arg where
  | mem (native : Nat)
  | bool (value : Nat)
  | flags (value : Nat)
  | array (value : Nat × Nat × Nat)
  | scalar (value : Nat)
deriving DecidableEq, Repr

/-- A call of a native entry point as the driver receives it. -/
structure NativeCall where
  entry : EntryPoint
  commandQueue : Nat
  /-- The arguments between the queue and the event count, in order. -/
  args : List Arg
  numEvents : Nat
  /-- The wait-list pointer: `none` is the null pointer. -/
  eventWaitList : Option (List Nat)
  /-- Whether the output-event pointer is non-null. -/
  event : Bool
  /-- Whether the call has an error-code output pointer (the map entry points). -/
  errcodeRet : Bool
deriving DecidableEq, Repr

/-- What the driver hands back: the returned error code (for a map entry point
the code written through the error pointer), the native event it stores when
given an output-event pointer, and the pointer a map entry point returns. -/
structure NativeResult where
  errorCode : Int
  event : Nat
  map : Nat
deriving DecidableEq, Repr

/-- The queue object and its collaborators: the native queue `mNative`, its
dispatch table, and `CLEventCL::Cast`, which is declared in another file. -/
structure Env where
  mNative : Nat
  dispatch : NativeCall → NativeResult
  Cast : List Event → List Nat

/-- The observable result of one operation: the native calls made, the error
code returned (for a map operation the one left in the `errorCode` output),
the pointer returned by a map operation, and the native event wrapped by the
factory assigned to `*eventCreateFunc` (`none` when nothing was assigned). -/
structure Outcome where
  calls : List NativeCall
  errorCode : Int
  map : Nat
  eventCreateFunc : Option Nat
deriving DecidableEq, Repr

/-- The function `CLCommandQueueCL::enqueueReadBuffer`. -/
def enqueueReadBuffer (env : Env) (buffer : Memory) (blocking : Bool) (offset : Nat) (size : Nat)
    (ptr : Nat) (waitEvents : List Event) (eventCreateFunc : Bool) : Outcome :=
  let nativeBuffer := buffer.native
  let block := if blocking then CL_TRUE else CL_FALSE
  let nativeEvents := env.Cast waitEvents
  let numEvents := nativeEvents.length % 2 ^ 32
  let nativeEventsPtr := if nativeEvents.isEmpty then none else some nativeEvents
  let nativeEventPtr := eventCreateFunc
  let args : List Arg := [Arg.mem nativeBuffer, Arg.bool block, Arg.scalar offset,
    Arg.scalar size, Arg.scalar ptr]
  let call : NativeCall := ⟨EntryPoint.clEnqueueReadBuffer, env.mNative, args, numEvents,
    nativeEventsPtr, nativeEventPtr, false⟩
  let res := env.dispatch call
  let nativeEvent := if nativeEventPtr then res.event else 0
  let errorCode := res.errorCode
  let assigned :=
    if errorCode = CL_SUCCESS ∧ eventCreateFunc = true then some nativeEvent else none
  ⟨[call], errorCode, 0, assigned⟩

/-- The function `CLCommandQueueCL::enqueueWriteBuffer`. -/
def enqueueWriteBuffer (env : Env) (buffer : Memory) (blocking : Bool) (offset : Nat) (size : Nat)
    (ptr : Nat) (waitEvents : List Event) (eventCreateFunc : Bool) : Outcome :=
  let nativeBuffer := buffer.native
  let block := if blocking then CL_TRUE else CL_FALSE
  let nativeEvents := env.Cast waitEvents
  let numEvents := nativeEvents.length % 2 ^ 32
  let nativeEventsPtr := if nativeEvents.isEmpty then none else some nativeEvents
  let nativeEventPtr := eventCreateFunc
  let args : List Arg := [Arg.mem nativeBuffer, Arg.bool block, Arg.scalar offset,
    Arg.scalar size, Arg.scalar ptr]
  let call : NativeCall := ⟨EntryPoint.clEnqueueWriteBuffer, env.mNative, args, numEvents,
    nativeEventsPtr, nativeEventPtr, false⟩
  let res := env.dispatch call
  let nativeEvent := if nativeEventPtr then res.event else 0
  let errorCode := res.errorCode
  let assigned :=
    if errorCode = CL_SUCCESS ∧ eventCreateFunc = true then some nativeEvent else none
  ⟨[call], errorCode, 0, assigned⟩

/-- The function `CLCommandQueueCL::enqueueReadBufferRect`. -/
def enqueueReadBufferRect (env : Env) (buffer : Memory) (blocking : Bool)
    (bufferOrigin : Nat × Nat × Nat) (hostOrigin : Nat × Nat × Nat) (region : Nat × Nat × Nat)
    (bufferRowPitch : Nat) (bufferSlicePitch : Nat) (hostRowPitch : Nat) (hostSlicePitch : Nat)
    (ptr : Nat) (waitEvents : List Event) (eventCreateFunc : Bool) : Outcome :=
  let nativeBuffer := buffer.native
  let block := if blocking then CL_TRUE else CL_FALSE
  let nativeEvents := env.Cast waitEvents
  let numEvents := nativeEvents.length % 2 ^ 32
  let nativeEventsPtr := if nativeEvents.isEmpty then none else some nativeEvents
  let nativeEventPtr := eventCreateFunc
  let args : List Arg := [Arg.mem nativeBuffer, Arg.bool block, Arg.array bufferOrigin,
    Arg.array hostOrigin, Arg.array region, Arg.scalar bufferRowPitch,
    Arg.scalar bufferSlicePitch, Arg.scalar hostRowPitch, Arg.scalar hostSlicePitch,
    Arg.scalar ptr]
  let call : NativeCall := ⟨EntryPoint.clEnqueueReadBufferRect, env.mNative, args, numEvents,
    nativeEventsPtr, nativeEventPtr, false⟩
  let res := env.dispatch call
  let nativeEvent := if nativeEventPtr then res.event else 0
  let errorCode := res.errorCode
  let assigned :=
    if errorCode = CL_SUCCESS ∧ eventCreateFunc = true then some nativeEvent else none
  ⟨[call], errorCode, 0, assigned⟩

/-- The function `CLCommandQueueCL::enqueueWriteBufferRect`. -/
def enqueueWriteBufferRect (env : Env) (buffer : Memory) (blocking : Bool)
    (bufferOrigin : Nat × Nat × Nat) (hostOrigin : Nat × Nat × Nat) (region : Nat × Nat × Nat)
    (bufferRowPitch : Nat) (bufferSlicePitch : Nat) (hostRowPitch : Nat) (hostSlicePitch : Nat)
    (ptr : Nat) (waitEvents : List Event) (eventCreateFunc : Bool) : Outcome :=
  let nativeBuffer := buffer.native
  let block := if blocking then CL_TRUE else CL_FALSE
  let nativeEvents := env.Cast waitEvents
  let numEvents := nativeEvents.length % 2 ^ 32
  let nativeEventsPtr := if nativeEvents.isEmpty then none else some nativeEvents
  let nativeEventPtr := eventCreateFunc
  let args : List Arg := [Arg.mem nativeBuffer, Arg.bool block, Arg.array bufferOrigin,
    Arg.array hostOrigin, Arg.array region, Arg.scalar bufferRowPitch,
    Arg.scalar bufferSlicePitch, Arg.scalar hostRowPitch, Arg.scalar hostSlicePitch,
    Arg.scalar ptr]
  let call : NativeCall := ⟨EntryPoint.clEnqueueWriteBufferRect, env.mNative, args, numEvents,
    nativeEventsPtr, nativeEventPtr, false⟩
  let res := env.dispatch call
  let nativeEvent := if nativeEventPtr then res.event else 0
  let errorCode := res.errorCode
  let assigned :=
    if errorCode = CL_SUCCESS ∧ eventCreateFunc = true then some nativeEvent else none
  ⟨[call], errorCode, 0, assigned⟩

/-- The function `CLCommandQueueCL::enqueueCopyBuffer`. -/
def enqueueCopyBuffer (env : Env) (srcBuffer : Memory) (dstBuffer : Memory) (srcOffset : Nat)
    (dstOffset : Nat) (size : Nat) (waitEvents : List Event) (eventCreateFunc : Bool) : Outcome :=
  let nativeSrc := srcBuffer.native
  let nativeDst := dstBuffer.native
  let nativeEvents := env.Cast waitEvents
  let numEvents := nativeEvents.length % 2 ^ 32
  let nativeEventsPtr := if nativeEvents.isEmpty then none else some nativeEvents
  let nativeEventPtr := eventCreateFunc
  let args : List Arg := [Arg.mem nativeSrc, Arg.mem nativeDst, Arg.scalar srcOffset,
    Arg.scalar dstOffset, Arg.scalar size]
  let call : NativeCall := ⟨EntryPoint.clEnqueueCopyBuffer, env.mNative, args, numEvents,
    nativeEventsPtr, nativeEventPtr, false⟩
  let res := env.dispatch call
  let nativeEvent := if nativeEventPtr then res.event else 0
  let errorCode := res.errorCode
  let assigned :=
    if errorCode = CL_SUCCESS ∧ eventCreateFunc = true then some nativeEvent else none
  ⟨[call], errorCode, 0, assigned⟩

/-- The function `CLCommandQueueCL::enqueueCopyBufferRect`. -/
def enqueueCopyBufferRect (env : Env) (srcBuffer : Memory) (dstBuffer : Memory)
    (srcOrigin : Nat × Nat × Nat) (dstOrigin : Nat × Nat × Nat) (region : Nat × Nat × Nat)
    (srcRowPitch : Nat) (srcSlicePitch : Nat) (dstRowPitch : Nat) (dstSlicePitch : Nat)
    (waitEvents : List Event) (eventCreateFunc : Bool) : Outcome :=
  let nativeSrc := srcBuffer.native
  let nativeDst := dstBuffer.native
  let nativeEvents := env.Cast waitEvents
  let numEvents := nativeEvents.length % 2 ^ 32
  let nativeEventsPtr := if nativeEvents.isEmpty then none else some nativeEvents
  let nativeEventPtr := eventCreateFunc
  let args : List Arg := [Arg.mem nativeSrc, Arg.mem nativeDst, Arg.array srcOrigin,
    Arg.array dstOrigin, Arg.array region, Arg.scalar srcRowPitch, Arg.scalar srcSlicePitch,
    Arg.scalar dstRowPitch, Arg.scalar dstSlicePitch]
  let call : NativeCall := ⟨EntryPoint.clEnqueueCopyBufferRect, env.mNative, args, numEvents,
    nativeEventsPtr, nativeEventPtr, false⟩
  let res := env.dispatch call
  let nativeEvent := if nativeEventPtr then res.event else 0
  let errorCode := res.errorCode
  let assigned :=
    if errorCode = CL_SUCCESS ∧ eventCreateFunc = true then some nativeEvent else none
  ⟨[call], errorCode, 0, assigned⟩

/-- The function `CLCommandQueueCL::enqueueFillBuffer`. -/
def enqueueFillBuffer (env : Env) (buffer : Memory) (pattern : Nat) (patternSize : Nat)
    (offset : Nat) (size : Nat) (waitEvents : List Event) (eventCreateFunc : Bool) : Outcome :=
  let nativeBuffer := buffer.native
  let nativeEvents := env.Cast waitEvents
  let numEvents := nativeEvents.length % 2 ^ 32
  let nativeEventsPtr := if nativeEvents.isEmpty then none else some nativeEvents
  let nativeEventPtr := eventCreateFunc
  let args : List Arg := [Arg.mem nativeBuffer, Arg.scalar pattern, Arg.scalar patternSize,
    Arg.scalar offset, Arg.scalar size]
  let call : NativeCall := ⟨EntryPoint.clEnqueueFillBuffer, env.mNative, args, numEvents,
    nativeEventsPtr, nativeEventPtr, false⟩
  let res := env.dispatch call
  let nativeEvent := if nativeEventPtr then res.event else 0
  let errorCode := res.errorCode
  let assigned :=
    if errorCode = CL_SUCCESS ∧ eventCreateFunc = true then some nativeEvent else none
  ⟨[call], errorCode, 0, assigned⟩

/-- The function `CLCommandQueueCL::enqueueMapBuffer`. -/
def enqueueMapBuffer (env : Env) (buffer : Memory) (blocking : Bool) (mapFlags : Nat)
    (offset : Nat) (size : Nat) (waitEvents : List Event) (eventCreateFunc : Bool) : Outcome :=
  let nativeBuffer := buffer.native
  let block := if blocking then CL_TRUE else CL_FALSE
  let nativeEvents := env.Cast waitEvents
  let numEvents := nativeEvents.length % 2 ^ 32
  let nativeEventsPtr := if nativeEvents.isEmpty then none else some nativeEvents
  let nativeEventPtr := eventCreateFunc
  let args : List Arg := [Arg.mem nativeBuffer, Arg.bool block, Arg.flags mapFlags,
    Arg.scalar offset, Arg.scalar size]
  let call : NativeCall := ⟨EntryPoint.clEnqueueMapBuffer, env.mNative, args, numEvents,
    nativeEventsPtr, nativeEventPtr, true⟩
  let res := env.dispatch call
  let nativeEvent := if nativeEventPtr then res.event else 0
  let errorCode := res.errorCode
  let assigned :=
    if errorCode = CL_SUCCESS ∧ eventCreateFunc = true then some nativeEvent else none
  ⟨[call], errorCode, res.map, assigned⟩

/-- The function `CLCommandQueueCL::enqueueReadImage`. -/
def enqueueReadImage (env : Env) (image : Memory) (blocking : Bool) (origin : Nat × Nat × Nat)
    (region : Nat × Nat × Nat) (rowPitch : Nat) (slicePitch : Nat) (ptr : Nat)
    (waitEvents : List Event) (eventCreateFunc : Bool) : Outcome :=
  let nativeImage := image.native
  let block := if blocking then CL_TRUE else CL_FALSE
  let nativeEvents := env.Cast waitEvents
  let numEvents := nativeEvents.length % 2 ^ 32
  let nativeEventsPtr := if nativeEvents.isEmpty then none else some nativeEvents
  let nativeEventPtr := eventCreateFunc
  let args : List Arg := [Arg.mem nativeImage, Arg.bool block, Arg.array origin, Arg.array region,
    Arg.scalar rowPitch, Arg.scalar slicePitch, Arg.scalar ptr]
  let call : NativeCall := ⟨EntryPoint.clEnqueueReadImage, env.mNative, args, numEvents,
    nativeEventsPtr, nativeEventPtr, false⟩
  let res := env.dispatch call
  let nativeEvent := if nativeEventPtr then res.event else 0
  let errorCode := res.errorCode
  let assigned :=
    if errorCode = CL_SUCCESS ∧ eventCreateFunc = true then some nativeEvent else none
  ⟨[call], errorCode, 0, assigned⟩

/-- The function `CLCommandQueueCL::enqueueWriteImage`. -/
def enqueueWriteImage (env : Env) (image : Memory) (blocking : Bool) (origin : Nat × Nat × Nat)
    (region : Nat × Nat × Nat) (inputRowPitch : Nat) (inputSlicePitch : Nat) (ptr : Nat)
    (waitEvents : List Event) (eventCreateFunc : Bool) : Outcome :=
  let nativeImage := image.native
  let block := if blocking then CL_TRUE else CL_FALSE
  let nativeEvents := env.Cast waitEvents
  let numEvents := nativeEvents.length % 2 ^ 32
  let nativeEventsPtr := if nativeEvents.isEmpty then none else some nativeEvents
  let nativeEventPtr := eventCreateFunc
  let args : List Arg := [Arg.mem nativeImage, Arg.bool block, Arg.array origin, Arg.array region,
    Arg.scalar inputRowPitch, Arg.scalar inputSlicePitch, Arg.scalar ptr]
  let call : NativeCall := ⟨EntryPoint.clEnqueueWriteImage, env.mNative, args, numEvents,
    nativeEventsPtr, nativeEventPtr, false⟩
  let res := env.dispatch call
  let nativeEvent := if nativeEventPtr then res.event else 0
  let errorCode := res.errorCode
  let assigned :=
    if errorCode = CL_SUCCESS ∧ eventCreateFunc = true then some nativeEvent else none
  ⟨[call], errorCode, 0, assigned⟩

/-- The function `CLCommandQueueCL::enqueueCopyImage`. -/
def enqueueCopyImage (env : Env) (srcImage : Memory) (dstImage : Memory)
    (srcOrigin : Nat × Nat × Nat) (dstOrigin : Nat × Nat × Nat) (region : Nat × Nat × Nat)
    (waitEvents : List Event) (eventCreateFunc : Bool) : Outcome :=
  let nativeSrc := srcImage.native
  let nativeDst := dstImage.native
  let nativeEvents := env.Cast waitEvents
  let numEvents := nativeEvents.length % 2 ^ 32
  let nativeEventsPtr := if nativeEvents.isEmpty then none else some nativeEvents
  let nativeEventPtr := eventCreateFunc
  let args : List Arg := [Arg.mem nativeSrc, Arg.mem nativeDst, Arg.array srcOrigin,
    Arg.array dstOrigin, Arg.array region]
  let call : NativeCall := ⟨EntryPoint.clEnqueueCopyImage, env.mNative, args, numEvents,
    nativeEventsPtr, nativeEventPtr, false⟩
  let res := env.dispatch call
  let nativeEvent := if nativeEventPtr then res.event else 0
  let errorCode := res.errorCode
  let assigned :=
    if errorCode = CL_SUCCESS ∧ eventCreateFunc = true then some nativeEvent else none
  ⟨[call], errorCode, 0, assigned⟩

/-- The function `CLCommandQueueCL::enqueueFillImage`. -/
def enqueueFillImage (env : Env) (image : Memory) (fillColor : Nat) (origin : Nat × Nat × Nat)
    (region : Nat × Nat × Nat) (waitEvents : List Event) (eventCreateFunc : Bool) : Outcome :=
  let nativeImage := image.native
  let nativeEvents := env.Cast waitEvents
  let numEvents := nativeEvents.length % 2 ^ 32
  let nativeEventsPtr := if nativeEvents.isEmpty then none else some nativeEvents
  let nativeEventPtr := eventCreateFunc
  let args : List Arg := [Arg.mem nativeImage, Arg.scalar fillColor, Arg.array origin,
    Arg.array region]
  let call : NativeCall := ⟨EntryPoint.clEnqueueFillImage, env.mNative, args, numEvents,
    nativeEventsPtr, nativeEventPtr, false⟩
  let res := env.dispatch call
  let nativeEvent := if nativeEventPtr then res.event else 0
  let errorCode := res.errorCode
  let assigned :=
    if errorCode = CL_SUCCESS ∧ eventCreateFunc = true then some nativeEvent else none
  ⟨[call], errorCode, 0, assigned⟩

/-- The function `CLCommandQueueCL::enqueueCopyImageToBuffer`. -/
def enqueueCopyImageToBuffer (env : Env) (srcImage : Memory) (dstBuffer : Memory)
    (srcOrigin : Nat × Nat × Nat) (region : Nat × Nat × Nat) (dstOffset : Nat)
    (waitEvents : List Event) (eventCreateFunc : Bool) : Outcome :=
  let nativeSrc := srcImage.native
  let nativeDst := dstBuffer.native
  let nativeEvents := env.Cast waitEvents
  let numEvents := nativeEvents.length % 2 ^ 32
  let nativeEventsPtr := if nativeEvents.isEmpty then none else some nativeEvents
  let nativeEventPtr := eventCreateFunc
  let args : List Arg := [Arg.mem nativeSrc, Arg.mem nativeDst, Arg.array srcOrigin,
    Arg.array region, Arg.scalar dstOffset]
  let call : NativeCall := ⟨EntryPoint.clEnqueueCopyImageToBuffer, env.mNative, args, numEvents,
    nativeEventsPtr, nativeEventPtr, false⟩
  let res := env.dispatch call
  let nativeEvent := if nativeEventPtr then res.event else 0
  let errorCode := res.errorCode
  let assigned :=
    if errorCode = CL_SUCCESS ∧ eventCreateFunc = true then some nativeEvent else none
  ⟨[call], errorCode, 0, assigned⟩

/-- The function `CLCommandQueueCL::enqueueCopyBufferToImage`. -/
def enqueueCopyBufferToImage (env : Env) (srcBuffer : Memory) (dstImage : Memory)
    (srcOffset : Nat) (dstOrigin : Nat × Nat × Nat) (region : Nat × Nat × Nat)
    (waitEvents : List Event) (eventCreateFunc : Bool) : Outcome :=
  let nativeSrc := srcBuffer.native
  let nativeDst := dstImage.native
  let nativeEvents := env.Cast waitEvents
  let numEvents := nativeEvents.length % 2 ^ 32
  let nativeEventsPtr := if nativeEvents.isEmpty then none else some nativeEvents
  let nativeEventPtr := eventCreateFunc
  let args : List Arg := [Arg.mem nativeSrc, Arg.mem nativeDst, Arg.scalar srcOffset,
    Arg.array dstOrigin, Arg.array region]
  let call : NativeCall := ⟨EntryPoint.clEnqueueCopyBufferToImage, env.mNative, args, numEvents,
    nativeEventsPtr, nativeEventPtr, false⟩
  let res := env.dispatch call
  let nativeEvent := if nativeEventPtr then res.event else 0
  let errorCode := res.errorCode
  let assigned :=
    if errorCode = CL_SUCCESS ∧ eventCreateFunc = true then some nativeEvent else none
  ⟨[call], errorCode, 0, assigned⟩

/-- The function `CLCommandQueueCL::enqueueMapImage`. -/
def enqueueMapImage (env : Env) (image : Memory) (blocking : Bool) (mapFlags : Nat)
    (origin : Nat × Nat × Nat) (region : Nat × Nat × Nat) (imageRowPitch : Nat)
    (imageSlicePitch : Nat) (waitEvents : List Event) (eventCreateFunc : Bool) : Outcome :=
  let nativeImage := image.native
  let block := if blocking then CL_TRUE else CL_FALSE
  let nativeEvents := env.Cast waitEvents
  let numEvents := nativeEvents.length % 2 ^ 32
  let nativeEventsPtr := if nativeEvents.isEmpty then none else some nativeEvents
  let nativeEventPtr := eventCreateFunc
  let args : List Arg := [Arg.mem nativeImage, Arg.bool block, Arg.flags mapFlags,
    Arg.array origin, Arg.array region, Arg.scalar imageRowPitch, Arg.scalar imageSlicePitch]
  let call : NativeCall := ⟨EntryPoint.clEnqueueMapImage, env.mNative, args, numEvents,
    nativeEventsPtr, nativeEventPtr, true⟩
  let res := env.dispatch call
  let nativeEvent := if nativeEventPtr then res.event else 0
  let errorCode := res.errorCode
  let assigned :=
    if errorCode = CL_SUCCESS ∧ eventCreateFunc = true then some nativeEvent else none
  ⟨[call], errorCode, res.map, assigned⟩

/-- A call of one of the operations of the pass-through queue, with the
caller's arguments. -/
inductive PassCall where
  | readBuffer (buffer : Memory) (blocking : Bool) (offset : Nat) (size : Nat) (ptr : Nat)
      (waitEvents : List Event) (eventCreateFunc : Bool)
  | writeBuffer (buffer : Memory) (blocking : Bool) (offset : Nat) (size : Nat) (ptr : Nat)
      (waitEvents : List Event) (eventCreateFunc : Bool)
  | readBufferRect (buffer : Memory) (blocking : Bool) (bufferOrigin : Nat × Nat × Nat)
      (hostOrigin : Nat × Nat × Nat) (region : Nat × Nat × Nat) (bufferRowPitch : Nat)
      (bufferSlicePitch : Nat) (hostRowPitch : Nat) (hostSlicePitch : Nat) (ptr : Nat)
      (waitEvents : List Event) (eventCreateFunc : Bool)
  | writeBufferRect (buffer : Memory) (blocking : Bool) (bufferOrigin : Nat × Nat × Nat)
      (hostOrigin : Nat × Nat × Nat) (region : Nat × Nat × Nat) (bufferRowPitch : Nat)
      (bufferSlicePitch : Nat) (hostRowPitch : Nat) (hostSlicePitch : Nat) (ptr : Nat)
      (waitEvents : List Event) (eventCreateFunc : Bool)
  | copyBuffer (srcBuffer : Memory) (dstBuffer : Memory) (srcOffset : Nat) (dstOffset : Nat)
      (size : Nat) (waitEvents : List Event) (eventCreateFunc : Bool)
  | copyBufferRect (srcBuffer : Memory) (dstBuffer : Memory) (srcOrigin : Nat × Nat × Nat)
      (dstOrigin : Nat × Nat × Nat) (region : Nat × Nat × Nat) (srcRowPitch : Nat)
      (srcSlicePitch : Nat) (dstRowPitch : Nat) (dstSlicePitch : Nat) (waitEvents : List Event)
      (eventCreateFunc : Bool)
  | fillBuffer (buffer : Memory) (pattern : Nat) (patternSize : Nat) (offset : Nat) (size : Nat)
      (waitEvents : List Event) (eventCreateFunc : Bool)
  | mapBuffer (buffer : Memory) (blocking : Bool) (mapFlags : Nat) (offset : Nat) (size : Nat)
      (waitEvents : List Event) (eventCreateFunc : Bool)
  | readImage (image : Memory) (blocking : Bool) (origin : Nat × Nat × Nat)
      (region : Nat × Nat × Nat) (rowPitch : Nat) (slicePitch : Nat) (ptr : Nat)
      (waitEvents : List Event) (eventCreateFunc : Bool)
  | writeImage (image : Memory) (blocking : Bool) (origin : Nat × Nat × Nat)
      (region : Nat × Nat × Nat) (inputRowPitch : Nat) (inputSlicePitch : Nat) (ptr : Nat)
      (waitEvents : List Event) (eventCreateFunc : Bool)
  | copyImage (srcImage : Memory) (dstImage : Memory) (srcOrigin : Nat × Nat × Nat)
      (dstOrigin : Nat × Nat × Nat) (region : Nat × Nat × Nat) (waitEvents : List Event)
      (eventCreateFunc : Bool)
  | fillImage (image : Memory) (fillColor : Nat) (origin : Nat × Nat × Nat)
      (region : Nat × Nat × Nat) (waitEvents : List Event) (eventCreateFunc : Bool)
  | copyImageToBuffer (srcImage : Memory) (dstBuffer : Memory) (srcOrigin : Nat × Nat × Nat)
      (region : Nat × Nat × Nat) (dstOffset : Nat) (waitEvents : List Event)
      (eventCreateFunc : Bool)
  | copyBufferToImage (srcBuffer : Memory) (dstImage : Memory) (srcOffset : Nat)
      (dstOrigin : Nat × Nat × Nat) (region : Nat × Nat × Nat) (waitEvents : List Event)
      (eventCreateFunc : Bool)
  | mapImage (image : Memory) (blocking : Bool) (mapFlags : Nat) (origin : Nat × Nat × Nat)
      (region : Nat × Nat × Nat) (imageRowPitch : Nat) (imageSlicePitch : Nat)
      (waitEvents : List Event) (eventCreateFunc : Bool)

/-- The operation applied to the arguments of a `PassCall`. -/
def PassCall.run (env : Env) : PassCall → Outcome
  | PassCall.readBuffer a0 a1 a2 a3 a4 w e => enqueueReadBuffer env a0 a1 a2 a3 a4 w e
  | PassCall.writeBuffer a0 a1 a2 a3 a4 w e => enqueueWriteBuffer env a0 a1 a2 a3 a4 w e
  | PassCall.readBufferRect a0 a1 a2 a3 a4 a5 a6 a7 a8 a9 w e => enqueueReadBufferRect env a0 a1 a2 a3 a4 a5 a6 a7 a8 a9 w e
  | PassCall.writeBufferRect a0 a1 a2 a3 a4 a5 a6 a7 a8 a9 w e => enqueueWriteBufferRect env a0 a1 a2 a3 a4 a5 a6 a7 a8 a9 w e
  | PassCall.copyBuffer a0 a1 a2 a3 a4 w e => enqueueCopyBuffer env a0 a1 a2 a3 a4 w e
  | PassCall.copyBufferRect a0 a1 a2 a3 a4 a5 a6 a7 a8 w e => enqueueCopyBufferRect env a0 a1 a2 a3 a4 a5 a6 a7 a8 w e
  | PassCall.fillBuffer a0 a1 a2 a3 a4 w e => enqueueFillBuffer env a0 a1 a2 a3 a4 w e
  | PassCall.mapBuffer a0 a1 a2 a3 a4 w e => enqueueMapBuffer env a0 a1 a2 a3 a4 w e
  | PassCall.readImage a0 a1 a2 a3 a4 a5 a6 w e => enqueueReadImage env a0 a1 a2 a3 a4 a5 a6 w e
  | PassCall.writeImage a0 a1 a2 a3 a4 a5 a6 w e => enqueueWriteImage env a0 a1 a2 a3 a4 a5 a6 w e
  | PassCall.copyImage a0 a1 a2 a3 a4 w e => enqueueCopyImage env a0 a1 a2 a3 a4 w e
  | PassCall.fillImage a0 a1 a2 a3 w e => enqueueFillImage env a0 a1 a2 a3 w e
  | PassCall.copyImageToBuffer a0 a1 a2 a3 a4 w e => enqueueCopyImageToBuffer env a0 a1 a2 a3 a4 w e
  | PassCall.copyBufferToImage a0 a1 a2 a3 a4 w e => enqueueCopyBufferToImage env a0 a1 a2 a3 a4 w e
  | PassCall.mapImage a0 a1 a2 a3 a4 a5 a6 w e => enqueueMapImage env a0 a1 a2 a3 a4 a5 a6 w e

/-- The native entry point that corresponds to the operation. -/
def PassCall.entry : PassCall → EntryPoint
  | PassCall.readBuffer a0 a1 a2 a3 a4 w e => EntryPoint.clEnqueueReadBuffer
  | PassCall.writeBuffer a0 a1 a2 a3 a4 w e => EntryPoint.clEnqueueWriteBuffer
  | PassCall.readBufferRect a0 a1 a2 a3 a4 a5 a6 a7 a8 a9 w e => EntryPoint.clEnqueueReadBufferRect
  | PassCall.writeBufferRect a0 a1 a2 a3 a4 a5 a6 a7 a8 a9 w e => EntryPoint.clEnqueueWriteBufferRect
  | PassCall.copyBuffer a0 a1 a2 a3 a4 w e => EntryPoint.clEnqueueCopyBuffer
  | PassCall.copyBufferRect a0 a1 a2 a3 a4 a5 a6 a7 a8 w e => EntryPoint.clEnqueueCopyBufferRect
  | PassCall.fillBuffer a0 a1 a2 a3 a4 w e => EntryPoint.clEnqueueFillBuffer
  | PassCall.mapBuffer a0 a1 a2 a3 a4 w e => EntryPoint.clEnqueueMapBuffer
  | PassCall.readImage a0 a1 a2 a3 a4 a5 a6 w e => EntryPoint.clEnqueueReadImage
  | PassCall.writeImage a0 a1 a2 a3 a4 a5 a6 w e => EntryPoint.clEnqueueWriteImage
  | PassCall.copyImage a0 a1 a2 a3 a4 w e => EntryPoint.clEnqueueCopyImage
  | PassCall.fillImage a0 a1 a2 a3 w e => EntryPoint.clEnqueueFillImage
  | PassCall.copyImageToBuffer a0 a1 a2 a3 a4 w e => EntryPoint.clEnqueueCopyImageToBuffer
  | PassCall.copyBufferToImage a0 a1 a2 a3 a4 w e => EntryPoint.clEnqueueCopyBufferToImage
  | PassCall.mapImage a0 a1 a2 a3 a4 a5 a6 w e => EntryPoint.clEnqueueMapImage

/-- The caller's buffers and images, in parameter order. -/
def PassCall.memories : PassCall → List Memory
  | PassCall.readBuffer a0 a1 a2 a3 a4 w e => [a0]
  | PassCall.writeBuffer a0 a1 a2 a3 a4 w e => [a0]
  | PassCall.readBufferRect a0 a1 a2 a3 a4 a5 a6 a7 a8 a9 w e => [a0]
  | PassCall.writeBufferRect a0 a1 a2 a3 a4 a5 a6 a7 a8 a9 w e => [a0]
  | PassCall.copyBuffer a0 a1 a2 a3 a4 w e => [a0, a1]
  | PassCall.copyBufferRect a0 a1 a2 a3 a4 a5 a6 a7 a8 w e => [a0, a1]
  | PassCall.fillBuffer a0 a1 a2 a3 a4 w e => [a0]
  | PassCall.mapBuffer a0 a1 a2 a3 a4 w e => [a0]
  | PassCall.readImage a0 a1 a2 a3 a4 a5 a6 w e => [a0]
  | PassCall.writeImage a0 a1 a2 a3 a4 a5 a6 w e => [a0]
  | PassCall.copyImage a0 a1 a2 a3 a4 w e => [a0, a1]
  | PassCall.fillImage a0 a1 a2 a3 w e => [a0]
  | PassCall.copyImageToBuffer a0 a1 a2 a3 a4 w e => [a0, a1]
  | PassCall.copyBufferToImage a0 a1 a2 a3 a4 w e => [a0, a1]
  | PassCall.mapImage a0 a1 a2 a3 a4 a5 a6 w e => [a0]

/-- The caller's offsets, sizes, pitches and pointers, in parameter order. -/
def PassCall.values : PassCall → List Nat
  | PassCall.readBuffer a0 a1 a2 a3 a4 w e => [a2, a3, a4]
  | PassCall.writeBuffer a0 a1 a2 a3 a4 w e => [a2, a3, a4]
  | PassCall.readBufferRect a0 a1 a2 a3 a4 a5 a6 a7 a8 a9 w e => [a5, a6, a7, a8, a9]
  | PassCall.writeBufferRect a0 a1 a2 a3 a4 a5 a6 a7 a8 a9 w e => [a5, a6, a7, a8, a9]
  | PassCall.copyBuffer a0 a1 a2 a3 a4 w e => [a2, a3, a4]
  | PassCall.copyBufferRect a0 a1 a2 a3 a4 a5 a6 a7 a8 w e => [a5, a6, a7, a8]
  | PassCall.fillBuffer a0 a1 a2 a3 a4 w e => [a1, a2, a3, a4]
  | PassCall.mapBuffer a0 a1 a2 a3 a4 w e => [a3, a4]
  | PassCall.readImage a0 a1 a2 a3 a4 a5 a6 w e => [a4, a5, a6]
  | PassCall.writeImage a0 a1 a2 a3 a4 a5 a6 w e => [a4, a5, a6]
  | PassCall.copyImage a0 a1 a2 a3 a4 w e => []
  | PassCall.fillImage a0 a1 a2 a3 w e => [a1]
  | PassCall.copyImageToBuffer a0 a1 a2 a3 a4 w e => [a4]
  | PassCall.copyBufferToImage a0 a1 a2 a3 a4 w e => [a2]
  | PassCall.mapImage a0 a1 a2 a3 a4 a5 a6 w e => [a5, a6]

/-- The caller's origin and region arrays, in parameter order. -/
def PassCall.arrays : PassCall → List (Nat × Nat × Nat)
  | PassCall.readBuffer a0 a1 a2 a3 a4 w e => []
  | PassCall.writeBuffer a0 a1 a2 a3 a4 w e => []
  | PassCall.readBufferRect a0 a1 a2 a3 a4 a5 a6 a7 a8 a9 w e => [a2, a3, a4]
  | PassCall.writeBufferRect a0 a1 a2 a3 a4 a5 a6 a7 a8 a9 w e => [a2, a3, a4]
  | PassCall.copyBuffer a0 a1 a2 a3 a4 w e => []
  | PassCall.copyBufferRect a0 a1 a2 a3 a4 a5 a6 a7 a8 w e => [a2, a3, a4]
  | PassCall.fillBuffer a0 a1 a2 a3 a4 w e => []
  | PassCall.mapBuffer a0 a1 a2 a3 a4 w e => []
  | PassCall.readImage a0 a1 a2 a3 a4 a5 a6 w e => [a2, a3]
  | PassCall.writeImage a0 a1 a2 a3 a4 a5 a6 w e => [a2, a3]
  | PassCall.copyImage a0 a1 a2 a3 a4 w e => [a2, a3, a4]
  | PassCall.fillImage a0 a1 a2 a3 w e => [a2, a3]
  | PassCall.copyImageToBuffer a0 a1 a2 a3 a4 w e => [a2, a3]
  | PassCall.copyBufferToImage a0 a1 a2 a3 a4 w e => [a3, a4]
  | PassCall.mapImage a0 a1 a2 a3 a4 a5 a6 w e => [a3, a4]

/-- The caller's map flags, for a map operation. -/
def PassCall.mapFlags : PassCall → Option Nat
  | PassCall.readBuffer a0 a1 a2 a3 a4 w e => none
  | PassCall.writeBuffer a0 a1 a2 a3 a4 w e => none
  | PassCall.readBufferRect a0 a1 a2 a3 a4 a5 a6 a7 a8 a9 w e => none
  | PassCall.writeBufferRect a0 a1 a2 a3 a4 a5 a6 a7 a8 a9 w e => none
  | PassCall.copyBuffer a0 a1 a2 a3 a4 w e => none
  | PassCall.copyBufferRect a0 a1 a2 a3 a4 a5 a6 a7 a8 w e => none
  | PassCall.fillBuffer a0 a1 a2 a3 a4 w e => none
  | PassCall.mapBuffer a0 a1 a2 a3 a4 w e => some a2
  | PassCall.readImage a0 a1 a2 a3 a4 a5 a6 w e => none
  | PassCall.writeImage a0 a1 a2 a3 a4 a5 a6 w e => none
  | PassCall.copyImage a0 a1 a2 a3 a4 w e => none
  | PassCall.fillImage a0 a1 a2 a3 w e => none
  | PassCall.copyImageToBuffer a0 a1 a2 a3 a4 w e => none
  | PassCall.copyBufferToImage a0 a1 a2 a3 a4 w e => none
  | PassCall.mapImage a0 a1 a2 a3 a4 a5 a6 w e => some a2

/-- The caller's blocking flag, for an operation that has one. -/
def PassCall.blocking : PassCall → Option Bool
  | PassCall.readBuffer a0 a1 a2 a3 a4 w e => some a1
  | PassCall.writeBuffer a0 a1 a2 a3 a4 w e => some a1
  | PassCall.readBufferRect a0 a1 a2 a3 a4 a5 a6 a7 a8 a9 w e => some a1
  | PassCall.writeBufferRect a0 a1 a2 a3 a4 a5 a6 a7 a8 a9 w e => some a1
  | PassCall.copyBuffer a0 a1 a2 a3 a4 w e => none
  | PassCall.copyBufferRect a0 a1 a2 a3 a4 a5 a6 a7 a8 w e => none
  | PassCall.fillBuffer a0 a1 a2 a3 a4 w e => none
  | PassCall.mapBuffer a0 a1 a2 a3 a4 w e => some a1
  | PassCall.readImage a0 a1 a2 a3 a4 a5 a6 w e => some a1
  | PassCall.writeImage a0 a1 a2 a3 a4 a5 a6 w e => some a1
  | PassCall.copyImage a0 a1 a2 a3 a4 w e => none
  | PassCall.fillImage a0 a1 a2 a3 w e => none
  | PassCall.copyImageToBuffer a0 a1 a2 a3 a4 w e => none
  | PassCall.copyBufferToImage a0 a1 a2 a3 a4 w e => none
  | PassCall.mapImage a0 a1 a2 a3 a4 a5 a6 w e => some a1

/-- The caller's wait-list. -/
def PassCall.waitEvents : PassCall → List Event
  | PassCall.readBuffer a0 a1 a2 a3 a4 w e => w
  | PassCall.writeBuffer a0 a1 a2 a3 a4 w e => w
  | PassCall.readBufferRect a0 a1 a2 a3 a4 a5 a6 a7 a8 a9 w e => w
  | PassCall.writeBufferRect a0 a1 a2 a3 a4 a5 a6 a7 a8 a9 w e => w
  | PassCall.copyBuffer a0 a1 a2 a3 a4 w e => w
  | PassCall.copyBufferRect a0 a1 a2 a3 a4 a5 a6 a7 a8 w e => w
  | PassCall.fillBuffer a0 a1 a2 a3 a4 w e => w
  | PassCall.mapBuffer a0 a1 a2 a3 a4 w e => w
  | PassCall.readImage a0 a1 a2 a3 a4 a5 a6 w e => w
  | PassCall.writeImage a0 a1 a2 a3 a4 a5 a6 w e => w
  | PassCall.copyImage a0 a1 a2 a3 a4 w e => w
  | PassCall.fillImage a0 a1 a2 a3 w e => w
  | PassCall.copyImageToBuffer a0 a1 a2 a3 a4 w e => w
  | PassCall.copyBufferToImage a0 a1 a2 a3 a4 w e => w
  | PassCall.mapImage a0 a1 a2 a3 a4 a5 a6 w e => w

/-- Whether the caller's factory pointer is non-null. -/
def PassCall.eventCreateFunc : PassCall → Bool
  | PassCall.readBuffer a0 a1 a2 a3 a4 w e => e
  | PassCall.writeBuffer a0 a1 a2 a3 a4 w e => e
  | PassCall.readBufferRect a0 a1 a2 a3 a4 a5 a6 a7 a8 a9 w e => e
  | PassCall.writeBufferRect a0 a1 a2 a3 a4 a5 a6 a7 a8 a9 w e => e
  | PassCall.copyBuffer a0 a1 a2 a3 a4 w e => e
  | PassCall.copyBufferRect a0 a1 a2 a3 a4 a5 a6 a7 a8 w e => e
  | PassCall.fillBuffer a0 a1 a2 a3 a4 w e => e
  | PassCall.mapBuffer a0 a1 a2 a3 a4 w e => e
  | PassCall.readImage a0 a1 a2 a3 a4 a5 a6 w e => e
  | PassCall.writeImage a0 a1 a2 a3 a4 a5 a6 w e => e
  | PassCall.copyImage a0 a1 a2 a3 a4 w e => e
  | PassCall.fillImage a0 a1 a2 a3 w e => e
  | PassCall.copyImageToBuffer a0 a1 a2 a3 a4 w e => e
  | PassCall.copyBufferToImage a0 a1 a2 a3 a4 w e => e
  | PassCall.mapImage a0 a1 a2 a3 a4 a5 a6 w e => e

/-- Whether the operation is one of the two map operations. -/
def PassCall.isMap : PassCall → Bool
  | PassCall.readBuffer a0 a1 a2 a3 a4 w e => false
  | PassCall.writeBuffer a0 a1 a2 a3 a4 w e => false
  | PassCall.readBufferRect a0 a1 a2 a3 a4 a5 a6 a7 a8 a9 w e => false
  | PassCall.writeBufferRect a0 a1 a2 a3 a4 a5 a6 a7 a8 a9 w e => false
  | PassCall.copyBuffer a0 a1 a2 a3 a4 w e => false
  | PassCall.copyBufferRect a0 a1 a2 a3 a4 a5 a6 a7 a8 w e => false
  | PassCall.fillBuffer a0 a1 a2 a3 a4 w e => false
  | PassCall.mapBuffer a0 a1 a2 a3 a4 w e => true
  | PassCall.readImage a0 a1 a2 a3 a4 a5 a6 w e => false
  | PassCall.writeImage a0 a1 a2 a3 a4 a5 a6 w e => false
  | PassCall.copyImage a0 a1 a2 a3 a4 w e => false
  | PassCall.fillImage a0 a1 a2 a3 w e => false
  | PassCall.copyImageToBuffer a0 a1 a2 a3 a4 w e => false
  | PassCall.copyBufferToImage a0 a1 a2 a3 a4 w e => false
  | PassCall.mapImage a0 a1 a2 a3 a4 a5 a6 w e => true

/-- The `cl_mem` arguments of a native call, in order. -/
def NativeCall.mems (call : NativeCall) : List Nat :=
  call.args.filterMap fun a => match a with
    | Arg.mem n => some n
    | _ => none

/-- The size and pointer arguments of a native call, in order. -/
def NativeCall.values (call : NativeCall) : List Nat :=
  call.args.filterMap fun a => match a with
    | Arg.scalar n => some n
    | _ => none

/-- The array arguments of a native call, in order. -/
def NativeCall.arrays (call : NativeCall) : List (Nat × Nat × Nat) :=
  call.args.filterMap fun a => match a with
    | Arg.array t => some t
    | _ => none

/-- The map-flags argument of a native call, if it has one. -/
def NativeCall.mapFlags (call : NativeCall) : Option Nat :=
  (call.args.filterMap fun a => match a with
    | Arg.flags n => some n
    | _ => none).head?

/-- The `cl_bool` argument of a native call, if it has one. -/
def NativeCall.blocking (call : NativeCall) : Option Nat :=
  (call.args.filterMap fun a => match a with
    | Arg.bool n => some n
    | _ => none).head?

/-- A driver used in the concrete instances: it answers every call with
the given error code, native event 77 and mapped pointer 4096. -/
def sampleEnv (errorCode : Int) : Env :=
  ⟨5, fun _ => ⟨errorCode, 77, 4096⟩, fun w => w.map fun ev => ev.ptr + 1000⟩

end CLCommandQueueCL

/-!
# Reflection data of shader variables

A shallow embedding of `ActiveVariable` and `InterfaceBlock` of
`src/libANGLE/Uniform.cpp`.  The enumeration of shader types is declared in
another file: it is a type parameter, and the list `AllShaderTypes()` that the
loop of `unionReferencesWith` visits is a parameter as well.
-/

namespace gl

/-- The class `ActiveVariable`: the active-use bit and the id, per shader type. -/
structure ActiveVariable (ShaderType : Type) where
  mActiveUseBits : ShaderType → Bool
  mIds : ShaderType → Nat

/-- The default constructor `ActiveVariable::ActiveVariable()`: no bit is set
and every id is filled with 0. -/
def ActiveVariable.new {ShaderType : Type} : ActiveVariable ShaderType :=
  ⟨fun _ => false, fun _ => 0⟩

/-- The function `ActiveVariable::setActive`. -/
def ActiveVariable.setActive {ShaderType : Type} [DecidableEq ShaderType]
    (self : ActiveVariable ShaderType) (shaderType : ShaderType) (used : Bool) (id : Nat) :
    ActiveVariable ShaderType :=
  ⟨Function.update self.mActiveUseBits shaderType used, Function.update self.mIds shaderType id⟩

/-- One iteration of the loop of `unionReferencesWith`: when the id of the
shader type is 0 it is replaced by the id of `other`. -/
def ActiveVariable.unionId {ShaderType : Type} [DecidableEq ShaderType]
    (other : ActiveVariable ShaderType) (self : ActiveVariable ShaderType)
    (shaderType : ShaderType) : ActiveVariable ShaderType :=
  if self.mIds shaderType = 0 then
    { self with mIds := Function.update self.mIds shaderType (other.mIds shaderType) }
  else self

/-- The function `ActiveVariable::unionReferencesWith`. -/
def ActiveVariable.unionReferencesWith {ShaderType : Type} [DecidableEq ShaderType]
    (AllShaderTypes : List ShaderType) (self other : ActiveVariable ShaderType) :
    ActiveVariable ShaderType :=
  let self1 : ActiveVariable ShaderType :=
    { self with mActiveUseBits := fun s => self.mActiveUseBits s || other.mActiveUseBits s }
  AllShaderTypes.foldl (ActiveVariable.unionId other) self1

/-- The class `InterfaceBlock`, with the members its constructor sets. -/
structure InterfaceBlock where
  name : String
  mappedName : String
  isArray : Bool
  isReadOnly : Bool
  arrayElement : Nat
  firstFieldArraySize : Nat
  binding : Int
deriving DecidableEq, Repr

/-- The function `InterfaceBlock::nameWithArrayIndex`.  The stream insertion of
the unsigned `arrayElement` is its decimal rendering. -/
def InterfaceBlock.nameWithArrayIndex (self : InterfaceBlock) : String :=
  let fullNameStr := "" ++ self.name
  if self.isArray then
    fullNameStr ++ "[" ++ String.mk (Nat.toDigits 10 self.arrayElement) ++ "]"
  else fullNameStr

/-- The function `InterfaceBlock::mappedNameWithArrayIndex`. -/
def InterfaceBlock.mappedNameWithArrayIndex (self : InterfaceBlock) : String :=
  let fullNameStr := "" ++ self.mappedName
  if self.isArray then
    fullNameStr ++ "[" ++ String.mk (Nat.toDigits 10 self.arrayElement) ++ "]"
  else fullNameStr

end gl

namespace CLCommandQueueVk

/-! ## The mutual-exclusion guard

`enqueueNDRangeKernel` opens with `std::scoped_lock<std::mutex> sl(mCommandQueueMutex)`:
the guard is taken on entry and released by the destructor of `sl` on every
return path.  The functions of this section run the functions above on a queue
that carries two ghost components: whether the guard is held, and a log with
one entry per executed body that records commands or writes member variables,
saying whether the guard was held while the body ran. -/

/-- The bodies of the file that record commands or write member variables:
the body of `enqueueNDRangeKernel` and the body of the event factory that
`createEvent` installs. -/
inductive GuardSite where
  | enqueueNDRangeKernel
  | eventFactory
deriving DecidableEq, Repr

/-- One executed body and whether `mCommandQueueMutex` was held while it ran. -/
structure GuardEntry where
  site : GuardSite
  held : Bool
deriving DecidableEq, Repr

/-- The queue with the ghost state of the guard. -/
structure GuardedQueue where
  queue : Queue
  /-- Whether `mCommandQueueMutex` is held. -/
  mCommandQueueMutexHeld : Bool
  guardLog : List GuardEntry

/-- The function `enqueueNDRangeKernel` with the guard: `sl` takes the guard,
the body runs, and the destructor of `sl` releases the guard on return. -/
def enqueueNDRangeKernelGuarded (kMaxDependencyTrackerSize : Nat) (env : DispatchEnv)
    (kernel : Kernel) (ndrange : NDRange) (waitEvents : List Event)
    (eventCreateFunc : Bool) (g : GuardedQueue) : Result × GuardedQueue × Bool :=
  let g1 : GuardedQueue := { g with mCommandQueueMutexHeld := true }
  let r := enqueueNDRangeKernel kMaxDependencyTrackerSize env kernel ndrange waitEvents
    eventCreateFunc g1.queue
  let entry : GuardEntry := ⟨GuardSite.enqueueNDRangeKernel, g1.mCommandQueueMutexHeld⟩
  let g2 : GuardedQueue := ⟨r.2.1, g1.mCommandQueueMutexHeld, g1.guardLog ++ [entry]⟩
  (r.1, { g2 with mCommandQueueMutexHeld := false }, r.2.2)

theorem isDeferred_eq_not_isSameQueue (q : Queue) (event : Event) :
    isDeferred q event = !isSameQueue q event := by
  unfold isDeferred isSameQueue
  cases event.isUserEvent <;> simp [bne]

theorem record_mDependantEvents (c : Command) (q : Queue) (l : List Event) :
    { record c q with mDependantEvents := l } = record c { q with mDependantEvents := l } := rfl

/-- The loop of `processWaitlist` in closed form: from the local flag `b` and
queue `q`, the flag ends as `b` or "a same-queue entry exists", one barrier is
recorded when the flag turns from false to true, and the deferred entries are
appended in order. -/
theorem foldl_processWaitEvent (w : List Event) : ∀ (b : Bool) (q : Queue),
    w.foldl processWaitEvent (b, q) =
      (b || w.any (isSameQueue q),
       { (if !b && w.any (isSameQueue q) then record Command.pipelineBarrier q else q) with
         mDependantEvents := q.mDependantEvents ++ w.filter (isDeferred q) }) := by
  induction w with
  | nil => intro b q; simp
  | cons e w ih =>
    intro b q
    rw [List.foldl_cons]
    by_cases hd : isDeferred q e = true
    · have hs : isSameQueue q e = false := by
        have := isDeferred_eq_not_isSameQueue q e; rw [hd] at this; simpa using this.symm
      have hstep : processWaitEvent (b, q) e =
          (b, { q with mDependantEvents := q.mDependantEvents ++ [e] }) := by
        simp [processWaitEvent, hd]
      rw [hstep, ih]
      have h1 : ∀ l, isSameQueue { q with mDependantEvents := l } = isSameQueue q := fun _ => rfl
      have h2 : ∀ l, isDeferred { q with mDependantEvents := l } = isDeferred q := fun _ => rfl
      simp only [h1, h2, List.any_cons, hs, Bool.false_or, List.filter_cons, hd, if_true]
      by_cases hc : (!b && w.any (isSameQueue q)) = true
      · simp [hc, record]
      · simp [hc]
    · have hd' : isDeferred q e = false := by simpa using hd
      have hs : isSameQueue q e = true := by
        have := isDeferred_eq_not_isSameQueue q e; rw [hd'] at this; simpa using this.symm
      have hq : (e.commandQueue == q.mCommandQueue) = true := by
        unfold isSameQueue at hs; simp at hs; simp [hs.2]
      cases b with
      | true =>
        have hstep : processWaitEvent (true, q) e = (true, q) := by
          simp [processWaitEvent, hd']
        rw [hstep, ih]
        simp [hd', hs]
      | false =>
        have hstep : processWaitEvent (false, q) e =
            (true, record Command.pipelineBarrier q) := by
          simp [processWaitEvent, hd', hq]
        rw [hstep, ih]
        have h1 : isSameQueue (record Command.pipelineBarrier q) = isSameQueue q := rfl
        have h2 : isDeferred (record Command.pipelineBarrier q) = isDeferred q := rfl
        simp only [h1, h2]
        simp [hd', hs, record]

/-- The function `processWaitlist` in closed form. -/
theorem processWaitlist_eq (w : List Event) (q : Queue) :
    processWaitlist w q =
      (Result.Continue,
       { (if w.any (isSameQueue q) then record Command.pipelineBarrier q else q) with
         mDependantEvents := q.mDependantEvents ++ w.filter (isDeferred q) }) := by
  unfold processWaitlist
  cases w with
  | nil => simp
  | cons e w =>
    have hne : (!(e :: w).isEmpty) = true := rfl
    rw [if_pos hne, foldl_processWaitEvent]
    simp only [Bool.false_or, Bool.not_false, Bool.true_and]

theorem recorded_record (c : Command) (q : Queue) (h : CommandBufferHelper)
    (hq : q.mComputePassCommands = some h) : recorded (record c q) = recorded q ++ [c] := by
  simp [recorded, record, hq]

theorem any_isSameQueue_iff (q : Queue) (w : List Event) :
    w.any (isSameQueue q) = true ↔
      ∃ e ∈ w, e.isUserEvent = false ∧ e.commandQueue = q.mCommandQueue := by
  simp [List.any_eq_true, isSameQueue]

/-- The commands `processWaitlist` records on a queue with a recording scope. -/
theorem processWaitlist_recorded (q : Queue) (h : CommandBufferHelper)
    (hq : q.mComputePassCommands = some h) (w : List Event) :
    recorded (processWaitlist w q).2 =
      recorded q ++
        (if ∃ e ∈ w, e.isUserEvent = false ∧ e.commandQueue = q.mCommandQueue
         then [Command.pipelineBarrier] else []) := by
  rw [processWaitlist_eq]
  by_cases hs : w.any (isSameQueue q) = true
  · have hex := (any_isSameQueue_iff q w).1 hs
    rw [if_pos hex]
    simp only [hs, if_true]
    exact recorded_record _ q h hq
  · have hex : ¬ ∃ e ∈ w, e.isUserEvent = false ∧ e.commandQueue = q.mCommandQueue :=
      fun hx => hs ((any_isSameQueue_iff q w).2 hx)
    rw [if_neg hex]
    simp only [hs]
    simp [recorded]

/-- C1: on a queue with a recording scope, `processWaitlist` appends exactly one
memory barrier to the recorded commands when the wait-list has an entry that is
not a user event and was produced by this queue, and leaves the recorded
commands unchanged otherwise; the number of barriers never grows by more than
one, whatever the wait-list. -/
theorem processWaitlist_one_barrier_iff_same_queue (q : Queue) (h : CommandBufferHelper)
    (hq : q.mComputePassCommands = some h) (w : List Event) :
    recorded (processWaitlist w q).2 =
        recorded q ++
          (if ∃ e ∈ w, e.isUserEvent = false ∧ e.commandQueue = q.mCommandQueue
           then [Command.pipelineBarrier] else []) ∧
      barrierCount (recorded (processWaitlist w q).2) ≤ barrierCount (recorded q) + 1 := by
  have key := processWaitlist_recorded q h hq w
  refine ⟨key, ?_⟩
  rw [key]
  unfold barrierCount
  split <;> simp

/-- C1 at a wait-list of two same-queue events and a foreign one on the sample
queue: one barrier is recorded. -/
theorem processWaitlist_one_barrier_iff_same_queue_witness :
    sampleQueue.mComputePassCommands = some ⟨[], [], ⟨0, 1⟩⟩ ∧
    recorded (processWaitlist
        [sampleEvent 1 false 7, sampleEvent 2 false 9, sampleEvent 3 false 7] sampleQueue).2 =
      [Command.pipelineBarrier] := by
  refine ⟨rfl, ?_⟩
  have h := (processWaitlist_one_barrier_iff_same_queue sampleQueue ⟨[], [], ⟨0, 1⟩⟩ rfl
    [sampleEvent 1 false 7, sampleEvent 2 false 9, sampleEvent 3 false 7]).1
  rw [h]
  simp [sampleEvent, sampleQueue, init, construct, setQueueSerial, recorded]

/-- C2 as stated fails: when the deferred list already holds an entry from an
earlier call, a second call with one foreign entry leaves two entries, not one. -/
theorem processWaitlist_deferred_length_counterexample :
    ((processWaitlist [sampleEvent 2 false 9]
        (processWaitlist [sampleEvent 1 false 9] sampleQueue).2).2.mDependantEvents.length = 2) ∧
    ([sampleEvent 2 false 9].countP
        (fun e => e.isUserEvent || e.commandQueue != 7) = 1) ∧
    ¬ ((processWaitlist [sampleEvent 2 false 9]
        (processWaitlist [sampleEvent 1 false 9] sampleQueue).2).2.mDependantEvents.length =
      [sampleEvent 2 false 9].countP (fun e => e.isUserEvent || e.commandQueue != 7)) := by
  simp [processWaitlist_eq, isDeferred, isSameQueue, sampleEvent, sampleQueue, init, construct,
    setQueueSerial]

/-- C2 (amended): `processWaitlist` makes the deferred dependency list longer by
exactly the number of wait-list entries that are user events or were produced
by a different queue; its length is that number when the list was empty. -/
theorem processWaitlist_deferred_length (q : Queue) (w : List Event) :
    (processWaitlist w q).2.mDependantEvents.length =
      q.mDependantEvents.length +
        w.countP (fun e => e.isUserEvent || e.commandQueue != q.mCommandQueue) := by
  rw [processWaitlist_eq]
  simp only [List.length_append, List.countP_eq_length_filter]
  rfl

/-! ## Kernel resources: closed form of the argument loop -/

theorem recordAll_nil (q : Queue) : recordAll [] q = q := by
  cases q with
  | mk a b c d e f g h i j => cases b <;> simp [recordAll]

theorem record_eq_recordAll (c : Command) (q : Queue) : record c q = recordAll [c] q := rfl

theorem recordAll_recordAll (cs cs' : List Command) (q : Queue) :
    recordAll cs (recordAll cs' q) = recordAll (cs' ++ cs) q := by
  cases q with
  | mk a b c d e f g h i j => cases b <;> simp [recordAll]

theorem recorded_recordAll (cs : List Command) (q : Queue) (h : CommandBufferHelper)
    (hq : q.mComputePassCommands = some h) : recorded (recordAll cs q) = recorded q ++ cs := by
  simp [recorded, recordAll, hq]

theorem processKernelArg_storage (K ds : Nat) (st : ArgLoop) (a : KernelArg)
    (ha : a.type = ArgType.StorageBuffer) :
    processKernelArg K ds st a =
      { needsBarrier := (observeHazard K a.clMem.ptr (st.needsBarrier, st.q.mDependencyTracker)).1
        writes := st.writes ++ [writeDescriptorSetFor ds a]
        q := { st.q with
          mMemoryCaptures := st.q.mMemoryCaptures ++ [a.clMem]
          mDependencyTracker :=
            (observeHazard K a.clMem.ptr (st.needsBarrier, st.q.mDependencyTracker)).2 } } := by
  simp [processKernelArg, ha]

theorem processKernelArg_uniform (K ds : Nat) (st : ArgLoop) (a : KernelArg)
    (ha : a.type = ArgType.Uniform) :
    processKernelArg K ds st a =
      { needsBarrier := st.needsBarrier
        writes := st.writes ++ [writeDescriptorSetFor ds a]
        q := { st.q with mMemoryCaptures := st.q.mMemoryCaptures ++ [a.clMem] } } := by
  simp [processKernelArg, ha]

theorem processKernelArg_pod (K ds : Nat) (st : ArgLoop) (a : KernelArg)
    (ha : a.type = ArgType.PodPushConstant) :
    processKernelArg K ds st a =
      { st with q :=
          recordAll [Command.pushConstants a.pushConstOffset a.pushConstantSize a.handle] st.q } := by
  simp [processKernelArg, ha, record_eq_recordAll]

theorem processKernelArg_unimplemented (K ds : Nat) (st : ArgLoop) (a : KernelArg)
    (hb : isBufferArg a = false) (hp : isPodArg a = false) :
    processKernelArg K ds st a = st := by
  unfold isBufferArg at hb
  unfold isPodArg at hp
  unfold processKernelArg
  cases hty : a.type <;> simp_all

/-- The argument loop of `processKernelResources` in closed form. -/
theorem foldl_processKernelArg (K ds : Nat) (args : List KernelArg) : ∀ st : ArgLoop,
    args.foldl (processKernelArg K ds) st =
      { needsBarrier :=
          (observeAll K (st.needsBarrier, st.q.mDependencyTracker) (storagePtrs args)).1
        writes := st.writes ++ (args.filter isBufferArg).map (writeDescriptorSetFor ds)
        q := { recordAll (podCommands args) st.q with
          mMemoryCaptures :=
            st.q.mMemoryCaptures ++ (args.filter isBufferArg).map (fun a => a.clMem)
          mDependencyTracker :=
            (observeAll K (st.needsBarrier, st.q.mDependencyTracker) (storagePtrs args)).2 } } := by
  induction args with
  | nil =>
    intro st
    simp [observeAll, storagePtrs, podCommands, recordAll_nil]
  | cons a args ih =>
    intro st
    rw [List.foldl_cons, ih]
    by_cases hs : a.type = ArgType.StorageBuffer
    · rw [processKernelArg_storage K ds st a hs]
      simp [observeAll, storagePtrs, podCommands, isBufferArg, isStorageArg, isPodArg, hs,
        recordAll]
    · by_cases hu : a.type = ArgType.Uniform
      · rw [processKernelArg_uniform K ds st a hu]
        simp [observeAll, storagePtrs, podCommands, isBufferArg, isStorageArg, isPodArg, hu,
          recordAll]
      · by_cases hp : a.type = ArgType.PodPushConstant
        · rw [processKernelArg_pod K ds st a hp]
          simp [observeAll, storagePtrs, podCommands, isBufferArg, isStorageArg, isPodArg, hp,
            recordAll_recordAll]
          simp [recordAll]
        · rw [processKernelArg_unimplemented K ds st a (by simp [isBufferArg, hs, hu])
            (by simp [isPodArg, hp])]
          simp [observeAll, storagePtrs, podCommands, isBufferArg, isStorageArg, isPodArg, hs,
            hu, hp]

theorem pushGlobals_eq (k : Kernel) (nd : NDRange) (q : Queue) :
    pushGlobals k nd q = recordAll (globalCommands k nd) q := by
  unfold pushGlobals globalCommands
  cases k.globalOffsetRange <;> cases k.globalSizeRange <;>
    simp [record_eq_recordAll, recordAll_recordAll, recordAll_nil]

/-- The function `processKernelResources` in closed form, when the descriptor
set has been allocated. -/
theorem processKernelResources_eq (K : Nat) (env : DispatchEnv) (k : Kernel) (nd : NDRange)
    (q : Queue) (ds : Nat) (hds : env.allocateDescriptorSet = some ds) :
    processKernelResources K env k nd q =
      (Result.Continue,
       { recordAll (kernelResourceCommands K k nd ds q) q with
         mMemoryCaptures :=
           q.mMemoryCaptures ++ (k.args.filter isBufferArg).map (fun a => a.clMem)
         mDependencyTracker :=
           (observeAll K (false, q.mDependencyTracker) (storagePtrs k.args)).2
         descriptorUpdates :=
           q.descriptorUpdates ++ (k.args.filter isBufferArg).map (writeDescriptorSetFor ds) }) := by
  unfold processKernelResources kernelResourceCommands
  simp only [hds, foldl_processKernelArg, argLoopStart, pushGlobals_eq]
  have hT : (recordAll (globalCommands k nd) q).mDependencyTracker = q.mDependencyTracker := rfl
  have hM : (recordAll (globalCommands k nd) q).mMemoryCaptures = q.mMemoryCaptures := rfl
  rw [hT, hM]
  cases hb : (observeAll K (false, q.mDependencyTracker) (storagePtrs k.args)).1
  · cases q with
    | mk a b c d e f g h i j => cases b <;> simp [recordAll, record]
  · cases q with
    | mk a b c d e f g h i j => cases b <;> simp [recordAll, record]

theorem processKernelResources_fail (K : Nat) (env : DispatchEnv) (k : Kernel) (nd : NDRange)
    (q : Queue) (hds : env.allocateDescriptorSet = none) :
    processKernelResources K env k nd q = (Result.Stop env.allocateDescriptorSetError, q) := by
  unfold processKernelResources
  simp [hds]

/-! ## Hazard tracking: properties -/

theorem observeHazard_eq (K r : Nat) (nb : Bool) (S : Finset Nat) :
    observeHazard K r (nb, S) =
      (nb || decide (r ∈ S ∨ S.card = K), if r ∈ S ∨ S.card = K then {r} else insert r S) := by
  unfold observeHazard
  by_cases h : r ∈ S ∨ S.card = K
  · simp [h]
  · simp [h]

theorem observeHazard_card_le (K r : Nat) (hK : 1 ≤ K) (st : Bool × Finset Nat)
    (h : st.2.card ≤ K) : (observeHazard K r st).2.card ≤ K := by
  obtain ⟨nb, S⟩ := st
  rw [observeHazard_eq]
  by_cases hc : r ∈ S ∨ S.card = K
  · simpa [hc] using hK
  · simp only [hc, if_false]
    have h1 : r ∉ S := fun hr => hc (Or.inl hr)
    have h2 : S.card ≠ K := fun hk => hc (Or.inr hk)
    rw [Finset.card_insert_of_not_mem h1]
    have h3 : S.card ≤ K := h
    omega

theorem observeAll_card_le (K : Nat) (hK : 1 ≤ K) (ptrs : List Nat) :
    ∀ st : Bool × Finset Nat, st.2.card ≤ K → (observeAll K st ptrs).2.card ≤ K := by
  induction ptrs with
  | nil => intro st h; simpa [observeAll] using h
  | cons p ptrs ih =>
    intro st h
    have := ih (observeHazard K p st) (observeHazard_card_le K p hK st h)
    simpa [observeAll] using this

/-- C3: processing one storage-buffer argument on memory object `r` against the
Hazard Set `S` raises the barrier flag exactly when `r` is in `S` or `S` holds
`K` elements; the set afterwards is the singleton of `r` in that case and `S`
with `r` added otherwise. -/
theorem processKernelArg_storage_hazard (K ds : Nat) (st : ArgLoop) (a : KernelArg)
    (ha : a.type = ArgType.StorageBuffer) :
    (processKernelArg K ds st a).needsBarrier =
        (st.needsBarrier ||
          decide (a.clMem.ptr ∈ st.q.mDependencyTracker ∨ st.q.mDependencyTracker.card = K)) ∧
      (processKernelArg K ds st a).q.mDependencyTracker =
        (if a.clMem.ptr ∈ st.q.mDependencyTracker ∨ st.q.mDependencyTracker.card = K
          then {a.clMem.ptr} else st.q.mDependencyTracker ∪ {a.clMem.ptr}) := by
  rw [processKernelArg_storage K ds st a ha, observeHazard_eq]
  refine ⟨rfl, ?_⟩
  show (if a.clMem.ptr ∈ st.q.mDependencyTracker ∨ st.q.mDependencyTracker.card = K
      then {a.clMem.ptr} else insert a.clMem.ptr st.q.mDependencyTracker) = _
  split
  · rfl
  · rw [Finset.insert_eq, Finset.union_comm]

/-- C3 at capacity 2 with the set holding objects 5 and 6 and a write to object
9: the set is full, so a barrier is required and the set becomes the singleton
of 9. -/
theorem processKernelArg_storage_hazard_witness :
    (sampleArg ArgType.StorageBuffer 9).type = ArgType.StorageBuffer ∧
    (processKernelArg 2 1 ⟨false, [], { sampleQueue with mDependencyTracker := {5, 6} }⟩
        (sampleArg ArgType.StorageBuffer 9)).needsBarrier = true ∧
    (processKernelArg 2 1 ⟨false, [], { sampleQueue with mDependencyTracker := {5, 6} }⟩
        (sampleArg ArgType.StorageBuffer 9)).q.mDependencyTracker = {9} := by
  have h := processKernelArg_storage_hazard 2 1
    ⟨false, [], { sampleQueue with mDependencyTracker := {5, 6} }⟩
    (sampleArg ArgType.StorageBuffer 9) rfl
  refine ⟨rfl, ?_, ?_⟩
  · rw [h.1]; simp [sampleArg, sampleMemory]
  · rw [h.2]; simp [sampleArg, sampleMemory]

theorem processKernelResources_card_le (K : Nat) (hK : 1 ≤ K) (env : DispatchEnv) (k : Kernel)
    (nd : NDRange) (q : Queue) (h : q.mDependencyTracker.card ≤ K) :
    (processKernelResources K env k nd q).2.mDependencyTracker.card ≤ K := by
  cases hds : env.allocateDescriptorSet with
  | none => rw [processKernelResources_fail K env k nd q hds]; exact h
  | some ds =>
    rw [processKernelResources_eq K env k nd q ds hds]
    exact observeAll_card_le K hK _ (false, q.mDependencyTracker) h

theorem runKernelResources_card_le (K : Nat) (hK : 1 ≤ K)
    (calls : List (DispatchEnv × Kernel × NDRange)) :
    ∀ q : Queue, q.mDependencyTracker.card ≤ K →
      (runKernelResources K calls q).mDependencyTracker.card ≤ K := by
  induction calls with
  | nil => intro q h; exact h
  | cons c calls ih =>
    intro q h
    exact ih _ (processKernelResources_card_le K hK c.1 c.2.1 c.2.2 q h)

/-- C4: for capacity `K ≥ 1`, from an empty Hazard Set, after every sequence of
`processKernelResources` calls the Hazard Set has at most `K` elements, and in
any further call it has at most `K` elements after each argument processed
(after the first `n` arguments, for every `n`). -/
theorem hazard_set_card_le_capacity (K : Nat) (hK : 1 ≤ K) (q : Queue)
    (hq : q.mDependencyTracker = ∅) (calls : List (DispatchEnv × Kernel × NDRange)) :
    (runKernelResources K calls q).mDependencyTracker.card ≤ K ∧
      ∀ (k : Kernel) (nd : NDRange) (ds n : Nat),
        ((k.args.take n).foldl (processKernelArg K ds)
          (argLoopStart k nd (runKernelResources K calls q))).q.mDependencyTracker.card ≤ K := by
  have h0 : q.mDependencyTracker.card ≤ K := by simp [hq]
  have h1 := runKernelResources_card_le K hK calls q h0
  refine ⟨h1, ?_⟩
  intro k nd ds n
  rw [foldl_processKernelArg]
  exact observeAll_card_le K hK _ _ (by simpa [argLoopStart, pushGlobals_eq, recordAll] using h1)

/-- C4 at capacity 2: after one call with three writes to distinct objects the
Hazard Set has at most two elements. -/
theorem hazard_set_card_le_capacity_witness :
    1 ≤ 2 ∧ sampleQueue.mDependencyTracker = ∅ ∧
    (runKernelResources 2
      [((sampleDispatch []).env,
        ⟨[sampleArg ArgType.StorageBuffer 5, sampleArg ArgType.StorageBuffer 6,
          sampleArg ArgType.StorageBuffer 7], none, none⟩,
        (sampleDispatch []).ndrange)] sampleQueue).mDependencyTracker.card ≤ 2 :=
  ⟨by decide, rfl,
    (hazard_set_card_le_capacity 2 (by decide) sampleQueue rfl
      [((sampleDispatch []).env,
        ⟨[sampleArg ArgType.StorageBuffer 5, sampleArg ArgType.StorageBuffer 6,
          sampleArg ArgType.StorageBuffer 7], none, none⟩,
        (sampleDispatch []).ndrange)]).1⟩

/-! ## Dispatch: what one `enqueueNDRangeKernel` call does -/

theorem createEvent_eq (b : Bool) (q : Queue) : createEvent b q = (Result.Continue, q, b) := by
  cases b <;> rfl

/-- The Hazard Set after a dispatch whose descriptor set was allocated. -/
theorem enqueue_tracker (K : Nat) (d : Dispatch) (q : Queue) (ds : Nat)
    (hds : d.env.allocateDescriptorSet = some ds) :
    (d.enqueue K q).2.1.mDependencyTracker =
      (observeAll K (false, q.mDependencyTracker) (storagePtrs d.kernel.args)).2 := by
  unfold Dispatch.enqueue enqueueNDRangeKernel
  rw [processWaitlist_eq]
  simp only []
  rw [processKernelResources_eq K d.env d.kernel d.ndrange _ ds hds]
  simp only []
  cases d.env.getPipelineCache <;> cases d.env.getOrCreateComputePipeline <;>
    cases d.waitEvents.any (isSameQueue q) <;>
    simp [createEvent_eq, recordAll, record, retainResource]

/-- The Hazard Set is untouched by a dispatch whose descriptor-set allocation
failed. -/
theorem enqueue_tracker_fail (K : Nat) (d : Dispatch) (q : Queue)
    (hds : d.env.allocateDescriptorSet = none) :
    (d.enqueue K q).2.1.mDependencyTracker = q.mDependencyTracker := by
  unfold Dispatch.enqueue enqueueNDRangeKernel
  rw [processWaitlist_eq]
  simp only []
  rw [processKernelResources_fail K d.env d.kernel d.ndrange _ hds]
  cases d.waitEvents.any (isSameQueue q) <;> simp [record]

theorem kernelResourceCommands_congr (K : Nat) (k : Kernel) (nd : NDRange) (ds : Nat)
    (q q' : Queue) (h : q'.mDependencyTracker = q.mDependencyTracker) :
    kernelResourceCommands K k nd ds q' = kernelResourceCommands K k nd ds q := by
  unfold kernelResourceCommands
  rw [h]

/-- The commands recorded by one `enqueueNDRangeKernel` call on a queue with a
recording scope, whatever the outcome of the call. -/
theorem enqueue_recorded (K : Nat) (d : Dispatch) (q : Queue) (h : CommandBufferHelper)
    (hq : q.mComputePassCommands = some h) :
    recorded (d.enqueue K q).2.1 = recorded q ++ enqueueCommands K d q := by
  unfold Dispatch.enqueue enqueueNDRangeKernel enqueueCommands
  rw [processWaitlist_eq]
  simp only []
  cases hds : d.env.allocateDescriptorSet with
  | none =>
    rw [processKernelResources_fail K d.env d.kernel d.ndrange _ hds]
    cases d.waitEvents.any (isSameQueue q) <;> simp [record, recorded, hq]
  | some ds =>
    rw [processKernelResources_eq K d.env d.kernel d.ndrange _ ds hds]
    simp only []
    rw [kernelResourceCommands_congr K d.kernel d.ndrange ds q _
      (by cases d.waitEvents.any (isSameQueue q) <;> rfl)]
    cases d.env.getPipelineCache <;> cases hp : d.env.getOrCreateComputePipeline <;>
      cases d.waitEvents.any (isSameQueue q) <;>
      simp [createEvent_eq, recordAll, record, retainResource, recorded, hq]

/-- What a dispatch never changes: the identity of the queue, its serial index,
the two serial marks, the serial of the recording scope and the list of
associated events. -/
theorem enqueue_frame (K : Nat) (d : Dispatch) (q : Queue) :
    (d.enqueue K q).2.1.mCommandQueue = q.mCommandQueue ∧
      (d.enqueue K q).2.1.mCurrentQueueSerialIndex = q.mCurrentQueueSerialIndex ∧
      (d.enqueue K q).2.1.mLastFlushedQueueSerial = q.mLastFlushedQueueSerial ∧
      (d.enqueue K q).2.1.mLastSubmittedQueueSerial = q.mLastSubmittedQueueSerial ∧
      scopeQueueSerial (d.enqueue K q).2.1 = scopeQueueSerial q ∧
      (d.enqueue K q).2.1.mAssociatedEvents = q.mAssociatedEvents := by
  unfold Dispatch.enqueue enqueueNDRangeKernel
  rw [processWaitlist_eq]
  simp only []
  cases hds : d.env.allocateDescriptorSet with
  | none =>
    rw [processKernelResources_fail K d.env d.kernel d.ndrange _ hds]
    cases hc : q.mComputePassCommands <;> cases d.waitEvents.any (isSameQueue q) <;>
      simp [record, scopeQueueSerial, hc]
  | some ds =>
    rw [processKernelResources_eq K d.env d.kernel d.ndrange _ ds hds]
    simp only []
    cases hc : q.mComputePassCommands <;>
      cases d.env.getPipelineCache <;> cases hp : d.env.getOrCreateComputePipeline <;>
      cases d.waitEvents.any (isSameQueue q) <;>
      simp [createEvent_eq, recordAll, record, retainResource, scopeQueueSerial, hc]

/-- A dispatch keeps the recording scope in place. -/
theorem enqueue_scope_isSome (K : Nat) (d : Dispatch) (q : Queue)
    (hq : q.mComputePassCommands.isSome = true) :
    (d.enqueue K q).2.1.mComputePassCommands.isSome = true := by
  obtain ⟨h, hh⟩ := Option.isSome_iff_exists.1 hq
  unfold Dispatch.enqueue enqueueNDRangeKernel
  rw [processWaitlist_eq]
  simp only []
  cases hds : d.env.allocateDescriptorSet with
  | none =>
    rw [processKernelResources_fail K d.env d.kernel d.ndrange _ hds]
    cases d.waitEvents.any (isSameQueue q) <;> simp [record, hh]
  | some ds =>
    rw [processKernelResources_eq K d.env d.kernel d.ndrange _ ds hds]
    simp only []
    cases d.env.getPipelineCache <;> cases hp : d.env.getOrCreateComputePipeline <;>
      cases d.waitEvents.any (isSameQueue q) <;>
      simp [createEvent_eq, recordAll, record, retainResource, hh]

theorem barrierCount_append (cs cs' : List Command) :
    barrierCount (cs ++ cs') = barrierCount cs + barrierCount cs' := by
  simp [barrierCount]

theorem barrierCount_globalCommands (k : Kernel) (nd : NDRange) :
    barrierCount (globalCommands k nd) = 0 := by
  unfold globalCommands barrierCount
  cases k.globalOffsetRange <;> cases k.globalSizeRange <;> simp

theorem barrierCount_podCommands (args : List KernelArg) : barrierCount (podCommands args) = 0 := by
  unfold podCommands barrierCount
  rw [List.count_eq_zero]
  simp

theorem barrierCount_kernelResourceCommands (K : Nat) (k : Kernel) (nd : NDRange) (ds : Nat)
    (q : Queue) :
    barrierCount (kernelResourceCommands K k nd ds q) =
      if (observeAll K (false, q.mDependencyTracker) (storagePtrs k.args)).1 then 1 else 0 := by
  unfold kernelResourceCommands
  simp only [barrierCount_append, barrierCount_globalCommands, barrierCount_podCommands]
  cases (observeAll K (false, q.mDependencyTracker) (storagePtrs k.args)).1 <;>
    simp [barrierCount]

/-- The number of barriers one dispatch records: one for the wait-list when it
has a same-queue entry, and one for the hazard when the descriptor set was
allocated and the argument loop raised the flag. -/
theorem barrierCount_enqueueCommands (K : Nat) (d : Dispatch) (q : Queue) :
    barrierCount (enqueueCommands K d q) =
      (if d.waitEvents.any (isSameQueue q) then 1 else 0) +
        (if d.env.allocateDescriptorSet.isSome ∧
            (observeAll K (false, q.mDependencyTracker) (storagePtrs d.kernel.args)).1 = true
          then 1 else 0) := by
  unfold enqueueCommands
  rw [barrierCount_append]
  congr 1
  · cases d.waitEvents.any (isSameQueue q) <;> simp [barrierCount]
  · cases hds : d.env.allocateDescriptorSet with
    | none => simp [barrierCount]
    | some ds =>
      simp only [barrierCount_append, barrierCount_kernelResourceCommands]
      have h0 : barrierCount (if d.env.getPipelineCache = true then
          (match d.env.getOrCreateComputePipeline with
            | none => []
            | some (_, pipeline, x, y, z) =>
              [Command.bindComputePipeline pipeline, Command.dispatch x y z])
          else []) = 0 := by
        cases d.env.getPipelineCache <;> cases d.env.getOrCreateComputePipeline <;>
          simp [barrierCount]
      rw [h0]
      simp

/-! ## Repeated writes -/

theorem IsSingleWrite_writes (d : Dispatch) (hd : d.IsSingleWrite) : ∃ p, d.writes = [p] := by
  obtain ⟨_, _, a, ha, hty⟩ := hd
  exact ⟨a.clMem.ptr, by simp [Dispatch.writes, storagePtrs, isStorageArg, ha, hty]⟩

theorem runDispatches_cons (K : Nat) (d : Dispatch) (ds : List Dispatch) (q : Queue) :
    runDispatches K (d :: ds) q = runDispatches K ds (d.enqueue K q).2.1 := rfl

theorem runDispatches_append (K : Nat) (ds ds' : List Dispatch) (q : Queue) :
    runDispatches K (ds ++ ds') q = runDispatches K ds' (runDispatches K ds q) := by
  simp [runDispatches, List.foldl_append]

/-- One dispatch writing the single object `p`: the Hazard Set and the number
of recorded barriers afterwards. -/
theorem singleWrite_step (K : Nat) (d : Dispatch) (q : Queue) (hq : q.mComputePassCommands.isSome)
    (hd : d.IsSingleWrite) (p : Nat) (hp : d.writes = [p]) :
    (d.enqueue K q).2.1.mDependencyTracker =
        (if p ∈ q.mDependencyTracker ∨ q.mDependencyTracker.card = K then {p}
          else insert p q.mDependencyTracker) ∧
      barrierCount (recorded (d.enqueue K q).2.1) =
        barrierCount (recorded q) +
          (if p ∈ q.mDependencyTracker ∨ q.mDependencyTracker.card = K then 1 else 0) := by
  obtain ⟨h, hh⟩ := Option.isSome_iff_exists.1 hq
  have hsucc := hd.1
  have hw := hd.2.1
  unfold Dispatch.succeeds at hsucc
  simp only [Bool.and_eq_true] at hsucc
  obtain ⟨ds, hds⟩ := Option.isSome_iff_exists.1 hsucc.1.1
  unfold Dispatch.writes at hp
  constructor
  · rw [enqueue_tracker K d q ds hds, hp]
    simp [observeAll, observeHazard_eq]
  · rw [enqueue_recorded K d q h hh, barrierCount_append, barrierCount_enqueueCommands, hw, hp]
    simp [observeAll, observeHazard_eq, hds]

/-- Writes to pairwise distinct objects, none of them tracked yet, and few
enough for the capacity, record no barrier and are all tracked afterwards. -/
theorem distinct_writes_no_barrier (K : Nat) (ds : List Dispatch) : ∀ q : Queue,
    q.mComputePassCommands.isSome →
    (∀ d ∈ ds, d.IsSingleWrite) →
    ds.Pairwise (fun d d' => ∀ p ∈ d.writes, p ∉ d'.writes) →
    (∀ d ∈ ds, ∀ p ∈ d.writes, p ∉ q.mDependencyTracker) →
    q.mDependencyTracker.card + ds.length ≤ K →
    (runDispatches K ds q).mComputePassCommands.isSome ∧
      barrierCount (recorded (runDispatches K ds q)) = barrierCount (recorded q) ∧
      ∀ x, x ∈ (runDispatches K ds q).mDependencyTracker ↔
        x ∈ q.mDependencyTracker ∨ ∃ d ∈ ds, x ∈ d.writes := by
  induction ds with
  | nil => intro q hq _ _ _ _; simp [runDispatches, hq]
  | cons d ds ih =>
    intro q hq hall hpw hfresh hcard
    obtain ⟨p, hp⟩ := IsSingleWrite_writes d (hall d (List.mem_cons_self _ _))
    have hstep := singleWrite_step K d q hq (hall d (List.mem_cons_self _ _)) p hp
    have hpS : p ∉ q.mDependencyTracker :=
      hfresh d (List.mem_cons_self _ _) p (by simp [hp])
    have hlt : q.mDependencyTracker.card ≠ K := by
      simp only [List.length_cons] at hcard; omega
    have hcond : ¬ (p ∈ q.mDependencyTracker ∨ q.mDependencyTracker.card = K) := by
      rintro (h1 | h2)
      · exact hpS h1
      · exact hlt h2
    rw [if_neg hcond, if_neg hcond] at hstep
    obtain ⟨hT, hB⟩ := hstep
    rw [List.pairwise_cons] at hpw
    have hq1 := enqueue_scope_isSome K d q hq
    have hfresh1 : ∀ d' ∈ ds, ∀ x ∈ d'.writes, x ∉ (d.enqueue K q).2.1.mDependencyTracker := by
      intro d' hd' x hx
      rw [hT, Finset.mem_insert]
      rintro (h1 | h2)
      · subst h1
        exact hpw.1 d' hd' x (by simp [hp]) hx
      · exact hfresh d' (List.mem_cons_of_mem _ hd') x hx h2
    have hcard1 : (d.enqueue K q).2.1.mDependencyTracker.card + ds.length ≤ K := by
      rw [hT, Finset.card_insert_of_not_mem hpS]
      simp only [List.length_cons] at hcard; omega
    obtain ⟨r1, r2, r3⟩ := ih (d.enqueue K q).2.1 hq1
      (fun d' hd' => hall d' (List.mem_cons_of_mem _ hd')) hpw.2 hfresh1 hcard1
    rw [runDispatches_cons]
    refine ⟨r1, ?_, ?_⟩
    · rw [r2, hB]; simp
    · intro x
      rw [r3 x, hT, Finset.mem_insert]
      constructor
      · rintro ((h1 | h2) | ⟨d', hd', hx⟩)
        · exact Or.inr ⟨d, List.mem_cons_self _ _, by simp [hp, h1]⟩
        · exact Or.inl h2
        · exact Or.inr ⟨d', List.mem_cons_of_mem _ hd', hx⟩
      · rintro (h1 | ⟨d', hd', hx⟩)
        · exact Or.inl (Or.inr h1)
        · rcases List.mem_cons.1 hd' with h | h
          · subst h
            rw [hp] at hx
            exact Or.inl (Or.inl (by simpa using hx))
          · exact Or.inr ⟨d', h, hx⟩

/-- C5: from an empty Hazard Set on a queue with a recording scope, `K`
dispatches that each write one storage buffer, on pairwise distinct objects,
followed by one more that writes one of those objects again (so `K ≥ 1`): no
barrier is recorded by any of the first `K` (the barrier count after every
initial segment is the count before), exactly one barrier is recorded by the
last, and the Hazard Set ends as the singleton of the repeated object. -/
theorem repeated_write_barrier_on_last (K : Nat) (q : Queue)
    (hq : q.mComputePassCommands.isSome) (hS : q.mDependencyTracker = ∅)
    (ds : List Dispatch) (last : Dispatch) (hlen : ds.length = K)
    (hall : ∀ d ∈ ds, d.IsSingleWrite) (hlast : last.IsSingleWrite)
    (hpw : ds.Pairwise (fun d d' => ∀ p ∈ d.writes, p ∉ d'.writes))
    (hrep : ∃ d ∈ ds, last.writes = d.writes) :
    (∀ n, barrierCount (recorded (runDispatches K (ds.take n) q)) = barrierCount (recorded q)) ∧
      barrierCount (recorded (runDispatches K (ds ++ [last]) q)) =
        barrierCount (recorded q) + 1 ∧
      (runDispatches K (ds ++ [last]) q).mDependencyTracker = last.writes.toFinset := by
  have hfresh : ∀ l : List Dispatch, ∀ d ∈ l, ∀ p ∈ d.writes, p ∉ q.mDependencyTracker := by
    intro l d _ p _; simp [hS]
  refine ⟨?_, ?_⟩
  · intro n
    have hsub : (ds.take n).Sublist ds := List.take_sublist n ds
    have hc : q.mDependencyTracker.card + (ds.take n).length ≤ K := by
      have := hsub.length_le
      simp [hS]; omega
    exact (distinct_writes_no_barrier K (ds.take n) q hq
      (fun d hd => hall d (hsub.subset hd)) (hpw.sublist hsub) (hfresh _) hc).2.1
  · have hc : q.mDependencyTracker.card + ds.length ≤ K := by simp [hS, hlen]
    obtain ⟨r1, r2, r3⟩ := distinct_writes_no_barrier K ds q hq hall hpw (hfresh _) hc
    obtain ⟨p, hp⟩ := IsSingleWrite_writes last hlast
    obtain ⟨d, hd, hdw⟩ := hrep
    have hmem : p ∈ (runDispatches K ds q).mDependencyTracker :=
      (r3 p).2 (Or.inr ⟨d, hd, by rw [← hdw, hp]; simp⟩)
    have hstep := singleWrite_step K last (runDispatches K ds q) r1 hlast p hp
    rw [if_pos (Or.inl hmem), if_pos (Or.inl hmem)] at hstep
    rw [runDispatches_append]
    refine ⟨?_, ?_⟩
    · show barrierCount (recorded (last.enqueue K (runDispatches K ds q)).2.1) = _
      rw [hstep.2, r2]
    · show (last.enqueue K (runDispatches K ds q)).2.1.mDependencyTracker = _
      rw [hstep.1, hp]
      simp

theorem sampleDispatch_isSingleWrite (ptr : Nat) :
    (sampleDispatch [sampleArg ArgType.StorageBuffer ptr]).IsSingleWrite :=
  ⟨rfl, rfl, _, rfl, rfl⟩

/-- C5 at capacity 1: D1 writes object 5 with no barrier, D2 writes object 5
again with a barrier, and the Hazard Set ends as the singleton of 5. -/
theorem repeated_write_barrier_on_last_witness :
    (sampleDispatch [sampleArg ArgType.StorageBuffer 5]).IsSingleWrite ∧
    barrierCount (recorded (runDispatches 1
        [sampleDispatch [sampleArg ArgType.StorageBuffer 5]] sampleQueue)) = 0 ∧
    barrierCount (recorded (runDispatches 1
        [sampleDispatch [sampleArg ArgType.StorageBuffer 5],
         sampleDispatch [sampleArg ArgType.StorageBuffer 5]] sampleQueue)) = 1 ∧
    (runDispatches 1
        [sampleDispatch [sampleArg ArgType.StorageBuffer 5],
         sampleDispatch [sampleArg ArgType.StorageBuffer 5]] sampleQueue).mDependencyTracker =
      {5} := by
  have h := repeated_write_barrier_on_last 1 sampleQueue rfl rfl
    [sampleDispatch [sampleArg ArgType.StorageBuffer 5]]
    (sampleDispatch [sampleArg ArgType.StorageBuffer 5]) rfl
    (fun d hd => by
      rw [List.mem_singleton] at hd
      subst hd
      exact sampleDispatch_isSingleWrite 5)
    (sampleDispatch_isSingleWrite 5)
    (List.pairwise_singleton _ _)
    ⟨_, List.mem_singleton_self _, rfl⟩
  refine ⟨sampleDispatch_isSingleWrite 5, ?_, ?_, ?_⟩
  · exact (h.1 1).trans rfl
  · exact h.2.1.trans rfl
  · exact h.2.2.trans rfl

/-! ## Writes dropped from the Hazard Set inside one argument loop -/

/-- C6 on the input that breaks it, for every capacity of at least 2 (written
`K + 2`): dispatch D1 has storage-buffer arguments on objects 6, 5, 5 and
dispatch D2 has one on object 6.  The repeated object 5 clears the set in the
middle of the loop of D1, so after D1 the Hazard Set is the singleton of 5 and
no longer holds object 6, which D1 writes; D2 then records no barrier, and the
recorded commands have no barrier between the two dispatch commands. -/
theorem hazard_lost_within_argument_loop (K : Nat) :
    (runDispatches (K + 2)
        [sampleDispatch [sampleArg ArgType.StorageBuffer 6, sampleArg ArgType.StorageBuffer 5,
          sampleArg ArgType.StorageBuffer 5]] sampleQueue).mDependencyTracker = {5} ∧
      recorded (runDispatches (K + 2)
        [sampleDispatch [sampleArg ArgType.StorageBuffer 6, sampleArg ArgType.StorageBuffer 5,
          sampleArg ArgType.StorageBuffer 5],
         sampleDispatch [sampleArg ArgType.StorageBuffer 6]] sampleQueue) =
        [Command.pipelineBarrier, Command.bindDescriptorSets 1, Command.bindComputePipeline 3,
          Command.dispatch 1 1 1,
          Command.bindDescriptorSets 1, Command.bindComputePipeline 3, Command.dispatch 1 1 1] := by
  have hT : (runDispatches (K + 2)
      [sampleDispatch [sampleArg ArgType.StorageBuffer 6, sampleArg ArgType.StorageBuffer 5,
        sampleArg ArgType.StorageBuffer 5]] sampleQueue).mDependencyTracker = {5} := by
    show (Dispatch.enqueue (K + 2) _ sampleQueue).2.1.mDependencyTracker = {5}
    rw [enqueue_tracker (K + 2) _ sampleQueue 1 rfl]
    have h0 : sampleQueue.mDependencyTracker = ∅ := rfl
    rw [h0]
    simp [observeAll, observeHazard_eq, storagePtrs, isStorageArg, sampleDispatch, sampleArg,
      sampleMemory]
  refine ⟨hT, ?_⟩
  rw [runDispatches_cons]
  show recorded (Dispatch.enqueue (K + 2) _ (runDispatches (K + 2) [_] sampleQueue)).2.1 = _
  have hs : (runDispatches (K + 2)
      [sampleDispatch [sampleArg ArgType.StorageBuffer 6, sampleArg ArgType.StorageBuffer 5,
        sampleArg ArgType.StorageBuffer 5]] sampleQueue).mComputePassCommands.isSome = true :=
    enqueue_scope_isSome (K + 2) _ sampleQueue rfl
  obtain ⟨h, hh⟩ := Option.isSome_iff_exists.1 hs
  rw [enqueue_recorded (K + 2) _ _ h hh]
  have hr : recorded (runDispatches (K + 2)
      [sampleDispatch [sampleArg ArgType.StorageBuffer 6, sampleArg ArgType.StorageBuffer 5,
        sampleArg ArgType.StorageBuffer 5]] sampleQueue) =
      [Command.pipelineBarrier, Command.bindDescriptorSets 1, Command.bindComputePipeline 3,
        Command.dispatch 1 1 1] := by
    show recorded (Dispatch.enqueue (K + 2) _ sampleQueue).2.1 = _
    rw [enqueue_recorded (K + 2) _ sampleQueue ⟨[], [], ⟨0, 1⟩⟩ rfl]
    have h0 : sampleQueue.mDependencyTracker = ∅ := rfl
    have h1 : recorded sampleQueue = [] := rfl
    rw [h1]
    simp [enqueueCommands, kernelResourceCommands, globalCommands, podCommands, isPodArg, h0,
      observeAll, observeHazard_eq, storagePtrs, isStorageArg, sampleDispatch, sampleArg,
      sampleMemory]
  rw [hr]
  generalize runDispatches (K + 2)
      [sampleDispatch [sampleArg ArgType.StorageBuffer 6, sampleArg ArgType.StorageBuffer 5,
        sampleArg ArgType.StorageBuffer 5]] sampleQueue = q1 at hT
  simp [enqueueCommands, kernelResourceCommands, globalCommands, podCommands, isPodArg, hT,
    observeAll, observeHazard_eq, storagePtrs, isStorageArg, sampleDispatch, sampleArg,
    sampleMemory]

/-! ## Barriers and the Hazard Set -/

/-- The function `processWaitlist` never touches the Hazard Set. -/
theorem processWaitlist_tracker (w : List Event) (q : Queue) :
    (processWaitlist w q).2.mDependencyTracker = q.mDependencyTracker := by
  rw [processWaitlist_eq]
  cases w.any (isSameQueue q) <;> rfl

/-- When the observations raise the barrier flag, every address left in the
Hazard Set is one of the observed addresses (or satisfied `P` before, when the
flag was already raised). -/
theorem observeAll_flag_subset (K : Nat) (ptrs : List Nat) :
    ∀ (st : Bool × Finset Nat) (P : Nat → Prop),
      (st.1 = true → ∀ x ∈ st.2, P x) →
      (observeAll K st ptrs).1 = true → ∀ x ∈ (observeAll K st ptrs).2, P x ∨ x ∈ ptrs := by
  induction ptrs with
  | nil =>
    intro st P hP hflag x hx
    exact Or.inl (hP hflag x hx)
  | cons p ptrs ih =>
    intro st P hP hflag x hx
    obtain ⟨nb, S⟩ := st
    have hstep : observeAll K (nb, S) (p :: ptrs) =
        observeAll K (observeHazard K p (nb, S)) ptrs := rfl
    rw [hstep] at hflag hx
    have hP1 : (observeHazard K p (nb, S)).1 = true →
        ∀ y ∈ (observeHazard K p (nb, S)).2, (P y ∨ y = p) := by
      rw [observeHazard_eq]
      intro h1 y hy
      by_cases hc : p ∈ S ∨ S.card = K
      · simp only [hc, if_true, Finset.mem_singleton] at hy
        exact Or.inr hy
      · simp only [hc, if_false, Finset.mem_insert] at hy
        have hnb : nb = true := by simpa [hc] using h1
        rcases hy with h | h
        · exact Or.inr h
        · exact Or.inl (hP hnb y h)
    rcases ih (observeHazard K p (nb, S)) (fun y => P y ∨ y = p) hP1 hflag x hx with h | h
    · rcases h with h | h
      · exact Or.inl h
      · exact Or.inr (by simp [h])
    · exact Or.inr (List.mem_cons_of_mem _ h)

theorem mem_storagePtrs (args : List KernelArg) (x : Nat) (hx : x ∈ storagePtrs args) :
    ∃ a ∈ args, a.type = ArgType.StorageBuffer ∧ a.clMem.ptr = x := by
  unfold storagePtrs at hx
  rw [List.mem_map] at hx
  obtain ⟨a, ha, hax⟩ := hx
  rw [List.mem_filter] at ha
  exact ⟨a, ha.1, by simpa [isStorageArg] using ha.2, hax⟩

/-- The barriers recorded by one `processKernelResources` call. -/
theorem processKernelResources_barrierCount (K : Nat) (env : DispatchEnv) (k : Kernel)
    (nd : NDRange) (q : Queue) (h : CommandBufferHelper) (hq : q.mComputePassCommands = some h) :
    barrierCount (recorded (processKernelResources K env k nd q).2) =
      barrierCount (recorded q) +
        (if env.allocateDescriptorSet.isSome ∧
            (observeAll K (false, q.mDependencyTracker) (storagePtrs k.args)).1 = true
          then 1 else 0) := by
  cases hds : env.allocateDescriptorSet with
  | none => rw [processKernelResources_fail K env k nd q hds]; simp
  | some ds =>
    rw [processKernelResources_eq K env k nd q ds hds]
    have hr : ∀ (cs : List Command) (m : List Memory) (t : Finset Nat)
        (u : List WriteDescriptorSet),
        recorded { recordAll cs q with
          mMemoryCaptures := m, mDependencyTracker := t, descriptorUpdates := u } =
        recorded q ++ cs := by
      intro cs m t u
      simp [recorded, recordAll, hq]
    rw [hr, barrierCount_append, barrierCount_kernelResourceCommands]
    simp

theorem processKernelResources_recorded_none (K : Nat) (env : DispatchEnv) (k : Kernel)
    (nd : NDRange) (q : Queue) (hq : q.mComputePassCommands = none) :
    recorded (processKernelResources K env k nd q).2 = recorded q := by
  cases hds : env.allocateDescriptorSet with
  | none => rw [processKernelResources_fail K env k nd q hds]
  | some ds =>
    rw [processKernelResources_eq K env k nd q ds hds]
    simp [recorded, recordAll, hq]

/-- C7 as stated fails: after a write to object 5 the Hazard Set is the
singleton of 5; a wait-list with a same-queue event then records a barrier and
the Hazard Set is still the singleton of 5, not empty. -/
theorem processWaitlist_keeps_hazard_set_counterexample :
    recorded (processWaitlist [sampleEvent 1 false 7]
        (runDispatches 64 [sampleDispatch [sampleArg ArgType.StorageBuffer 5]] sampleQueue)).2 =
      recorded (runDispatches 64 [sampleDispatch [sampleArg ArgType.StorageBuffer 5]] sampleQueue)
        ++ [Command.pipelineBarrier] ∧
    (processWaitlist [sampleEvent 1 false 7]
        (runDispatches 64 [sampleDispatch [sampleArg ArgType.StorageBuffer 5]]
          sampleQueue)).2.mDependencyTracker = {5} ∧
    (processWaitlist [sampleEvent 1 false 7]
        (runDispatches 64 [sampleDispatch [sampleArg ArgType.StorageBuffer 5]]
          sampleQueue)).2.mDependencyTracker ≠ ∅ := by
  have hT : (processWaitlist [sampleEvent 1 false 7]
      (runDispatches 64 [sampleDispatch [sampleArg ArgType.StorageBuffer 5]]
        sampleQueue)).2.mDependencyTracker = {5} := by
    rw [processWaitlist_tracker]
    show (Dispatch.enqueue 64 _ sampleQueue).2.1.mDependencyTracker = {5}
    rw [enqueue_tracker 64 _ sampleQueue 1 rfl]
    have h0 : sampleQueue.mDependencyTracker = ∅ := rfl
    rw [h0]
    simp [observeAll, observeHazard_eq, storagePtrs, isStorageArg, sampleDispatch, sampleArg,
      sampleMemory]
  refine ⟨?_, hT, ?_⟩
  · have hs := enqueue_scope_isSome 64 (sampleDispatch [sampleArg ArgType.StorageBuffer 5])
      sampleQueue rfl
    obtain ⟨h, hh⟩ := Option.isSome_iff_exists.1 hs
    have hh' : (runDispatches 64 [sampleDispatch [sampleArg ArgType.StorageBuffer 5]]
        sampleQueue).mComputePassCommands = some h := hh
    have hm : (runDispatches 64 [sampleDispatch [sampleArg ArgType.StorageBuffer 5]]
        sampleQueue).mCommandQueue = 7 := by
      show (Dispatch.enqueue 64 _ sampleQueue).2.1.mCommandQueue = 7
      rw [(enqueue_frame 64 _ sampleQueue).1]
      rfl
    rw [(processWaitlist_recorded _ h hh' _)]
    rw [if_pos ⟨sampleEvent 1 false 7, List.mem_singleton_self _, rfl, hm.symm⟩]
  · rw [hT]; simp

/-- C7 (amended): for every queue state and every wait-list, `processWaitlist`
leaves the Hazard Set as it was, whether or not it records a barrier; and
when a `processKernelResources` call records a barrier, every element of the
Hazard Set afterwards is the memory object of one of that call's own
storage-buffer arguments. -/
theorem barrier_and_hazard_set (K : Nat) (env : DispatchEnv) (k : Kernel) (nd : NDRange)
    (q : Queue) (w : List Event) :
    (processWaitlist w q).2.mDependencyTracker = q.mDependencyTracker ∧
      (barrierCount (recorded (processKernelResources K env k nd q).2) ≠
          barrierCount (recorded q) →
        ∀ x ∈ (processKernelResources K env k nd q).2.mDependencyTracker,
          ∃ a ∈ k.args, a.type = ArgType.StorageBuffer ∧ a.clMem.ptr = x) := by
  refine ⟨processWaitlist_tracker w q, ?_⟩
  intro hb
  cases hc : q.mComputePassCommands with
  | none => exact absurd (by rw [processKernelResources_recorded_none K env k nd q hc]) hb
  | some h =>
    rw [processKernelResources_barrierCount K env k nd q h hc] at hb
    have hflag : env.allocateDescriptorSet.isSome ∧
        (observeAll K (false, q.mDependencyTracker) (storagePtrs k.args)).1 = true := by
      by_contra hn
      rw [if_neg hn] at hb
      exact hb rfl
    obtain ⟨ds, hds⟩ := Option.isSome_iff_exists.1 hflag.1
    rw [processKernelResources_eq K env k nd q ds hds]
    intro x hx
    have hx' : x ∈ (observeAll K (false, q.mDependencyTracker) (storagePtrs k.args)).2 := hx
    rcases observeAll_flag_subset K (storagePtrs k.args) (false, q.mDependencyTracker)
      (fun _ => False) (by simp) hflag.2 x hx' with h1 | h1
    · exact h1.elim
    · exact mem_storagePtrs k.args x h1

/-- C7 (amended) on the sample queue with the Hazard Set holding objects 5 and
6: a wait-list with a same-queue event records a barrier and the set still
holds 5 and 6; a call with a storage-buffer argument on object 5 records a
barrier, and every element of the set afterwards is object 5, the object of
that argument. -/
theorem barrier_and_hazard_set_witness :
    recorded (processWaitlist [sampleEvent 1 false 7]
        { sampleQueue with mDependencyTracker := {5, 6} }).2 = [Command.pipelineBarrier] ∧
    (processWaitlist [sampleEvent 1 false 7]
        { sampleQueue with mDependencyTracker := {5, 6} }).2.mDependencyTracker = {5, 6} ∧
    barrierCount (recorded (processKernelResources 64 (sampleDispatch []).env
        ⟨[sampleArg ArgType.StorageBuffer 5], none, none⟩ (sampleDispatch []).ndrange
        { sampleQueue with mDependencyTracker := {5, 6} }).2) ≠
      barrierCount (recorded { sampleQueue with mDependencyTracker := {5, 6} }) ∧
    ∀ x ∈ (processKernelResources 64 (sampleDispatch []).env
        ⟨[sampleArg ArgType.StorageBuffer 5], none, none⟩ (sampleDispatch []).ndrange
        { sampleQueue with mDependencyTracker := {5, 6} }).2.mDependencyTracker,
      ∃ a ∈ [sampleArg ArgType.StorageBuffer 5],
        a.type = ArgType.StorageBuffer ∧ a.clMem.ptr = x := by
  have hb : barrierCount (recorded (processKernelResources 64 (sampleDispatch []).env
      ⟨[sampleArg ArgType.StorageBuffer 5], none, none⟩ (sampleDispatch []).ndrange
      { sampleQueue with mDependencyTracker := {5, 6} }).2) ≠
      barrierCount (recorded { sampleQueue with mDependencyTracker := {5, 6} }) := by
    rw [processKernelResources_barrierCount 64 _ _ _
      { sampleQueue with mDependencyTracker := {5, 6} } ⟨[], [], ⟨0, 1⟩⟩ rfl]
    simp [observeAll, observeHazard_eq, storagePtrs, isStorageArg, sampleDispatch, sampleArg,
      sampleMemory]
  have h := barrier_and_hazard_set 64 (sampleDispatch []).env
    ⟨[sampleArg ArgType.StorageBuffer 5], none, none⟩ (sampleDispatch []).ndrange
    { sampleQueue with mDependencyTracker := {5, 6} } [sampleEvent 1 false 7]
  refine ⟨?_, h.1, hb, h.2 hb⟩
  rw [processWaitlist_recorded { sampleQueue with mDependencyTracker := {5, 6} }
    ⟨[], [], ⟨0, 1⟩⟩ rfl]
  rw [if_pos ⟨sampleEvent 1 false 7, List.mem_singleton_self _, rfl, rfl⟩]
  rfl

theorem storagePtrs_eq_nil_of_uniform (args : List KernelArg)
    (hu : ∀ a ∈ args, isBufferArg a = true → a.type = ArgType.Uniform) :
    storagePtrs args = [] := by
  unfold storagePtrs
  rw [List.map_eq_nil_iff, List.filter_eq_nil_iff]
  intro a ha hs
  have hsb : a.type = ArgType.StorageBuffer := by simpa [isStorageArg] using hs
  have hun := hu a ha (by simp [isBufferArg, hsb])
  rw [hsb] at hun
  exact ArgType.noConfusion hun

/-- C8: when every buffer argument of the kernel is of uniform kind,
`processKernelResources` leaves the Hazard Set unchanged and records no memory
barrier, for every Hazard Set (also one that holds the referenced object or is
at capacity) and every outcome of the descriptor-set allocation. -/
theorem uniform_buffers_raise_no_hazard (K : Nat) (env : DispatchEnv) (k : Kernel)
    (nd : NDRange) (q : Queue)
    (hu : ∀ a ∈ k.args, isBufferArg a = true → a.type = ArgType.Uniform) :
    (processKernelResources K env k nd q).2.mDependencyTracker = q.mDependencyTracker ∧
      barrierCount (recorded (processKernelResources K env k nd q).2) =
        barrierCount (recorded q) := by
  have hnil := storagePtrs_eq_nil_of_uniform k.args hu
  constructor
  · cases hds : env.allocateDescriptorSet with
    | none => rw [processKernelResources_fail K env k nd q hds]
    | some ds =>
      rw [processKernelResources_eq K env k nd q ds hds, hnil]
      rfl
  · cases hc : q.mComputePassCommands with
    | none => rw [processKernelResources_recorded_none K env k nd q hc]
    | some h =>
      rw [processKernelResources_barrierCount K env k nd q h hc, hnil]
      simp [observeAll]

/-- C8 at capacity 1 with the Hazard Set holding object 5 (so it is full and
holds the referenced object): a uniform-buffer argument on object 5 leaves the
set as it is and records no barrier. -/
theorem uniform_buffers_raise_no_hazard_witness :
    (∀ a ∈ [sampleArg ArgType.Uniform 5], isBufferArg a = true → a.type = ArgType.Uniform) ∧
    (processKernelResources 1 (sampleDispatch []).env ⟨[sampleArg ArgType.Uniform 5], none, none⟩
        (sampleDispatch []).ndrange
        { sampleQueue with mDependencyTracker := {5} }).2.mDependencyTracker = {5} ∧
    barrierCount (recorded (processKernelResources 1 (sampleDispatch []).env
        ⟨[sampleArg ArgType.Uniform 5], none, none⟩ (sampleDispatch []).ndrange
        { sampleQueue with mDependencyTracker := {5} }).2) = 0 := by
  have hu : ∀ a ∈ [sampleArg ArgType.Uniform 5],
      isBufferArg a = true → a.type = ArgType.Uniform := by
    intro a ha _
    rw [List.mem_singleton] at ha
    rw [ha]
    rfl
  have h := uniform_buffers_raise_no_hazard 1 (sampleDispatch []).env
    ⟨[sampleArg ArgType.Uniform 5], none, none⟩ (sampleDispatch []).ndrange
    { sampleQueue with mDependencyTracker := {5} } hu
  exact ⟨hu, h.1, h.2.trans rfl⟩

/-! ## Serials -/

/-- The function `init` in closed form when all three renderer calls succeed. -/
theorem init_eq_of_continue (r : Renderer) (q : Queue) (h : (init r q).1 = Result.Continue) :
    ∃ index, r.allocateQueueSerialIndex = some index ∧
      (init r q).2 =
        { q with
          mComputePassCommands := some ⟨[], [], ⟨index, r.generateQueueSerial index⟩⟩
          mCurrentQueueSerialIndex := index
          mLastFlushedQueueSerial := ⟨index, Serial.initial⟩
          mLastSubmittedQueueSerial := ⟨index, Serial.initial⟩ } := by
  unfold init at h ⊢
  cases h1 : r.initializeCommandPool
  · simp [h1] at h
  · cases h2 : r.getOutsideRenderPassCommandBufferHelper
    · simp [h1, h2] at h
    · cases h3 : r.allocateQueueSerialIndex with
      | none => simp [h1, h2, h3] at h
      | some index => exact ⟨index, rfl, by simp [setQueueSerial]⟩

/-- C9: after a successful `init` the last-flushed and last-submitted marks are
equal, both carry the queue index just allocated (also stored as the current
index) and the initial serial; the initial serial is not greater than any
serial, so the completion query reports either mark complete whatever serial
the device has confirmed. -/
theorem init_marks_complete (r : Renderer) (q : Queue) (h : (init r q).1 = Result.Continue) :
    (init r q).2.mLastFlushedQueueSerial = (init r q).2.mLastSubmittedQueueSerial ∧
      r.allocateQueueSerialIndex = some (init r q).2.mLastFlushedQueueSerial.index ∧
      (init r q).2.mCurrentQueueSerialIndex = (init r q).2.mLastFlushedQueueSerial.index ∧
      (init r q).2.mLastFlushedQueueSerial.serial = Serial.initial ∧
      (∀ s : Serial, ¬ s < Serial.initial) ∧
      (∀ lastCompleted : Serial,
        hasQueueSerialFinished lastCompleted (init r q).2.mLastFlushedQueueSerial = true ∧
        hasQueueSerialFinished lastCompleted (init r q).2.mLastSubmittedQueueSerial = true) := by
  obtain ⟨index, hidx, heq⟩ := init_eq_of_continue r q h
  rw [heq]
  refine ⟨rfl, hidx, rfl, rfl, ?_, ?_⟩
  · intro s; exact Nat.not_lt_zero s
  · intro c; simp [hasQueueSerialFinished, Serial.initial]

/-- C9 on the sample renderer (index 0 allocated): both marks are the pair of
index 0 and the initial serial. -/
theorem init_marks_complete_witness :
    (init ⟨true, true, some 0, fun _ => 1⟩ (construct 7)).1 = Result.Continue ∧
    (init ⟨true, true, some 0, fun _ => 1⟩ (construct 7)).2.mLastFlushedQueueSerial =
      ⟨0, Serial.initial⟩ ∧
    (init ⟨true, true, some 0, fun _ => 1⟩ (construct 7)).2.mLastSubmittedQueueSerial =
      ⟨0, Serial.initial⟩ := by
  have h := init_marks_complete ⟨true, true, some 0, fun _ => 1⟩ (construct 7) rfl
  refine ⟨rfl, rfl, ?_⟩
  rw [← h.1]
  rfl

theorem runOps_cons (K : Nat) (op : Op) (ops : List Op) (q : Queue) :
    runOps K (op :: ops) q = runOps K ops (Op.apply K q op) := rfl

/-- What no operation changes: the serial index, the serial marks and the
serial of the recording scope. -/
theorem apply_serials (K : Nat) (q : Queue) (op : Op) :
    scopeQueueSerial (Op.apply K q op) = scopeQueueSerial q ∧
      (Op.apply K q op).mLastFlushedQueueSerial = q.mLastFlushedQueueSerial ∧
      (Op.apply K q op).mLastSubmittedQueueSerial = q.mLastSubmittedQueueSerial ∧
      (Op.apply K q op).mCurrentQueueSerialIndex = q.mCurrentQueueSerialIndex := by
  cases op with
  | dispatch d =>
    have h := enqueue_frame K d q
    exact ⟨h.2.2.2.2.1, h.2.2.1, h.2.2.2.1, h.2.1⟩
  | flush => exact ⟨rfl, rfl, rfl, rfl⟩

/-- C10 as stated fails: a flush call fails and advances nothing.  After one
flush and after two flushes on the sample queue the serial of the recording
scope is the one `init` set (1) and the last-flushed mark still carries the
initial serial: neither increases with the flush and neither equals the number
of flushes. -/
theorem flush_advances_no_serial_counterexample :
    (flush sampleQueue).1 = Result.Stop CL_OUT_OF_RESOURCES ∧
    scopeQueueSerial (runOps 64 [Op.flush] sampleQueue) = some ⟨0, 1⟩ ∧
    scopeQueueSerial (runOps 64 [Op.flush, Op.flush] sampleQueue) = some ⟨0, 1⟩ ∧
    (runOps 64 [Op.flush] sampleQueue).mLastFlushedQueueSerial.serial = 0 ∧
    (runOps 64 [Op.flush, Op.flush] sampleQueue).mLastFlushedQueueSerial.serial = 0 ∧
    ¬ ((runOps 64 [Op.flush] sampleQueue).mLastFlushedQueueSerial.serial <
        (runOps 64 [Op.flush, Op.flush] sampleQueue).mLastFlushedQueueSerial.serial) :=
  ⟨rfl, rfl, rfl, rfl, rfl, by decide⟩

/-- C10 (amended): over every sequence of dispatches and flush calls the serial
of the recording scope, the last-flushed and last-submitted marks and the
serial index stay what they were (what `init` set); a flush call returns the
out-of-resources error and leaves the queue as it was, and a dispatch never
changes the serial of the recording scope.  The serial therefore depends
neither on the number of dispatches nor on the number of flush calls. -/
theorem serials_unchanged_by_dispatch_and_flush (K : Nat) (ops : List Op) (q : Queue) :
    scopeQueueSerial (runOps K ops q) = scopeQueueSerial q ∧
      (runOps K ops q).mLastFlushedQueueSerial = q.mLastFlushedQueueSerial ∧
      (runOps K ops q).mLastSubmittedQueueSerial = q.mLastSubmittedQueueSerial ∧
      (runOps K ops q).mCurrentQueueSerialIndex = q.mCurrentQueueSerialIndex ∧
      flush (runOps K ops q) = (Result.Stop CL_OUT_OF_RESOURCES, runOps K ops q) ∧
      ∀ d : Dispatch, scopeQueueSerial (d.enqueue K (runOps K ops q)).2.1 = scopeQueueSerial q := by
  have key : ∀ (ops : List Op) (q : Queue),
      scopeQueueSerial (runOps K ops q) = scopeQueueSerial q ∧
      (runOps K ops q).mLastFlushedQueueSerial = q.mLastFlushedQueueSerial ∧
      (runOps K ops q).mLastSubmittedQueueSerial = q.mLastSubmittedQueueSerial ∧
      (runOps K ops q).mCurrentQueueSerialIndex = q.mCurrentQueueSerialIndex := by
    intro ops
    induction ops with
    | nil => intro q; exact ⟨rfl, rfl, rfl, rfl⟩
    | cons op ops ih =>
      intro q
      rw [runOps_cons]
      obtain ⟨a1, a2, a3, a4⟩ := apply_serials K q op
      obtain ⟨b1, b2, b3, b4⟩ := ih (Op.apply K q op)
      exact ⟨b1.trans a1, b2.trans a2, b3.trans a3, b4.trans a4⟩
  obtain ⟨k1, k2, k3, k4⟩ := key ops q
  refine ⟨k1, k2, k3, k4, rfl, ?_⟩
  intro d
  rw [(enqueue_frame K d (runOps K ops q)).2.2.2.2.1, k1]

/-! ## Flush and the unimplemented operations -/

/-- Every unimplemented operation returns the out-of-resources error and the
queue it was given. -/
theorem stubCall_run_eq (c : StubCall) (q : Queue) :
    c.run q = (Result.Stop CL_OUT_OF_RESOURCES, q) := by
  cases c <;> rfl

/-- C11 as stated fails: on the sample queue after a wait-list with one foreign
and one same-queue event (one deferred entry, one recorded barrier), `flush`
returns the out-of-resources error, the deferred list still has its entry, the
last-flushed serial is still the initial one while the recording scope has
serial 1, and the recording scope still holds its command. -/
theorem flush_is_a_stub_counterexample :
    (flush (processWaitlist [sampleEvent 1 false 9, sampleEvent 2 false 7] sampleQueue).2).1 =
      Result.Stop CL_OUT_OF_RESOURCES ∧
    (flush (processWaitlist [sampleEvent 1 false 9, sampleEvent 2 false 7] sampleQueue).2).1 ≠
      Result.Continue ∧
    (flush (processWaitlist [sampleEvent 1 false 9, sampleEvent 2 false 7]
      sampleQueue).2).2.mDependantEvents = [sampleEvent 1 false 9] ∧
    (flush (processWaitlist [sampleEvent 1 false 9, sampleEvent 2 false 7]
      sampleQueue).2).2.mLastFlushedQueueSerial = ⟨0, 0⟩ ∧
    scopeQueueSerial (flush (processWaitlist [sampleEvent 1 false 9, sampleEvent 2 false 7]
      sampleQueue).2).2 = some ⟨0, 1⟩ ∧
    recorded (flush (processWaitlist [sampleEvent 1 false 9, sampleEvent 2 false 7]
      sampleQueue).2).2 = [Command.pipelineBarrier] := by
  refine ⟨rfl, by simp [flush], rfl, rfl, rfl, rfl⟩

/-- C11 (amended): `flush` fails with the out-of-resources error on every queue
and returns the queue as it was: the deferred dependency list is not consumed,
the last-flushed serial is not advanced and the recording scope keeps its
commands; `flushComputePassCommands` and `submitCommands` do the same. -/
theorem flush_fails_and_changes_nothing (q : Queue) :
    flush q = (Result.Stop CL_OUT_OF_RESOURCES, q) ∧
      (flush q).2.mDependantEvents = q.mDependantEvents ∧
      (flush q).2.mLastFlushedQueueSerial = q.mLastFlushedQueueSerial ∧
      recorded (flush q).2 = recorded q ∧
      flushComputePassCommands q = (Result.Stop CL_OUT_OF_RESOURCES, q) ∧
      submitCommands q = (Result.Stop CL_OUT_OF_RESOURCES, q) :=
  ⟨rfl, rfl, rfl, rfl, rfl, rfl⟩

/-- C12: every unimplemented operation of the queue, on every argument list and
every queue state, returns the out-of-resources error, never `Continue`, and
leaves the queue exactly as it was: recorded commands, Hazard Set, resource
captures, deferred list, associated events and serial marks included. -/
theorem unimplemented_operations_fail (c : StubCall) (q : Queue) :
    (c.run q).1 = Result.Stop CL_OUT_OF_RESOURCES ∧
      (c.run q).1 ≠ Result.Continue ∧
      (c.run q).2 = q ∧
      recorded (c.run q).2 = recorded q ∧
      (c.run q).2.mDependencyTracker = q.mDependencyTracker ∧
      (c.run q).2.mMemoryCaptures = q.mMemoryCaptures ∧
      (c.run q).2.mDependantEvents = q.mDependantEvents ∧
      (c.run q).2.mAssociatedEvents = q.mAssociatedEvents ∧
      (c.run q).2.mLastFlushedQueueSerial = q.mLastFlushedQueueSerial ∧
      (c.run q).2.mLastSubmittedQueueSerial = q.mLastSubmittedQueueSerial := by
  rw [stubCall_run_eq]
  exact ⟨rfl, by simp, rfl, rfl, rfl, rfl, rfl, rfl, rfl, rfl⟩

/-! ## Arguments of a kind that is not handled -/

/-- C13 on an input that breaks it, for every capacity: a kernel whose only
argument is a sampler.  `processKernelResources` returns `Continue`, the
dispatch returns `Continue` as well and records the descriptor-set bind, the
pipeline bind and the dispatch command; for the sampler there is no descriptor
write, no capture and no push constant. -/
theorem unhandled_argument_kind_succeeds (K : Nat) :
    (processKernelResources K (sampleDispatch []).env
        ⟨[sampleArg ArgType.Sampler 5], none, none⟩ (sampleDispatch []).ndrange
        sampleQueue).1 = Result.Continue ∧
    ((sampleDispatch [sampleArg ArgType.Sampler 5]).enqueue K sampleQueue).1 =
      Result.Continue ∧
    recorded ((sampleDispatch [sampleArg ArgType.Sampler 5]).enqueue K sampleQueue).2.1 =
      [Command.bindDescriptorSets 1, Command.bindComputePipeline 3, Command.dispatch 1 1 1] ∧
    ((sampleDispatch [sampleArg ArgType.Sampler 5]).enqueue K sampleQueue).2.1.descriptorUpdates
      = [] ∧
    ((sampleDispatch [sampleArg ArgType.Sampler 5]).enqueue K sampleQueue).2.1.mMemoryCaptures
      = [] := by
  refine ⟨rfl, rfl, rfl, rfl, rfl⟩

/-- C14: `enqueueTask` returns the same result, the same queue and the same
assignment of the event factory as `enqueueNDRangeKernel` called on the same
kernel, wait-list and factory with the dispatch shape constructed from work
dimension 1, no global offset, global size (1, 0, 0) and local size (1, 0, 0). -/
theorem enqueueTask_eq_enqueueNDRangeKernel (K : Nat)
    (ndrangeCtor : Nat → Option (List Nat) → List Nat → List Nat → NDRange)
    (env : DispatchEnv) (kernel : Kernel) (waitEvents : List Event) (eventCreateFunc : Bool)
    (q : Queue) :
    enqueueTask K ndrangeCtor env kernel waitEvents eventCreateFunc q =
      enqueueNDRangeKernel K env kernel (ndrangeCtor 1 none [1, 0, 0] [1, 0, 0]) waitEvents
        eventCreateFunc q :=
  rfl

/-! ## Completion events -/

/-- The capture list after a dispatch: the list before, followed by the memory
objects of the buffer arguments when the descriptor set was allocated. -/
theorem enqueue_captures (K : Nat) (d : Dispatch) (q : Queue) :
    (d.enqueue K q).2.1.mMemoryCaptures =
      q.mMemoryCaptures ++
        (if d.env.allocateDescriptorSet.isSome
          then (d.kernel.args.filter isBufferArg).map (fun a => a.clMem) else []) := by
  unfold Dispatch.enqueue enqueueNDRangeKernel
  rw [processWaitlist_eq]
  simp only []
  cases hds : d.env.allocateDescriptorSet with
  | none =>
    rw [processKernelResources_fail K d.env d.kernel d.ndrange _ hds]
    cases d.waitEvents.any (isSameQueue q) <;> simp [record]
  | some ds =>
    rw [processKernelResources_eq K d.env d.kernel d.ndrange _ ds hds]
    simp only []
    cases d.env.getPipelineCache <;> cases hp : d.env.getOrCreateComputePipeline <;>
      cases d.waitEvents.any (isSameQueue q) <;>
      simp [createEvent_eq, recordAll, record, retainResource]

theorem enqueueTask_eq_enqueue (K : Nat)
    (ndrangeCtor : Nat → Option (List Nat) → List Nat → List Nat → NDRange)
    (env : DispatchEnv) (kernel : Kernel) (waitEvents : List Event) (eventCreateFunc : Bool)
    (q : Queue) :
    enqueueTask K ndrangeCtor env kernel waitEvents eventCreateFunc q =
      Dispatch.enqueue K
        ⟨env, kernel, ndrangeCtor 1 none [1, 0, 0] [1, 0, 0], waitEvents, eventCreateFunc⟩ q :=
  rfl

/-- What no operation of a live queue does: change the serial of the recording
scope, or remove or reorder entries of the capture list. -/
theorem queueOp_apply_frame (K : Nat)
    (ndrangeCtor : Nat → Option (List Nat) → List Nat → List Nat → NDRange)
    (q : Queue) (op : QueueOp) :
    scopeQueueSerial (op.apply K ndrangeCtor q) = scopeQueueSerial q ∧
      ∃ t, (op.apply K ndrangeCtor q).mMemoryCaptures = q.mMemoryCaptures ++ t := by
  cases op with
  | ndrangeKernel d =>
    exact ⟨(enqueue_frame K d q).2.2.2.2.1, _, enqueue_captures K d q⟩
  | task env kernel waitEvents eventCreateFunc =>
    show scopeQueueSerial (enqueueTask K ndrangeCtor env kernel waitEvents
        eventCreateFunc q).2.1 = _ ∧
      ∃ t, (enqueueTask K ndrangeCtor env kernel waitEvents
        eventCreateFunc q).2.1.mMemoryCaptures = _ ++ t
    rw [enqueueTask_eq_enqueue]
    exact ⟨(enqueue_frame K _ q).2.2.2.2.1, _, enqueue_captures K _ q⟩
  | stub c =>
    show scopeQueueSerial (c.run q).2 = _ ∧ ∃ t, (c.run q).2.mMemoryCaptures = _ ++ t
    rw [stubCall_run_eq]
    exact ⟨rfl, [], by simp⟩
  | invokeFactory allocated =>
    cases allocated with
    | none => exact ⟨rfl, [], by simp [QueueOp.apply, eventFactory]⟩
    | some e => exact ⟨rfl, [], by simp [QueueOp.apply, eventFactory]⟩

theorem runQueueOps_cons (K : Nat)
    (ndrangeCtor : Nat → Option (List Nat) → List Nat → List Nat → NDRange)
    (op : QueueOp) (ops : List QueueOp) (q : Queue) :
    runQueueOps K ndrangeCtor (op :: ops) q =
      runQueueOps K ndrangeCtor ops (op.apply K ndrangeCtor q) := rfl

theorem runQueueOps_frame (K : Nat)
    (ndrangeCtor : Nat → Option (List Nat) → List Nat → List Nat → NDRange)
    (ops : List QueueOp) : ∀ q : Queue,
    scopeQueueSerial (runQueueOps K ndrangeCtor ops q) = scopeQueueSerial q ∧
      ∃ t, (runQueueOps K ndrangeCtor ops q).mMemoryCaptures = q.mMemoryCaptures ++ t := by
  induction ops with
  | nil => intro q; exact ⟨rfl, [], by simp [runQueueOps]⟩
  | cons op ops ih =>
    intro q
    rw [runQueueOps_cons]
    obtain ⟨a1, t1, a2⟩ := queueOp_apply_frame K ndrangeCtor q op
    obtain ⟨b1, t2, b2⟩ := ih (op.apply K ndrangeCtor q)
    exact ⟨b1.trans a1, t1 ++ t2, by rw [b2, a2, List.append_assoc]⟩

/-- C15: an event made by the factory is stamped with the queue serial that the
recording scope has when the factory is invoked; whatever operations come
between the producing dispatch and the invocation, that is the serial the
scope had when the dispatch was recorded, so the stamped serial is not greater
than the serial of the scope that contains the dispatch. -/
theorem event_stamped_with_scope_serial (K : Nat)
    (ndrangeCtor : Nat → Option (List Nat) → List Nat → List Nat → NDRange)
    (q : Queue) (h : CommandBufferHelper) (hq : q.mComputePassCommands = some h)
    (d : Dispatch) (ops : List QueueOp) (eventVk : Event) :
    ∃ e, (eventFactory (some eventVk)
          (runQueueOps K ndrangeCtor ops (d.enqueue K q).2.1)).1 = some e ∧
      some e.queueSerial =
        scopeQueueSerial (runQueueOps K ndrangeCtor ops (d.enqueue K q).2.1) ∧
      some e.queueSerial = scopeQueueSerial (d.enqueue K q).2.1 ∧
      e.queueSerial = h.queueSerial ∧
      e.queueSerial.serial ≤ h.queueSerial.serial := by
  have h1 : scopeQueueSerial (runQueueOps K ndrangeCtor ops (d.enqueue K q).2.1) =
      some h.queueSerial := by
    rw [(runQueueOps_frame K ndrangeCtor ops _).1, (enqueue_frame K d q).2.2.2.2.1]
    simp [scopeQueueSerial, hq]
  have h2 : scopeQueueSerial (d.enqueue K q).2.1 = some h.queueSerial := by
    rw [(enqueue_frame K d q).2.2.2.2.1]
    simp [scopeQueueSerial, hq]
  generalize runQueueOps K ndrangeCtor ops (d.enqueue K q).2.1 = q2 at h1
  rw [h2]
  cases hc : q2.mComputePassCommands with
  | none => simp [scopeQueueSerial, hc] at h1
  | some h' =>
    have hs : h'.queueSerial = h.queueSerial := by
      simpa [scopeQueueSerial, hc] using h1
    refine ⟨{ eventVk with queueSerial := h'.queueSerial }, ?_, ?_, ?_, ?_, ?_⟩
    · simp [eventFactory, hc]
    · rw [h1]; simp [hs]
    · simp [hs]
    · exact hs
    · simp [hs]

/-- C15 on the sample queue (scope serial 1): an event made after a dispatch, a
flush call and a second dispatch is stamped with serial 1. -/
theorem event_stamped_with_scope_serial_witness :
    sampleQueue.mComputePassCommands = some ⟨[], [], ⟨0, 1⟩⟩ ∧
    ∃ e, (eventFactory (some (sampleEvent 4 false 7))
          (runQueueOps 64 sampleNDRange
            [QueueOp.stub StubCall.flush, QueueOp.ndrangeKernel (sampleDispatch [])]
            ((sampleDispatch []).enqueue 64 sampleQueue).2.1)).1 = some e ∧
      e.queueSerial = ⟨0, 1⟩ := by
  obtain ⟨e, h1, _, _, h4, _⟩ := event_stamped_with_scope_serial 64 sampleNDRange sampleQueue
    ⟨[], [], ⟨0, 1⟩⟩ rfl (sampleDispatch [])
    [QueueOp.stub StubCall.flush, QueueOp.ndrangeKernel (sampleDispatch [])]
    (sampleEvent 4 false 7)
  exact ⟨rfl, e, h1, h4⟩

/-- C16: an invocation of the factory whose allocation succeeds returns the new
event and appends exactly that event to the end of the associated-events list,
with no error set and the entries before it unchanged; an invocation whose
allocation fails returns no event, sets the out-of-host-memory error and
leaves the queue, its associated-events list included, as it was. -/
theorem eventFactory_appends_one (eventVk : Event) (q : Queue) :
    (∃ e, (eventFactory (some eventVk) q).1 = some e ∧
        e.ptr = eventVk.ptr ∧
        (eventFactory (some eventVk) q).2.1 = none ∧
        (eventFactory (some eventVk) q).2.2.mAssociatedEvents = q.mAssociatedEvents ++ [e] ∧
        (eventFactory (some eventVk) q).2.2.mAssociatedEvents.length =
          q.mAssociatedEvents.length + 1) ∧
      eventFactory none q = (none, some CL_OUT_OF_HOST_MEMORY, q) ∧
      (eventFactory none q).2.2.mAssociatedEvents = q.mAssociatedEvents := by
  refine ⟨?_, rfl, rfl⟩
  cases hc : q.mComputePassCommands with
  | none =>
    exact ⟨eventVk, by simp [eventFactory, hc], rfl, by simp [eventFactory],
      by simp [eventFactory, hc], by simp [eventFactory]⟩
  | some h =>
    exact ⟨{ eventVk with queueSerial := h.queueSerial }, by simp [eventFactory, hc], rfl,
      by simp [eventFactory], by simp [eventFactory, hc], by simp [eventFactory]⟩

/-! ## Resource captures and descriptor writes -/

/-- C17: when its descriptor set has been allocated, `processKernelResources`
appends to the capture list exactly the memory objects of the uniform-buffer
and storage-buffer arguments, one entry per occurrence, in declaration order;
an argument of any other kind contributes no entry. -/
theorem captures_one_per_buffer_argument (K : Nat) (env : DispatchEnv) (k : Kernel)
    (nd : NDRange) (q : Queue) (ds : Nat) (hds : env.allocateDescriptorSet = some ds) :
    (processKernelResources K env k nd q).2.mMemoryCaptures =
        q.mMemoryCaptures ++
          (k.args.filter (fun a =>
            decide (a.type = ArgType.Uniform ∨ a.type = ArgType.StorageBuffer))).map
            (fun a => a.clMem) ∧
      ((processKernelResources K env k nd q).2.mMemoryCaptures.length =
        q.mMemoryCaptures.length +
          k.args.countP (fun a =>
            decide (a.type = ArgType.Uniform ∨ a.type = ArgType.StorageBuffer))) := by
  have hf : (fun a : KernelArg =>
      decide (a.type = ArgType.Uniform ∨ a.type = ArgType.StorageBuffer)) = isBufferArg := by
    funext a
    simp [isBufferArg]
  rw [processKernelResources_eq K env k nd q ds hds, hf]
  refine ⟨rfl, ?_⟩
  simp [List.countP_eq_length_filter]

/-- C17 on a kernel with arguments: storage buffer on object 5, POD push
constant, uniform buffer on object 5, sampler: the captures are object 5 twice. -/
theorem captures_one_per_buffer_argument_witness :
    (sampleDispatch []).env.allocateDescriptorSet = some 1 ∧
    (processKernelResources 64 (sampleDispatch []).env
        ⟨[sampleArg ArgType.StorageBuffer 5, sampleArg ArgType.PodPushConstant 0,
          sampleArg ArgType.Uniform 5, sampleArg ArgType.Sampler 6], none, none⟩
        (sampleDispatch []).ndrange sampleQueue).2.mMemoryCaptures =
      [sampleMemory 5, sampleMemory 5] := by
  refine ⟨rfl, ?_⟩
  rw [(captures_one_per_buffer_argument 64 (sampleDispatch []).env
    ⟨[sampleArg ArgType.StorageBuffer 5, sampleArg ArgType.PodPushConstant 0,
      sampleArg ArgType.Uniform 5, sampleArg ArgType.Sampler 6], none, none⟩
    (sampleDispatch []).ndrange sampleQueue 1 rfl).1]
  simp [sampleArg, sampleQueue, init, construct, setQueueSerial]

/-- C18: no operation of a live queue (dispatch, task, unimplemented operation
with flush and finish among them, invocation of the event factory) releases a
capture: after each operation, and after every sequence of operations, the
capture list is the list before it followed by the entries added. -/
theorem captures_never_released (K : Nat)
    (ndrangeCtor : Nat → Option (List Nat) → List Nat → List Nat → NDRange)
    (q : Queue) (op : QueueOp) (ops : List QueueOp) :
    (∃ t, (op.apply K ndrangeCtor q).mMemoryCaptures = q.mMemoryCaptures ++ t) ∧
      (∃ t, (runQueueOps K ndrangeCtor ops q).mMemoryCaptures = q.mMemoryCaptures ++ t) ∧
      (∃ t, (runQueueOps K ndrangeCtor (ops ++ [op]) q).mMemoryCaptures =
        (runQueueOps K ndrangeCtor ops q).mMemoryCaptures ++ t) := by
  refine ⟨(queueOp_apply_frame K ndrangeCtor q op).2, (runQueueOps_frame K ndrangeCtor ops q).2,
    ?_⟩
  have : runQueueOps K ndrangeCtor (ops ++ [op]) q =
      op.apply K ndrangeCtor (runQueueOps K ndrangeCtor ops q) := by
    simp [runQueueOps, List.foldl_append]
  rw [this]
  exact (queueOp_apply_frame K ndrangeCtor _ op).2

/-- C19: when its descriptor set has been allocated, `processKernelResources`
hands to the device exactly one descriptor write per uniform-buffer or
storage-buffer argument, in declaration order; the write of an argument has
descriptor count 1, the allocated set, the binding slot of the argument, the
uniform-buffer type exactly for a uniform argument, the size and the offset of
the memory object, and the buffer handle of the parent for a sub-buffer and of
the object itself otherwise. -/
theorem descriptor_write_per_buffer_argument (K : Nat) (env : DispatchEnv) (k : Kernel)
    (nd : NDRange) (q : Queue) (ds : Nat) (hds : env.allocateDescriptorSet = some ds) :
    (processKernelResources K env k nd q).2.descriptorUpdates =
        q.descriptorUpdates ++
          (k.args.filter (fun a =>
            decide (a.type = ArgType.Uniform ∨ a.type = ArgType.StorageBuffer))).map
            (writeDescriptorSetFor ds) ∧
      ∀ a : KernelArg,
        (writeDescriptorSetFor ds a).descriptorCount = 1 ∧
        (writeDescriptorSetFor ds a).dstSet = ds ∧
        (writeDescriptorSetFor ds a).dstBinding = a.descriptorBinding ∧
        ((writeDescriptorSetFor ds a).isUniformBuffer = true ↔ a.type = ArgType.Uniform) ∧
        (writeDescriptorSetFor ds a).range = a.clMem.size ∧
        (writeDescriptorSetFor ds a).offset = a.clMem.offset ∧
        (writeDescriptorSetFor ds a).buffer =
          (if a.clMem.isSubBuffer = true then a.clMem.parentBufferHandle
            else a.clMem.bufferHandle) := by
  have hf : (fun a : KernelArg =>
      decide (a.type = ArgType.Uniform ∨ a.type = ArgType.StorageBuffer)) = isBufferArg := by
    funext a
    simp [isBufferArg]
  rw [processKernelResources_eq K env k nd q ds hds, hf]
  refine ⟨rfl, ?_⟩
  intro a
  simp [writeDescriptorSetFor]

/-- C19 on a kernel with a storage buffer on binding 0 and a sampler: one
descriptor write, of storage-buffer type, for the buffer. -/
theorem descriptor_write_per_buffer_argument_witness :
    (sampleDispatch []).env.allocateDescriptorSet = some 1 ∧
    (processKernelResources 64 (sampleDispatch []).env
        ⟨[sampleArg ArgType.StorageBuffer 5, sampleArg ArgType.Sampler 6], none, none⟩
        (sampleDispatch []).ndrange sampleQueue).2.descriptorUpdates =
      [⟨1, false, 1, 0, 16, 0, 105⟩] := by
  refine ⟨rfl, ?_⟩
  rw [(descriptor_write_per_buffer_argument 64 (sampleDispatch []).env
    ⟨[sampleArg ArgType.StorageBuffer 5, sampleArg ArgType.Sampler 6], none, none⟩
    (sampleDispatch []).ndrange sampleQueue 1 rfl).1]
  simp [sampleArg, sampleMemory, sampleQueue, init, construct, setQueueSerial,
    writeDescriptorSetFor]

/-! ## Failure of initialization -/

/-- C20: `init` returns the out-of-resources error exactly when the command
pool, the command-buffer helper or the serial index cannot be obtained, and
`Continue` otherwise.  The first step that fails ends it: after a failed pool
step the queue is as it was (no helper was acquired, no index stored), and so
it is after a failed helper step; in both cases a freshly constructed queue
keeps the invalid sentinel as its serial index. -/
theorem init_fails_iff_a_step_fails (r : Renderer) (q : Queue) (commandQueue : Nat) :
    ((init r q).1 = Result.Stop CL_OUT_OF_RESOURCES ↔
        (r.initializeCommandPool = false ∨
          r.getOutsideRenderPassCommandBufferHelper = false ∨
          r.allocateQueueSerialIndex = none)) ∧
      ((init r q).1 = Result.Continue ∨ (init r q).1 = Result.Stop CL_OUT_OF_RESOURCES) ∧
      (r.initializeCommandPool = false → (init r q).2 = q) ∧
      (r.getOutsideRenderPassCommandBufferHelper = false → (init r q).2 = q) ∧
      (r.initializeCommandPool = false ∨ r.getOutsideRenderPassCommandBufferHelper = false →
        (init r (construct commandQueue)).2.mCurrentQueueSerialIndex =
          kInvalidQueueSerialIndex) := by
  unfold init
  cases h1 : r.initializeCommandPool <;>
    cases h2 : r.getOutsideRenderPassCommandBufferHelper <;>
    cases h3 : r.allocateQueueSerialIndex <;>
    simp [construct]

/-- C20 on a renderer whose command-buffer helper cannot be obtained (the index
allocation would succeed): `init` fails with the out-of-resources error and the
serial index of the constructed queue stays the invalid sentinel. -/
theorem init_fails_iff_a_step_fails_witness :
    (init ⟨true, false, some 0, fun _ => 1⟩ (construct 7)).1 =
      Result.Stop CL_OUT_OF_RESOURCES ∧
    (init ⟨true, false, some 0, fun _ => 1⟩ (construct 7)).2.mCurrentQueueSerialIndex =
      kInvalidQueueSerialIndex := by
  have h := init_fails_iff_a_step_fails ⟨true, false, some 0, fun _ => 1⟩ (construct 7) 7
  exact ⟨h.1.2 (Or.inr (Or.inl rfl)), h.2.2.2.2 (Or.inr rfl)⟩

/-! ## Destruction: properties -/

/-- No operation of a live queue changes the stored serial index. -/
theorem queueOp_apply_index (K : Nat)
    (ndrangeCtor : Nat → Option (List Nat) → List Nat → List Nat → NDRange)
    (q : Queue) (op : QueueOp) :
    (op.apply K ndrangeCtor q).mCurrentQueueSerialIndex = q.mCurrentQueueSerialIndex := by
  cases op with
  | ndrangeKernel d => exact (enqueue_frame K d q).2.1
  | task env kernel waitEvents eventCreateFunc =>
    show (enqueueTask K ndrangeCtor env kernel waitEvents
      eventCreateFunc q).2.1.mCurrentQueueSerialIndex = _
    rw [enqueueTask_eq_enqueue]
    exact (enqueue_frame K _ q).2.1
  | stub c =>
    show (c.run q).2.mCurrentQueueSerialIndex = _
    rw [stubCall_run_eq]
  | invokeFactory allocated =>
    cases allocated <;> rfl

theorem runQueueOps_index (K : Nat)
    (ndrangeCtor : Nat → Option (List Nat) → List Nat → List Nat → NDRange)
    (ops : List QueueOp) : ∀ q : Queue,
    (runQueueOps K ndrangeCtor ops q).mCurrentQueueSerialIndex = q.mCurrentQueueSerialIndex := by
  induction ops with
  | nil => intro q; rfl
  | cons op ops ih =>
    intro q
    rw [runQueueOps_cons, ih, queueOp_apply_index]

theorem destructor_released (q : Queue) :
    (destructor q).2 =
        (if q.mCurrentQueueSerialIndex ≠ kInvalidQueueSerialIndex
          then [q.mCurrentQueueSerialIndex] else []) ∧
      (destructor q).1.mCurrentQueueSerialIndex = kInvalidQueueSerialIndex := by
  unfold destructor
  by_cases h : q.mCurrentQueueSerialIndex = kInvalidQueueSerialIndex
  · simp [h]
  · simp [h]

/-- C21: the destructor releases the serial index exactly once when `init`
allocated one (an index other than the invalid sentinel), whatever operations
came between (dispatches left unflushed, events made by the factory, failing
calls), and never when the stored index is the invalid sentinel; afterwards the
stored index is the sentinel, so running the release again releases nothing. -/
theorem destructor_releases_index_once (K : Nat)
    (ndrangeCtor : Nat → Option (List Nat) → List Nat → List Nat → NDRange)
    (r : Renderer) (commandQueue index : Nat) (ops : List QueueOp) (q0 : Queue)
    (hinit : (init r (construct commandQueue)).1 = Result.Continue)
    (hidx : r.allocateQueueSerialIndex = some index)
    (hvalid : index ≠ kInvalidQueueSerialIndex)
    (h0 : q0.mCurrentQueueSerialIndex = kInvalidQueueSerialIndex) :
    (destructor (runQueueOps K ndrangeCtor ops (init r (construct commandQueue)).2)).2 =
        [index] ∧
      (destructor (runQueueOps K ndrangeCtor ops
        (init r (construct commandQueue)).2)).1.mCurrentQueueSerialIndex =
        kInvalidQueueSerialIndex ∧
      (destructor (destructor (runQueueOps K ndrangeCtor ops
        (init r (construct commandQueue)).2)).1).2 = [] ∧
      (destructor q0).2 = [] ∧
      (destructor q0).1.mCurrentQueueSerialIndex = kInvalidQueueSerialIndex := by
  obtain ⟨i, hi, heq⟩ := init_eq_of_continue r (construct commandQueue) hinit
  have hii : i = index := by rw [hidx] at hi; exact (Option.some.inj hi).symm
  subst hii
  have hq : (runQueueOps K ndrangeCtor ops
      (init r (construct commandQueue)).2).mCurrentQueueSerialIndex = i := by
    rw [runQueueOps_index, heq]
  have h1 := destructor_released (runQueueOps K ndrangeCtor ops (init r (construct commandQueue)).2)
  have h2 := destructor_released (destructor (runQueueOps K ndrangeCtor ops
    (init r (construct commandQueue)).2)).1
  have h3 := destructor_released q0
  rw [hq] at h1
  rw [h1.2] at h2
  rw [h0] at h3
  refine ⟨?_, h1.2, ?_, ?_, h3.2⟩
  · rw [h1.1, if_pos hvalid]
  · rw [h2.1]; simp
  · rw [h3.1]; simp

/-- C21 on the sample renderer (index 0) after a dispatch and two events made
by the factory: the destructor releases index 0 once, and a queue whose `init`
failed at the helper step releases nothing. -/
theorem destructor_releases_index_once_witness :
    (destructor (runQueueOps 64 sampleNDRange
        [QueueOp.ndrangeKernel (sampleDispatch [sampleArg ArgType.StorageBuffer 5]),
          QueueOp.invokeFactory (some (sampleEvent 1 false 7)),
          QueueOp.invokeFactory (some (sampleEvent 2 false 7))]
        (init ⟨true, true, some 0, fun _ => 1⟩ (construct 7)).2)).2 = [0] ∧
    (destructor (init ⟨true, false, some 0, fun _ => 1⟩ (construct 7)).2).2 = [] := by
  have h := destructor_releases_index_once 64 sampleNDRange ⟨true, true, some 0, fun _ => 1⟩ 7 0
    [QueueOp.ndrangeKernel (sampleDispatch [sampleArg ArgType.StorageBuffer 5]),
      QueueOp.invokeFactory (some (sampleEvent 1 false 7)),
      QueueOp.invokeFactory (some (sampleEvent 2 false 7))]
    (init ⟨true, false, some 0, fun _ => 1⟩ (construct 7)).2 rfl rfl (by decide) rfl
  exact ⟨h.1, h.2.2.2.1⟩

/-! ## Deferred entries, command order and failure of a dispatch -/

/-- C24: `processWaitlist` always returns `Continue`; the deferred list
afterwards is the list before followed by the wait-list entries that are user
events or were produced by another queue, in wait-list order with duplicates
kept; every entry so appended is a user event or of another queue, so a
same-queue entry that is not a user event is never deferred; and on the empty
wait-list the queue is returned as it was. -/
theorem processWaitlist_defers_in_order (w : List Event) (q : Queue) :
    (processWaitlist w q).1 = Result.Continue ∧
      (processWaitlist w q).2.mDependantEvents =
        q.mDependantEvents ++
          w.filter (fun e => e.isUserEvent || e.commandQueue != q.mCommandQueue) ∧
      (∀ e ∈ w, e.isUserEvent = false → e.commandQueue = q.mCommandQueue →
        e ∉ w.filter (fun e => e.isUserEvent || e.commandQueue != q.mCommandQueue)) ∧
      processWaitlist [] q = (Result.Continue, q) := by
  rw [processWaitlist_eq]
  refine ⟨rfl, rfl, ?_, rfl⟩
  intro e _ hu hc hmem
  rw [List.mem_filter] at hmem
  simp [hu, hc] at hmem

/-- C24 on the sample queue (queue object 7) with prior deferred entry 9 and the
wait-list: foreign event 1, same-queue event 2, user event 3, foreign event 1
again. -/
theorem processWaitlist_defers_in_order_witness :
    (processWaitlist
        [sampleEvent 1 false 9, sampleEvent 2 false 7, sampleEvent 3 true 7,
          sampleEvent 1 false 9]
        { sampleQueue with mDependantEvents := [sampleEvent 9 true 0] }).2.mDependantEvents =
      [sampleEvent 9 true 0, sampleEvent 1 false 9, sampleEvent 3 true 7,
        sampleEvent 1 false 9] ∧
    sampleEvent 2 false 7 ∉
      [sampleEvent 1 false 9, sampleEvent 2 false 7, sampleEvent 3 true 7,
        sampleEvent 1 false 9].filter (fun e => e.isUserEvent || e.commandQueue != 7) := by
  have h := processWaitlist_defers_in_order
    [sampleEvent 1 false 9, sampleEvent 2 false 7, sampleEvent 3 true 7, sampleEvent 1 false 9]
    { sampleQueue with mDependantEvents := [sampleEvent 9 true 0] }
  refine ⟨?_, ?_⟩
  · rw [h.2.1]; decide
  · exact h.2.2.1 (sampleEvent 2 false 7) (by decide) rfl rfl

/-- The result of a dispatch and whether the event factory was assigned. -/
theorem enqueue_result (K : Nat) (d : Dispatch) (q : Queue) :
    (d.enqueue K q).1 =
        (match d.env.allocateDescriptorSet with
          | none => Result.Stop d.env.allocateDescriptorSetError
          | some _ =>
            if d.env.getPipelineCache = true then
              (match d.env.getOrCreateComputePipeline with
                | none => Result.Stop d.env.getOrCreateComputePipelineError
                | some _ => Result.Continue)
            else Result.Stop CL_OUT_OF_RESOURCES) ∧
      (d.enqueue K q).2.2 = (d.succeeds && d.eventCreateFunc) := by
  unfold Dispatch.enqueue enqueueNDRangeKernel Dispatch.succeeds
  rw [processWaitlist_eq]
  simp only []
  cases hds : d.env.allocateDescriptorSet with
  | none =>
    rw [processKernelResources_fail K d.env d.kernel d.ndrange _ hds]
    simp
  | some ds =>
    rw [processKernelResources_eq K d.env d.kernel d.ndrange _ ds hds]
    simp only []
    cases d.env.getPipelineCache <;> cases hp : d.env.getOrCreateComputePipeline <;>
      simp [createEvent_eq]

/-- C25: on a queue with a recording scope, a dispatch whose collaborators all
succeed returns `Continue` and appends exactly these commands, in this order:
the wait-list barrier when the wait-list has a same-queue entry that is not a
user event; the push constants of the global offset when the program has that
range; those of the global size when it has that range; one push-constant
write per POD push-constant argument in declaration order, at its offset and
size; the hazard barrier when the argument loop raised the flag; the
descriptor-set bind; the compute-pipeline bind; and last the dispatch with the
resolved workgroup count.  The commands of any later dispatch come after them. -/
theorem dispatch_commands_in_order (K : Nat) (d later : Dispatch) (q : Queue)
    (h : CommandBufferHelper) (hq : q.mComputePassCommands = some h)
    (ds pipelineHelper pipeline x y z : Nat)
    (hds : d.env.allocateDescriptorSet = some ds)
    (hcache : d.env.getPipelineCache = true)
    (hpipe : d.env.getOrCreateComputePipeline = some (pipelineHelper, pipeline, x, y, z)) :
    (d.enqueue K q).1 = Result.Continue ∧
      recorded (d.enqueue K q).2.1 =
        recorded q ++
          (if ∃ e ∈ d.waitEvents, e.isUserEvent = false ∧ e.commandQueue = q.mCommandQueue
            then [Command.pipelineBarrier] else []) ++
          (match d.kernel.globalOffsetRange with
            | some r => [Command.pushConstants r.offset r.size d.ndrange.globalWorkOffset]
            | none => []) ++
          (match d.kernel.globalSizeRange with
            | some r => [Command.pushConstants r.offset r.size d.ndrange.globalWorkSize]
            | none => []) ++
          (d.kernel.args.filter (fun a => decide (a.type = ArgType.PodPushConstant))).map
            (fun a => Command.pushConstants a.pushConstOffset a.pushConstantSize a.handle) ++
          (if (observeAll K (false, q.mDependencyTracker) (storagePtrs d.kernel.args)).1 = true
            then [Command.pipelineBarrier] else []) ++
          [Command.bindDescriptorSets ds, Command.bindComputePipeline pipeline,
            Command.dispatch x y z] ∧
      ∃ t, recorded (later.enqueue K (d.enqueue K q).2.1).2.1 =
        recorded (d.enqueue K q).2.1 ++ t := by
  refine ⟨?_, ?_, ?_⟩
  · rw [(enqueue_result K d q).1]
    simp [hds, hcache, hpipe]
  · rw [enqueue_recorded K d q h hq]
    unfold enqueueCommands kernelResourceCommands globalCommands podCommands
    have hw : (d.waitEvents.any (isSameQueue q) = true) ↔
        ∃ e ∈ d.waitEvents, e.isUserEvent = false ∧ e.commandQueue = q.mCommandQueue :=
      any_isSameQueue_iff q d.waitEvents
    have hf : isPodArg = fun a : KernelArg => decide (a.type = ArgType.PodPushConstant) := rfl
    rw [hf]
    simp only [hds, hcache, hpipe, if_true]
    by_cases hx : ∃ e ∈ d.waitEvents, e.isUserEvent = false ∧ e.commandQueue = q.mCommandQueue
    · rw [if_pos hx, if_pos (hw.2 hx)]
      simp [List.append_assoc]
    · have hn : ¬ (d.waitEvents.any (isSameQueue q) = true) := fun hh => hx (hw.1 hh)
      rw [if_neg hx, if_neg hn]
      simp [List.append_assoc]
  · obtain ⟨h1, hh1⟩ := Option.isSome_iff_exists.1
      (enqueue_scope_isSome K d q (by simp [hq]))
    exact ⟨_, enqueue_recorded K later _ h1 hh1⟩

/-- C25 on the sample queue: a dispatch with a same-queue wait event, a
global-size range, one POD argument and the same buffer bound to two
storage-buffer arguments records the eight kinds of command in order. -/
theorem dispatch_commands_in_order_witness :
    sampleQueue.mComputePassCommands = some ⟨[], [], ⟨0, 1⟩⟩ ∧
    recorded (Dispatch.enqueue 64
        { env := ⟨some 1, 0, true, some (2, 3, 4, 5, 6), 0⟩
          kernel := ⟨[sampleArg ArgType.StorageBuffer 5, ⟨ArgType.PodPushConstant, [9], sampleMemory 0, 0, 8, 4⟩,
            sampleArg ArgType.StorageBuffer 5], none, some ⟨16, 12⟩⟩
          ndrange := ⟨1, [0, 0, 0], [7, 1, 1], [1, 1, 1]⟩
          waitEvents := [sampleEvent 1 false 7]
          eventCreateFunc := true } sampleQueue).2.1 =
      [Command.pipelineBarrier, Command.pushConstants 16 12 [7, 1, 1],
        Command.pushConstants 8 4 [9], Command.pipelineBarrier,
        Command.bindDescriptorSets 1, Command.bindComputePipeline 3, Command.dispatch 4 5 6] := by
  refine ⟨rfl, ?_⟩
  rw [(dispatch_commands_in_order 64 _ (sampleDispatch []) sampleQueue ⟨[], [], ⟨0, 1⟩⟩ rfl
    1 2 3 4 5 6 rfl rfl rfl).2.1]
  have h0 : sampleQueue.mDependencyTracker = ∅ := rfl
  have h1 : recorded sampleQueue = [] := rfl
  have h2 : sampleQueue.mCommandQueue = 7 := rfl
  rw [h0, h1, h2]
  simp [observeAll, observeHazard_eq, storagePtrs, isStorageArg, sampleArg, sampleMemory,
    sampleEvent]

theorem not_isPipelineBindOrDispatch_kernelResourceCommands (K : Nat) (k : Kernel)
    (nd : NDRange) (ds : Nat) (q : Queue) :
    ∀ c ∈ kernelResourceCommands K k nd ds q, c.isPipelineBindOrDispatch = false := by
  intro c hc
  unfold kernelResourceCommands globalCommands podCommands at hc
  simp only [List.mem_append, List.mem_map, List.mem_singleton] at hc
  rcases hc with ((((hc | hc) | hc) | hc) | hc)
  · cases hg : k.globalOffsetRange <;> simp [hg] at hc
    subst hc; rfl
  · cases hg : k.globalSizeRange <;> simp [hg] at hc
    subst hc; rfl
  · obtain ⟨a, _, rfl⟩ := hc; rfl
  · split at hc
    · simp at hc; subst hc; rfl
    · simp at hc
  · subst hc; rfl

/-- C26: on a queue with a recording scope, a dispatch for which the
descriptor-set allocation, the pipeline-cache access or the pipeline
resolution fails returns that failure (the error of the allocation, the
out-of-resources error, the error of the resolution), appends no
compute-pipeline bind and no dispatch command, and does not assign the event
factory.  In every case the factory is assigned exactly when the dispatch
returned `Continue` and the factory pointer is non-null; a null pointer is
never assigned and does not change the result. -/
theorem failed_dispatch_records_no_dispatch (K : Nat) (d : Dispatch) (q : Queue)
    (h : CommandBufferHelper) (hq : q.mComputePassCommands = some h) :
    (d.env.allocateDescriptorSet = none →
        (d.enqueue K q).1 = Result.Stop d.env.allocateDescriptorSetError) ∧
      (d.env.allocateDescriptorSet ≠ none → d.env.getPipelineCache = false →
        (d.enqueue K q).1 = Result.Stop CL_OUT_OF_RESOURCES) ∧
      (d.env.allocateDescriptorSet ≠ none → d.env.getPipelineCache = true →
        d.env.getOrCreateComputePipeline = none →
        (d.enqueue K q).1 = Result.Stop d.env.getOrCreateComputePipelineError) ∧
      (d.succeeds = false →
        (d.enqueue K q).1 ≠ Result.Continue ∧ (d.enqueue K q).2.2 = false ∧
        ∃ t, recorded (d.enqueue K q).2.1 = recorded q ++ t ∧
          ∀ c ∈ t, c.isPipelineBindOrDispatch = false) ∧
      ((d.enqueue K q).2.2 = true ↔
        ((d.enqueue K q).1 = Result.Continue ∧ d.eventCreateFunc = true)) ∧
      (d.eventCreateFunc = false → (d.enqueue K q).2.2 = false) ∧
      (Dispatch.enqueue K { d with eventCreateFunc := false } q).1 = (d.enqueue K q).1 := by
  obtain ⟨hres, hfac⟩ := enqueue_result K d q
  have hres' := (enqueue_result K { d with eventCreateFunc := false } q).1
  refine ⟨?_, ?_, ?_, ?_, ?_, ?_, ?_⟩
  · intro h1; rw [hres, h1]
  · intro h1 h2
    rw [hres]
    cases hds : d.env.allocateDescriptorSet with
    | none => exact absurd hds h1
    | some ds => simp [h2]
  · intro h1 h2 h3
    rw [hres]
    cases hds : d.env.allocateDescriptorSet with
    | none => exact absurd hds h1
    | some ds => simp [h2, h3]
  · intro hf
    refine ⟨?_, ?_, enqueueCommands K d q, enqueue_recorded K d q h hq, ?_⟩
    · rw [hres]
      unfold Dispatch.succeeds at hf
      cases hds : d.env.allocateDescriptorSet <;> cases hc : d.env.getPipelineCache <;>
        cases hp : d.env.getOrCreateComputePipeline <;> simp_all
    · rw [hfac, hf]; rfl
    · intro c hc
      unfold enqueueCommands at hc
      unfold Dispatch.succeeds at hf
      rw [List.mem_append] at hc
      rcases hc with hc | hc
      · split at hc
        · simp at hc; subst hc; rfl
        · simp at hc
      · cases hds : d.env.allocateDescriptorSet with
        | none => simp [hds] at hc
        | some ds =>
          simp only [hds] at hc
          rw [List.mem_append] at hc
          rcases hc with hc | hc
          · exact not_isPipelineBindOrDispatch_kernelResourceCommands K _ _ ds q c hc
          · cases hcache : d.env.getPipelineCache with
            | false => simp [hcache] at hc
            | true =>
              cases hp : d.env.getOrCreateComputePipeline with
              | none => simp [hcache, hp] at hc
              | some v => simp [hds, hcache, hp] at hf
  · rw [hfac, hres]
    unfold Dispatch.succeeds
    cases hds : d.env.allocateDescriptorSet <;> cases hc : d.env.getPipelineCache <;>
      cases hp : d.env.getOrCreateComputePipeline <;> cases d.eventCreateFunc <;> simp
  · intro hn; rw [hfac, hn]; simp
  · rw [hres', hres]

/-- C26 on the sample queue with a failing pipeline resolution (error -5) and a
non-null factory pointer: the error is returned, the factory is not assigned,
and only the descriptor-set bind has been recorded. -/
theorem failed_dispatch_records_no_dispatch_witness :
    sampleQueue.mComputePassCommands = some ⟨[], [], ⟨0, 1⟩⟩ ∧
    (Dispatch.enqueue 64
        { sampleDispatch [] with env := ⟨some 1, 0, true, none, -5⟩, eventCreateFunc := true }
        sampleQueue).1 = Result.Stop (-5) ∧
    (Dispatch.enqueue 64
        { sampleDispatch [] with env := ⟨some 1, 0, true, none, -5⟩, eventCreateFunc := true }
        sampleQueue).2.2 = false := by
  have h := failed_dispatch_records_no_dispatch 64
    { sampleDispatch [] with env := ⟨some 1, 0, true, none, -5⟩, eventCreateFunc := true }
    sampleQueue ⟨[], [], ⟨0, 1⟩⟩ rfl
  exact ⟨rfl, h.2.2.1 (by decide) rfl rfl, (h.2.2.2.1 rfl).2.1⟩

/-! ## The mutual-exclusion guard: properties -/

theorem enqueueNDRangeKernelGuarded_eq (K : Nat) (env : DispatchEnv) (kernel : Kernel)
    (ndrange : NDRange) (waitEvents : List Event) (eventCreateFunc : Bool) (g : GuardedQueue) :
    enqueueNDRangeKernelGuarded K env kernel ndrange waitEvents eventCreateFunc g =
      ((enqueueNDRangeKernel K env kernel ndrange waitEvents eventCreateFunc g.queue).1,
        ⟨(enqueueNDRangeKernel K env kernel ndrange waitEvents eventCreateFunc g.queue).2.1,
          false, g.guardLog ++ [⟨GuardSite.enqueueNDRangeKernel, true⟩]⟩,
        (enqueueNDRangeKernel K env kernel ndrange waitEvents eventCreateFunc g.queue).2.2) :=
  rfl

end CLCommandQueueVk

/-! # Pass-through command queue: properties -/

namespace CLCommandQueueCL

theorem numEvents_eq (env : Env) (w : List Event)
    (hcast : (env.Cast w).length = w.length) (hlen : w.length < 2 ^ 32) :
    (env.Cast w).length % 2 ^ 32 = w.length := by
  rw [hcast]
  exact Nat.mod_eq_of_lt hlen

theorem nativeEventsPtr_eq_none_iff (env : Env) (w : List Event)
    (hcast : (env.Cast w).length = w.length) :
    (if (env.Cast w).isEmpty then none else some (env.Cast w)) = none ↔ w = [] := by
  cases hw : w with
  | nil =>
    rw [hw] at hcast
    have : env.Cast [] = [] := List.length_eq_zero.1 hcast
    simp [this]
  | cons e t =>
    rw [hw] at hcast
    have : env.Cast (e :: t) ≠ [] := by
      intro h0
      rw [h0] at hcast
      simp at hcast
    simp [this]

/-- C22: every operation of the pass-through queue makes exactly one native
call, to the entry point that corresponds to the operation, on the native
queue, with the native handles of the caller's buffers and images, and with the
caller's offsets, sizes, pitches, pointers, origin and region arrays and map
flags unchanged and in order; the error code it returns (for a map operation:
leaves in the `errorCode` output) is the one the call produced, and a map
operation returns the pointer the call returned. -/
theorem passthrough_one_native_call (env : Env) (c : PassCall) :
    ∃ call, (c.run env).calls = [call] ∧
      call.entry = c.entry ∧
      call.commandQueue = env.mNative ∧
      call.mems = c.memories.map (fun m => m.native) ∧
      call.values = c.values ∧
      call.arrays = c.arrays ∧
      call.mapFlags = c.mapFlags ∧
      (c.run env).errorCode = (env.dispatch call).errorCode ∧
      call.errcodeRet = c.isMap ∧
      (c.run env).map = (if c.isMap = true then (env.dispatch call).map else 0) := by
  cases c <;> exact ⟨_, rfl, rfl, rfl, rfl, rfl, rfl, rfl, rfl, rfl, rfl⟩

/-- C27: for every operation of the pass-through queue the caller's event
factory is assigned exactly when the native call produced `CL_SUCCESS` and the
factory pointer is non-null, and the factory assigned wraps the native event
the driver stored for that call; otherwise nothing is assigned. -/
theorem factory_assigned_iff_success (env : Env) (c : PassCall) :
    ∃ call, (c.run env).calls = [call] ∧
      (c.run env).eventCreateFunc =
        (if (env.dispatch call).errorCode = CL_SUCCESS ∧ c.eventCreateFunc = true
          then some (env.dispatch call).event else none) ∧
      ((c.run env).eventCreateFunc.isSome = true ↔
        ((c.run env).errorCode = CL_SUCCESS ∧ c.eventCreateFunc = true)) := by
  have key : ∀ (res : NativeResult) (e : Bool),
      (if res.errorCode = CL_SUCCESS ∧ e = true then some (if e = true then res.event else 0)
        else none) =
      (if res.errorCode = CL_SUCCESS ∧ e = true then some res.event else none) ∧
      ((if res.errorCode = CL_SUCCESS ∧ e = true then some (if e = true then res.event else 0)
        else none).isSome = true ↔ (res.errorCode = CL_SUCCESS ∧ e = true)) := by
    intro res e
    by_cases h : res.errorCode = CL_SUCCESS ∧ e = true
    · simp [h]
    · simp [h]
  cases c <;> exact ⟨_, rfl, (key _ _).1, (key _ _).2⟩

/-- C28: for every operation of the pass-through queue, when `CLEventCL::Cast`
yields one native event per wait-list entry and the wait-list has fewer than
2^32 entries, the native call receives an event count equal to the length of
the wait-list, a null wait-list pointer exactly for the empty wait-list, a null
output-event pointer exactly for a null factory pointer, and, when the
operation has a blocking flag, `CL_TRUE` for true and `CL_FALSE` for false. -/
theorem native_event_arguments (env : Env) (c : PassCall)
    (hcast : (env.Cast c.waitEvents).length = c.waitEvents.length)
    (hlen : c.waitEvents.length < 2 ^ 32) :
    ∃ call, (c.run env).calls = [call] ∧
      call.numEvents = c.waitEvents.length ∧
      (call.eventWaitList = none ↔ c.waitEvents = []) ∧
      (call.event = false ↔ c.eventCreateFunc = false) ∧
      call.blocking = c.blocking.map (fun b => if b = true then CL_TRUE else CL_FALSE) := by
  cases c <;>
    exact ⟨_, rfl, numEvents_eq env _ hcast hlen, nativeEventsPtr_eq_none_iff env _ hcast,
      Iff.rfl, rfl⟩

/-- C28 on a blocking read with a wait-list of two events and no factory: the
call has event count 2, a wait-list pointer, no output-event pointer and
`CL_TRUE`. -/
theorem native_event_arguments_witness :
    ((sampleEnv 0).Cast [⟨1⟩, ⟨2⟩]).length = 2 ∧
    ∃ call, (PassCall.run (sampleEnv 0)
        (PassCall.readBuffer ⟨10, 20⟩ true 0 64 4096 [⟨1⟩, ⟨2⟩] false)).calls = [call] ∧
      call.numEvents = 2 ∧ call.eventWaitList ≠ none ∧ call.event = false ∧
      call.blocking = some CL_TRUE := by
  obtain ⟨call, h1, h2, h3, h4, h5⟩ := native_event_arguments (sampleEnv 0)
    (PassCall.readBuffer ⟨10, 20⟩ true 0 64 4096 [⟨1⟩, ⟨2⟩] false) rfl (by decide)
  exact ⟨rfl, call, h1, h2, fun hn => List.cons_ne_nil _ _ (h3.1 hn), h4.2 rfl, h5⟩

end CLCommandQueueCL

/-! # Reflection data of shader variables: properties -/

namespace gl

theorem ActiveVariable.ext_fields {S : Type} (a b : ActiveVariable S)
    (hb : ∀ s, a.mActiveUseBits s = b.mActiveUseBits s) (hi : ∀ s, a.mIds s = b.mIds s) :
    a = b := by
  cases a with
  | mk ab ai =>
    cases b with
    | mk bb bi =>
      have h1 : ab = bb := funext hb
      have h2 : ai = bi := funext hi
      rw [h1, h2]

theorem ActiveVariable.unionId_mIds {S : Type} [DecidableEq S] (other v : ActiveVariable S)
    (t s : S) :
    (ActiveVariable.unionId other v t).mIds s =
      (if s = t ∧ v.mIds t = 0 then other.mIds t else v.mIds s) := by
  unfold ActiveVariable.unionId
  by_cases h0 : v.mIds t = 0
  · by_cases hs : s = t
    · subst hs; simp [h0]
    · simp [h0, hs, Function.update_noteq hs]
  · simp [h0]

theorem ActiveVariable.unionId_bits {S : Type} [DecidableEq S] (other v : ActiveVariable S)
    (t : S) : (ActiveVariable.unionId other v t).mActiveUseBits = v.mActiveUseBits := by
  unfold ActiveVariable.unionId
  split <;> rfl

/-- The loop of `unionReferencesWith` in closed form: the bits are untouched,
and the id of a visited shader type is replaced exactly when it is 0. -/
theorem ActiveVariable.foldl_unionId {S : Type} [DecidableEq S] (other : ActiveVariable S)
    (l : List S) : ∀ v : ActiveVariable S,
    (l.foldl (ActiveVariable.unionId other) v).mActiveUseBits = v.mActiveUseBits ∧
      ∀ s, (l.foldl (ActiveVariable.unionId other) v).mIds s =
        (if s ∈ l ∧ v.mIds s = 0 then other.mIds s else v.mIds s) := by
  induction l with
  | nil => intro v; simp
  | cons t l ih =>
    intro v
    rw [List.foldl_cons]
    obtain ⟨hb, hi⟩ := ih (ActiveVariable.unionId other v t)
    refine ⟨hb.trans (ActiveVariable.unionId_bits other v t), ?_⟩
    intro s
    rw [hi s, ActiveVariable.unionId_mIds]
    by_cases hs : s = t
    · subst hs
      by_cases h0 : v.mIds s = 0
      · by_cases hm : s ∈ l ∧ other.mIds s = 0 <;> simp [h0, hm]
      · simp [h0]
    · simp [hs]

/-- C29: for every pair of variables, `unionReferencesWith` makes every
active-use bit the OR of the two bits and, for every shader type, keeps the id
of the receiver when it is not 0 and takes the id of the other variable
otherwise.  So a variable united with itself is unchanged and the
default-constructed variable is an identity on either side.  When, in
addition, for every shader type the two ids are equal or one of them is 0, the
result does not depend on which variable is the receiver. -/
theorem unionReferencesWith_spec {S : Type} [DecidableEq S] (AllShaderTypes : List S)
    (hall : ∀ s, s ∈ AllShaderTypes) (a b : ActiveVariable S) :
    (∀ s, (a.unionReferencesWith AllShaderTypes b).mActiveUseBits s =
        (a.mActiveUseBits s || b.mActiveUseBits s)) ∧
      (∀ s, (a.unionReferencesWith AllShaderTypes b).mIds s =
        (if a.mIds s ≠ 0 then a.mIds s else b.mIds s)) ∧
      a.unionReferencesWith AllShaderTypes a = a ∧
      a.unionReferencesWith AllShaderTypes ActiveVariable.new = a ∧
      ActiveVariable.new.unionReferencesWith AllShaderTypes a = a ∧
      ((∀ s, a.mIds s = 0 ∨ b.mIds s = 0 ∨ a.mIds s = b.mIds s) →
        a.unionReferencesWith AllShaderTypes b = b.unionReferencesWith AllShaderTypes a) := by
  have bits : ∀ x y : ActiveVariable S, ∀ s,
      (x.unionReferencesWith AllShaderTypes y).mActiveUseBits s =
        (x.mActiveUseBits s || y.mActiveUseBits s) := by
    intro x y s
    unfold ActiveVariable.unionReferencesWith
    rw [(ActiveVariable.foldl_unionId y AllShaderTypes _).1]
  have ids : ∀ x y : ActiveVariable S, ∀ s,
      (x.unionReferencesWith AllShaderTypes y).mIds s =
        (if x.mIds s ≠ 0 then x.mIds s else y.mIds s) := by
    intro x y s
    unfold ActiveVariable.unionReferencesWith
    rw [(ActiveVariable.foldl_unionId y AllShaderTypes _).2 s]
    by_cases h0 : x.mIds s = 0
    · simp [h0, hall s]
    · simp [h0]
  refine ⟨bits a b, ids a b, ?_, ?_, ?_, ?_⟩
  · apply ActiveVariable.ext_fields
    · intro s; rw [bits]; simp
    · intro s; rw [ids]; simp
  · apply ActiveVariable.ext_fields
    · intro s; rw [bits]; simp [ActiveVariable.new]
    · intro s; rw [ids]
      by_cases h0 : a.mIds s = 0 <;> simp [h0, ActiveVariable.new]
  · apply ActiveVariable.ext_fields
    · intro s; rw [bits]; simp [ActiveVariable.new]
    · intro s; rw [ids]; simp [ActiveVariable.new]
  · intro hpre
    apply ActiveVariable.ext_fields
    · intro s; rw [bits, bits, Bool.or_comm]
    · intro s
      rw [ids, ids]
      rcases hpre s with h | h | h
      · by_cases hb : b.mIds s = 0 <;> simp [h, hb]
      · by_cases ha : a.mIds s = 0 <;> simp [h, ha]
      · by_cases ha : a.mIds s = 0
        · simp [ha, ← h]
        · simp [ha, ← h]

/-- C29 with six shader types.  On a pair whose ids for type 0 differ (7 and 9)
the receiver keeps its id 7 and the bit of type 0 is the OR of the two bits;
on a pair with no such conflict (id 7 for type 0, id 9 for type 4) the result
is the same whichever variable is the receiver. -/
theorem unionReferencesWith_spec_witness :
    (∀ s : Fin 6, s ∈ List.finRange 6) ∧
    (((ActiveVariable.new.setActive (0 : Fin 6) false 7).unionReferencesWith (List.finRange 6)
      (ActiveVariable.new.setActive 0 true 9)).mIds 0 = 7) ∧
    (((ActiveVariable.new.setActive (0 : Fin 6) false 7).unionReferencesWith (List.finRange 6)
      (ActiveVariable.new.setActive 0 true 9)).mActiveUseBits 0 = true) ∧
    (∀ s : Fin 6, (ActiveVariable.new.setActive (0 : Fin 6) false 7).mIds s = 0 ∨
      (ActiveVariable.new.setActive (4 : Fin 6) true 9).mIds s = 0 ∨
      (ActiveVariable.new.setActive (0 : Fin 6) false 7).mIds s =
        (ActiveVariable.new.setActive (4 : Fin 6) true 9).mIds s) ∧
    ((ActiveVariable.new.setActive (0 : Fin 6) false 7).unionReferencesWith (List.finRange 6)
        (ActiveVariable.new.setActive 4 true 9) =
      (ActiveVariable.new.setActive (4 : Fin 6) true 9).unionReferencesWith (List.finRange 6)
        (ActiveVariable.new.setActive 0 false 7)) := by
  have hc := unionReferencesWith_spec (List.finRange 6) (fun s => List.mem_finRange s)
    (ActiveVariable.new.setActive (0 : Fin 6) false 7) (ActiveVariable.new.setActive 0 true 9)
  have hf := unionReferencesWith_spec (List.finRange 6) (fun s => List.mem_finRange s)
    (ActiveVariable.new.setActive (0 : Fin 6) false 7) (ActiveVariable.new.setActive 4 true 9)
  have hpre : ∀ s : Fin 6, (ActiveVariable.new.setActive (0 : Fin 6) false 7).mIds s = 0 ∨
      (ActiveVariable.new.setActive (4 : Fin 6) true 9).mIds s = 0 ∨
      (ActiveVariable.new.setActive (0 : Fin 6) false 7).mIds s =
        (ActiveVariable.new.setActive (4 : Fin 6) true 9).mIds s := by decide
  refine ⟨fun s => List.mem_finRange s, ?_, ?_, hpre, hf.2.2.2.2.2 hpre⟩
  · rw [hc.2.1]; decide
  · rw [hc.1]; decide

/-- C30: `nameWithArrayIndex` is the name followed by "[", the decimal digits of
`arrayElement` and "]" when `isArray` is set, and the name alone otherwise;
`mappedNameWithArrayIndex` is the same on the mapped name.  Each result starts
with the name it was built from, and the two results are equal when the name
and the mapped name are. -/
theorem nameWithArrayIndex_spec (b : InterfaceBlock) :
    b.nameWithArrayIndex =
        (if b.isArray = true
          then b.name ++ "[" ++ String.mk (Nat.toDigits 10 b.arrayElement) ++ "]"
          else b.name) ∧
      b.mappedNameWithArrayIndex =
        (if b.isArray = true
          then b.mappedName ++ "[" ++ String.mk (Nat.toDigits 10 b.arrayElement) ++ "]"
          else b.mappedName) ∧
      String.mk (Nat.toDigits 10 b.arrayElement) = toString b.arrayElement ∧
      (∃ t, b.nameWithArrayIndex = b.name ++ t) ∧
      (∃ t, b.mappedNameWithArrayIndex = b.mappedName ++ t) ∧
      (b.name = b.mappedName → b.nameWithArrayIndex = b.mappedNameWithArrayIndex) := by
  have e : ∀ x : String, "" ++ x = x := fun x => String.empty_append x
  refine ⟨?_, ?_, rfl, ?_, ?_, ?_⟩
  · unfold InterfaceBlock.nameWithArrayIndex
    simp only [e]
  · unfold InterfaceBlock.mappedNameWithArrayIndex
    simp only [e]
  · unfold InterfaceBlock.nameWithArrayIndex
    simp only [e]
    cases b.isArray
    · exact ⟨"", by simp⟩
    · exact ⟨"[" ++ String.mk (Nat.toDigits 10 b.arrayElement) ++ "]", by
        simp [String.append_assoc]⟩
  · unfold InterfaceBlock.mappedNameWithArrayIndex
    simp only [e]
    cases b.isArray
    · exact ⟨"", by simp⟩
    · exact ⟨"[" ++ String.mk (Nat.toDigits 10 b.arrayElement) ++ "]", by
        simp [String.append_assoc]⟩
  · intro h
    unfold InterfaceBlock.nameWithArrayIndex InterfaceBlock.mappedNameWithArrayIndex
    rw [h]

/-- C30 on the block `blk` (mapped to itself), element 12 of an array: both
functions give the text `blk[12]`. -/
theorem nameWithArrayIndex_spec_witness :
    (⟨"blk", "blk", true, false, 12, 0, 0⟩ : InterfaceBlock).nameWithArrayIndex = "blk[12]" ∧
    (⟨"blk", "blk", true, false, 12, 0, 0⟩ : InterfaceBlock).mappedNameWithArrayIndex =
      "blk[12]" := by
  have h := nameWithArrayIndex_spec ⟨"blk", "blk", true, false, 12, 0, 0⟩
  refine ⟨by decide, ?_⟩
  rw [← h.2.2.2.2.2 rfl]
  decide

end gl
